import Mathlib

/-!
# VFS FSAL internals: access evaluation, statistics, initialisation, throttle, handles

A shallow embedding of `src/FSAL/FSAL_VFS/fsal_internal.c`.

* `fsal_internal_testAccess` is a pure function of its four arguments; pointers
  that may be `NULL` are `Option`s.
* `fsal_increment_nbcall` and `fsal_internal_getstats` act on the calling
  thread's slot of the key `key_stats`; the slot is passed in and out
  explicitly.  What the C library answers in one call (`pthread_once`,
  `Mem_Alloc_Label`, `pthread_setspecific`) is an explicit argument of type
  `call_env`.  The counters are machine integers of `counter_bits` bits.
* `fsal_internal_init_global`, `TakeTokenFSCall` and `ReleaseTokenFSCall` act on
  the process-wide variables `fsal_globals`.
* The handle operations return an `op_result`: the status, the content of the
  output argument, and the events (requests to the facility, `close`, reports
  to the statistics) in order.  The answer of the facility to a request is an
  explicit argument.
* Constants, macros and helper functions that the file takes from headers or
  from other translation units are parameters (`fsal_consts`, `FSAL_NB_FUNC`,
  `counter_bits`, `unix2fsal_mode`, `FSAL_IS_ERROR`, `fsal_is_retryable`,
  `vfs_macros`, `handle_params`).
-/

namespace FsalVfs

/-! ## Status values -/

/-- Major status codes.  The constructors named `ERR_FSAL_*` are the codes that
`fsal_internal.c` mentions by name; `ERR_FSAL_other` stands for the remaining
members of the enumeration. -/
inductive fsal_errors_t where
  | ERR_FSAL_NO_ERROR
  | ERR_FSAL_FAULT
  | ERR_FSAL_INVAL
  | ERR_FSAL_ACCESS
  | ERR_FSAL_NOTSUPP
  | ERR_FSAL_SERVERFAULT
  | ERR_FSAL_other (code : Nat)
  deriving DecidableEq, Repr

open fsal_errors_t

/-- The status returned by every FSAL call: a major code and a minor code. -/
structure fsal_status_t where
  major : fsal_errors_t
  minor : Int
  deriving DecidableEq, Repr

/-- Modelled from the spec: the macro `ReturnCode(code, minor)` comes from a
header that is not among the sources; every operation returns a result value
(spec section 7), so the macro is taken to return the status made of the two
codes, without any other effect. -/
def ReturnCode (code : fsal_errors_t) (minor : Int) : fsal_status_t :=
  { major := code, minor := minor }

/-! ## Access evaluation -/

/-- Values of the access-flag macros (`FSAL_R_OK` ...) and of the mode-bit
macros (`FSAL_MODE_RUSR` ...) that `fsal_internal_testAccess` uses.  Their
definitions are in a header that is not among the sources, so they are taken
as parameters. -/
structure fsal_consts where
  FSAL_R_OK : Nat
  FSAL_W_OK : Nat
  FSAL_X_OK : Nat
  FSAL_F_OK : Nat
  FSAL_OWNER_OK : Nat
  FSAL_MODE_RUSR : Nat
  FSAL_MODE_WUSR : Nat
  FSAL_MODE_XUSR : Nat
  FSAL_MODE_RGRP : Nat
  FSAL_MODE_WGRP : Nat
  FSAL_MODE_XGRP : Nat
  FSAL_MODE_ROTH : Nat
  FSAL_MODE_WOTH : Nat
  FSAL_MODE_XOTH : Nat
  deriving DecidableEq, Repr

/-- Modelled from the spec: concrete values for the macros of `fsal_consts`,
whose header is not among the sources.  The spec names five access bits (read,
write, execute, owner-intent, existence-only) and writes modes in POSIX octal
(scenario modes 0644 and 0000); the five access flags are taken as five
distinct bits and the mode bits as the POSIX triads. -/
def spec_consts : fsal_consts :=
  { FSAL_R_OK := 4, FSAL_W_OK := 2, FSAL_X_OK := 1, FSAL_F_OK := 16, FSAL_OWNER_OK := 8,
    FSAL_MODE_RUSR := 0o400, FSAL_MODE_WUSR := 0o200, FSAL_MODE_XUSR := 0o100,
    FSAL_MODE_RGRP := 0o040, FSAL_MODE_WGRP := 0o020, FSAL_MODE_XGRP := 0o010,
    FSAL_MODE_ROTH := 0o004, FSAL_MODE_WOTH := 0o002, FSAL_MODE_XOTH := 0o001 }

/-- The credential of an operation context: `user`, `group` and the
supplementary groups.  The list `alt_groups` holds the first `nbgroups`
entries of the C array, the only ones the code reads. -/
structure fsal_cred_t where
  user : Nat
  group : Nat
  alt_groups : List Nat
  deriving DecidableEq, Repr

/-- Number of supplementary groups of a credential. -/
def fsal_cred_t.nbgroups (c : fsal_cred_t) : Nat := c.alt_groups.length

/-- The part of `fsal_op_context_t` that the access check reads. -/
structure fsal_op_context_t where
  credential : fsal_cred_t
  deriving DecidableEq, Repr

/-- The fields of `struct stat` that the access check reads. -/
structure struct_stat where
  st_uid : Nat
  st_gid : Nat
  st_mode : Nat
  deriving DecidableEq, Repr

/-- The fields of `fsal_attrib_list_t` that the access check reads. -/
structure fsal_attrib_list_t where
  owner : Nat
  group : Nat
  mode : Nat
  deriving DecidableEq, Repr

/-- The C statement `missing_access &= ~flag` on an unsigned word: the bits of
`flag` are cleared in `missing_access`.  Written without a complement, so that
it does not depend on the width of the word. -/
def clear_flag (missing_access flag : Nat) : Nat :=
  missing_access ^^^ (missing_access &&& flag)

/-- The loop over `alt_groups` in `fsal_internal_testAccess`, entered with
`is_grp` false: each entry is compared with `gid`, the loop breaks at the first
match, and `is_grp` keeps the value of the last comparison made. -/
def alt_groups_loop (gid : Nat) : List Nat → Bool
  | [] => false
  | g :: rest => if g = gid then true else alt_groups_loop gid rest

/-- The body of `fsal_internal_testAccess` after the sanity checks, with the
object's `uid`, `gid` and `mode` already read from whichever metadata source
is present (reading them has no effect, so doing it first changes nothing). -/
def testAccess_checks (K : fsal_consts) (credential : fsal_cred_t)
    (access_type uid gid mode : Nat) : fsal_status_t :=
  -- If the FSAL_F_OK flag is set, returns ERR INVAL
  if access_type &&& K.FSAL_F_OK ≠ 0 then ReturnCode ERR_FSAL_INVAL 0
  -- The root user ignores the mode/uid/gid of the file
  else if credential.user = 0 then ReturnCode ERR_FSAL_NO_ERROR 0
  else
    let missing_access := access_type
    if credential.user = uid then
      let missing_access :=
        if mode &&& K.FSAL_MODE_RUSR ≠ 0 then clear_flag missing_access K.FSAL_R_OK
        else missing_access
      let missing_access :=
        if mode &&& K.FSAL_MODE_WUSR ≠ 0 then clear_flag missing_access K.FSAL_W_OK
        else missing_access
      let missing_access :=
        if mode &&& K.FSAL_MODE_XUSR ≠ 0 then clear_flag missing_access K.FSAL_X_OK
        else missing_access
      -- handle the creation of a new 500 file correctly
      let missing_access :=
        if missing_access &&& K.FSAL_OWNER_OK ≠ 0 then 0 else missing_access
      if missing_access = 0 then ReturnCode ERR_FSAL_NO_ERROR 0
      else ReturnCode ERR_FSAL_ACCESS 0
    else
      let missing_access := clear_flag missing_access K.FSAL_OWNER_OK
      -- Test if the file belongs to user's group.
      let is_grp : Bool := decide (credential.group = gid)
      -- Test if file belongs to alt user's groups
      let is_grp : Bool :=
        if !is_grp then alt_groups_loop gid credential.alt_groups else is_grp
      if is_grp then
        let missing_access :=
          if mode &&& K.FSAL_MODE_RGRP ≠ 0 then clear_flag missing_access K.FSAL_R_OK
          else missing_access
        let missing_access :=
          if mode &&& K.FSAL_MODE_WGRP ≠ 0 then clear_flag missing_access K.FSAL_W_OK
          else missing_access
        let missing_access :=
          if mode &&& K.FSAL_MODE_XGRP ≠ 0 then clear_flag missing_access K.FSAL_X_OK
          else missing_access
        if missing_access = 0 then ReturnCode ERR_FSAL_NO_ERROR 0
        else ReturnCode ERR_FSAL_ACCESS 0
      else
        let missing_access :=
          if mode &&& K.FSAL_MODE_ROTH ≠ 0 then clear_flag missing_access K.FSAL_R_OK
          else missing_access
        let missing_access :=
          if mode &&& K.FSAL_MODE_WOTH ≠ 0 then clear_flag missing_access K.FSAL_W_OK
          else missing_access
        let missing_access :=
          if mode &&& K.FSAL_MODE_XOTH ≠ 0 then clear_flag missing_access K.FSAL_X_OK
          else missing_access
        if missing_access = 0 then ReturnCode ERR_FSAL_NO_ERROR 0
        else ReturnCode ERR_FSAL_ACCESS 0

/-- The function `fsal_internal_testAccess`.  `unix2fsal_mode` is the mode
conversion of another translation unit, taken as a parameter.  The first two
cases are the sanity check `(!p_object_attributes && !p_buffstat) || !p_context`;
the attribute list, when present, takes precedence over the stat buffer. -/
def fsal_internal_testAccess (K : fsal_consts) (unix2fsal_mode : Nat → Nat)
    (p_context : Option fsal_op_context_t) (access_type : Nat)
    (p_buffstat : Option struct_stat)
    (p_object_attributes : Option fsal_attrib_list_t) : fsal_status_t :=
  match p_context, p_object_attributes, p_buffstat with
  | none, _, _ => ReturnCode ERR_FSAL_FAULT 0
  | some _, none, none => ReturnCode ERR_FSAL_FAULT 0
  | some ctx, some attrs, _ =>
      testAccess_checks K ctx.credential access_type attrs.owner attrs.group attrs.mode
  | some ctx, none, some st =>
      testAccess_checks K ctx.credential access_type st.st_uid st.st_gid
        (unix2fsal_mode st.st_mode)

/-! ### Vocabulary of the specification for the access evaluator -/

/-- The object metadata snapshot (owner, group, mode) that an access decision
uses: the attribute list when present, otherwise the stat buffer with its mode
converted. -/
def object_metadata (unix2fsal_mode : Nat → Nat) (p_buffstat : Option struct_stat)
    (p_object_attributes : Option fsal_attrib_list_t) : Option fsal_attrib_list_t :=
  match p_object_attributes, p_buffstat with
  | some attrs, _ => some attrs
  | none, some st =>
      some { owner := st.st_uid, group := st.st_gid, mode := unix2fsal_mode st.st_mode }
  | none, none => none

/-- Access flags granted by three mode bits `r`, `w`, `x` of `mode`: read,
write and execute are granted when the corresponding mode bit is set. -/
def triad_bits (K : fsal_consts) (r w x mode : Nat) : Nat :=
  (if mode &&& r ≠ 0 then K.FSAL_R_OK else 0) |||
  (if mode &&& w ≠ 0 then K.FSAL_W_OK else 0) |||
  (if mode &&& x ≠ 0 then K.FSAL_X_OK else 0)

/-- Access flags granted by the owner triad of `mode`. -/
def owner_triad_bits (K : fsal_consts) (mode : Nat) : Nat :=
  triad_bits K K.FSAL_MODE_RUSR K.FSAL_MODE_WUSR K.FSAL_MODE_XUSR mode

/-- Access flags granted by the group triad of `mode`. -/
def group_triad_bits (K : fsal_consts) (mode : Nat) : Nat :=
  triad_bits K K.FSAL_MODE_RGRP K.FSAL_MODE_WGRP K.FSAL_MODE_XGRP mode

/-- Access flags granted by the other triad of `mode`. -/
def other_triad_bits (K : fsal_consts) (mode : Nat) : Nat :=
  triad_bits K K.FSAL_MODE_ROTH K.FSAL_MODE_WOTH K.FSAL_MODE_XOTH mode

/-- Group membership of a credential: the primary group or a supplementary
group equals `gid`. -/
def in_group (credential : fsal_cred_t) (gid : Nat) : Prop :=
  credential.group = gid ∨ gid ∈ credential.alt_groups

instance (credential : fsal_cred_t) (gid : Nat) : Decidable (in_group credential gid) := by
  unfold in_group; infer_instance

/-- Every bit set in `requested` is set in `granted`. -/
def bits_subset (requested granted : Nat) : Prop :=
  ∀ k : Nat, requested.testBit k = true → granted.testBit k = true

/-- Every bit set in `requested`, other than the bits of `excepted`, is set in
`granted`. -/
def bits_subset_except (requested excepted granted : Nat) : Prop :=
  ∀ k : Nat, requested.testBit k = true → excepted.testBit k = false →
    granted.testBit k = true

/-! ## Per-thread call statistics -/

/-- The member `func_stats` of `fsal_statistics_t`: four arrays of
`FSAL_NB_FUNC` counters, indexed by function.  The arrays are indexed by
`Fin FSAL_NB_FUNC`, the valid indices of the C arrays.  A counter is the value
of a machine integer, held as a natural number; the statement `++` on it is
`counter_incr`, which keeps it within the width of the type. -/
structure func_stats_t (FSAL_NB_FUNC : Nat) where
  nb_call : Fin FSAL_NB_FUNC → Nat
  nb_success : Fin FSAL_NB_FUNC → Nat
  nb_err_retryable : Fin FSAL_NB_FUNC → Nat
  nb_err_unrecover : Fin FSAL_NB_FUNC → Nat

/-- The structure `fsal_statistics_t`. -/
structure fsal_statistics_t (FSAL_NB_FUNC : Nat) where
  func_stats : func_stats_t FSAL_NB_FUNC

/-- The calling thread, as far as the statistics code sees it: the value bound
to the key `key_stats`, which `pthread_getspecific` returns and
`pthread_setspecific` replaces (`none` is `NULL`). -/
structure thread_specific (FSAL_NB_FUNC : Nat) where
  key_stats : Option (fsal_statistics_t FSAL_NB_FUNC)

/-- What the C library answers during one call: whether `pthread_once`
returned 0, whether `Mem_Alloc_Label` returned a block, and whether
`pthread_setspecific` bound the new record to the key `key_stats` (the last two
are asked only when the thread has no record).  The code ignores what
`pthread_setspecific` returns.  The binding fails when the library lacks
memory, and also when the key was never created: `init_keys` only logs a
failure of `pthread_key_create`, and `pthread_once` returns 0 all the same.
For a key that was never created `pthread_getspecific` is taken to return
`NULL`, so the thread's slot is `none` then and `setspecific_ok` is false in
every call. -/
structure call_env where
  once_ok : Bool
  alloc_ok : Bool
  setspecific_ok : Bool
  deriving DecidableEq, Repr

/-- The record after the initialisation loop
`for(i = 0; i < FSAL_NB_FUNC; i++)` that follows the allocation: every counter
of every function is 0. -/
def init_stats (FSAL_NB_FUNC : Nat) : fsal_statistics_t FSAL_NB_FUNC :=
  { func_stats :=
      { nb_call := fun _ => 0, nb_success := fun _ => 0,
        nb_err_retryable := fun _ => 0, nb_err_unrecover := fun _ => 0 } }

/-- The C statement `c++` on one counter.  The element type of the counter
arrays is declared in a header that is not among the sources; it is taken as an
unsigned integer type of `counter_bits` bits, on which `++` at the largest
value, `2 ^ counter_bits - 1`, wraps to 0.  (On a signed type `++` at the
largest value would have no defined result; what is proved about an increase by
one asks the counter to be below the largest value.) -/
def counter_incr (counter_bits : Nat) (c : Nat) : Nat :=
  (c + 1) % 2 ^ counter_bits

/-- The C statement `a[i]++` on an array of `FSAL_NB_FUNC` counters with a
signed index.  An index outside `0 .. FSAL_NB_FUNC - 1` is an access outside
the array, for which C defines no behaviour: the result is `none`. -/
def array_incr (counter_bits : Nat) {FSAL_NB_FUNC : Nat} (a : Fin FSAL_NB_FUNC → Nat)
    (i : Int) : Option (Fin FSAL_NB_FUNC → Nat) :=
  if h : 0 ≤ i ∧ i < (FSAL_NB_FUNC : Int) then
    some (Function.update a ⟨i.toNat, by omega⟩
      (counter_incr counter_bits (a ⟨i.toNat, by omega⟩)))
  else none

/-- The final block of `fsal_increment_nbcall`: `nb_call[function_index]++`,
then one of the three outcome counters.  `none` when an array is accessed
outside its bounds. -/
def increment_values (counter_bits : Nat) {FSAL_NB_FUNC : Nat}
    (FSAL_IS_ERROR fsal_is_retryable : fsal_status_t → Bool)
    (function_index : Int) (status : fsal_status_t)
    (bythread_stat : fsal_statistics_t FSAL_NB_FUNC) : Option (fsal_statistics_t FSAL_NB_FUNC) :=
  let fs := bythread_stat.func_stats
  match array_incr counter_bits fs.nb_call function_index with
  | none => none
  | some nb_call =>
    let fs := { fs with nb_call := nb_call }
    if !FSAL_IS_ERROR status then
      match array_incr counter_bits fs.nb_success function_index with
      | none => none
      | some a => some { func_stats := { fs with nb_success := a } }
    else if fsal_is_retryable status then
      match array_incr counter_bits fs.nb_err_retryable function_index with
      | none => none
      | some a => some { func_stats := { fs with nb_err_retryable := a } }
    else
      match array_incr counter_bits fs.nb_err_unrecover function_index with
      | none => none
      | some a => some { func_stats := { fs with nb_err_unrecover := a } }

/-- The function `fsal_increment_nbcall`, as a transformer of the calling
thread's slot.  `FSAL_NB_FUNC`, the width of the counters, the macro
`FSAL_IS_ERROR` and the classifier `fsal_is_retryable` come from outside the
file and are parameters.  The result is `none` when the call accesses an array
outside its bounds; otherwise it is the slot after the call.  The function
returns nothing to its caller.  The index check compares two signed integers:
`function_index` is an `int` and `FSAL_NB_FUNC` is an integer constant, the
bound of the loop on `int i`.  On a thread without a record the new record is
incremented through the local pointer whether or not `pthread_setspecific`
bound it; when it did not, the thread's slot stays empty and the block is
lost. -/
def fsal_increment_nbcall (FSAL_NB_FUNC counter_bits : Nat)
    (FSAL_IS_ERROR fsal_is_retryable : fsal_status_t → Bool)
    (env : call_env) (function_index : Int) (status : fsal_status_t)
    (thr : thread_specific FSAL_NB_FUNC) : Option (thread_specific FSAL_NB_FUNC) :=
  -- verify index
  if function_index ≥ (FSAL_NB_FUNC : Int) then some thr
  -- first, we init the keys if this is the first time
  else if !env.once_ok then some thr
  else
    -- we get the specific value
    match thr.key_stats with
    | none =>
      -- we allocate stats if this is the first time
      if !env.alloc_ok then
        -- we don't have real memory, bail
        some thr
      else
        -- inits the struct, set the specific value, increment the values
        match increment_values counter_bits FSAL_IS_ERROR fsal_is_retryable function_index
            status (init_stats FSAL_NB_FUNC) with
        | none => none
        | some s => if env.setspecific_ok then some { key_stats := some s } else some thr
    | some bythread_stat =>
      -- we increment the values
      match increment_values counter_bits FSAL_IS_ERROR fsal_is_retryable function_index
          status bythread_stat with
      | none => none
      | some s => some { key_stats := some s }

/-- The function `fsal_internal_getstats`.  `output_stats` is the structure the
argument points to before the call (`none` for a `NULL` pointer); the result is
the calling thread's slot and that structure after the call.  On a thread
without a record the new record is copied out through the local pointer whether
or not `pthread_setspecific` bound it; when it did not, the thread's slot stays
empty. -/
def fsal_internal_getstats (FSAL_NB_FUNC : Nat) (env : call_env)
    (output_stats : Option (fsal_statistics_t FSAL_NB_FUNC))
    (thr : thread_specific FSAL_NB_FUNC) :
    thread_specific FSAL_NB_FUNC × Option (fsal_statistics_t FSAL_NB_FUNC) :=
  -- first, we init the keys if this is the first time
  if !env.once_ok then (thr, output_stats)
  else
    -- we get the specific value
    match thr.key_stats with
    | none =>
      -- we allocate stats if this is the first time
      if !env.alloc_ok then
        -- we don't have working memory, bail
        (thr, output_stats)
      else
        -- inits the struct, set the specific value
        let bythread_stat := init_stats FSAL_NB_FUNC
        (if env.setspecific_ok then { key_stats := some bythread_stat } else thr,
          match output_stats with
          | none => none
          | some _ => some bythread_stat)
    | some bythread_stat =>
      (thr,
        match output_stats with
        | none => none
        | some _ => some bythread_stat)

/-! ### Vocabulary of the specification for the statistics collector -/

/-- One call of `fsal_increment_nbcall`: its arguments and what the C library
answers during it. -/
structure nbcall where
  env : call_env
  function_index : Int
  status : fsal_status_t

/-- A finite sequence of calls of `fsal_increment_nbcall` made by one thread,
in order. -/
def run_nbcalls (FSAL_NB_FUNC counter_bits : Nat)
    (FSAL_IS_ERROR fsal_is_retryable : fsal_status_t → Bool) :
    List nbcall → thread_specific FSAL_NB_FUNC → Option (thread_specific FSAL_NB_FUNC)
  | [], thr => some thr
  | c :: cs, thr =>
    match fsal_increment_nbcall FSAL_NB_FUNC counter_bits FSAL_IS_ERROR fsal_is_retryable
        c.env c.function_index c.status thr with
    | none => none
    | some thr1 => run_nbcalls FSAL_NB_FUNC counter_bits FSAL_IS_ERROR fsal_is_retryable cs thr1

/-- The counter `calls` of identifier `i`, taken as 0 when the thread has no
record. -/
def calls {N : Nat} (thr : thread_specific N) (i : Fin N) : Nat :=
  match thr.key_stats with
  | none => 0
  | some s => s.func_stats.nb_call i

/-- The counter `successes` of identifier `i`, taken as 0 when the thread has
no record. -/
def successes {N : Nat} (thr : thread_specific N) (i : Fin N) : Nat :=
  match thr.key_stats with
  | none => 0
  | some s => s.func_stats.nb_success i

/-- The counter `retryable_errors` of identifier `i`, taken as 0 when the
thread has no record. -/
def retryable_errors {N : Nat} (thr : thread_specific N) (i : Fin N) : Nat :=
  match thr.key_stats with
  | none => 0
  | some s => s.func_stats.nb_err_retryable i

/-- The counter `unrecoverable_errors` of identifier `i`, taken as 0 when the
thread has no record. -/
def unrecoverable_errors {N : Nat} (thr : thread_specific N) (i : Fin N) : Nat :=
  match thr.key_stats with
  | none => 0
  | some s => s.func_stats.nb_err_unrecover i

/-- The statistics invariant: for every identifier, calls is the sum of the
three outcome counters. -/
def stats_invariant {N : Nat} (thr : thread_specific N) : Prop :=
  ∀ i : Fin N, calls thr i = successes thr i + retryable_errors thr i + unrecoverable_errors thr i

/-- Modelled from the spec: the macro `FSAL_IS_ERROR` is defined in a header
that is not among the sources; an outcome is taken as a success when its major
code is `ERR_FSAL_NO_ERROR` and as an error otherwise.  Used for concrete runs
only; the theorems hold for every classification. -/
def is_error_major (status : fsal_status_t) : Bool :=
  decide (status.major ≠ ERR_FSAL_NO_ERROR)

/-- Modelled from the spec: a stand-in for the error classifier
`fsal_is_retryable`, which belongs to another translation unit; it calls no
status retryable.  Used for concrete runs only; the theorems hold for every
classifier. -/
def never_retryable (_ : fsal_status_t) : Bool := false

/-! ## Capability table and initialisation -/

/-- The merge policies of `fsal_initflag_t` that the file names, and
`FSAL_INIT_other` for any other value the field may hold (the `default:` case
of the three merge macros). -/
inductive fsal_initflag_t where
  | FSAL_INIT_FS_DEFAULT
  | FSAL_INIT_FORCE_VALUE
  | FSAL_INIT_MAX_LIMIT
  | FSAL_INIT_MIN_LIMIT
  | FSAL_INIT_other (code : Nat)
  deriving DecidableEq, Repr

open fsal_initflag_t

/-- A duration, `{seconds, nseconds}`. -/
structure fsal_time_t where
  seconds : Nat
  nseconds : Nat
  deriving DecidableEq, Repr

/-- The capability table `fsal_staticfsinfo_t`, with the fields in the order of
the initialiser of `default_vfs_info` (the names are those of the merge calls
and of the log messages).  Sizes, limits and masks are natural numbers, flags
are booleans. -/
structure fsal_staticfsinfo_t where
  maxfilesize : Nat
  maxlink : Nat
  maxnamelen : Nat
  maxpathlen : Nat
  no_trunc : Bool
  chown_restricted : Bool
  case_insensitive : Bool
  case_preserving : Bool
  fh_expire_type : Nat
  link_support : Bool
  symlink_support : Bool
  lock_support : Bool
  named_attr : Bool
  unique_handles : Bool
  lease_time : fsal_time_t
  acl_support : Nat
  cansettime : Bool
  homogenous : Bool
  supported_attrs : Nat
  maxread : Nat
  maxwrite : Nat
  umask : Nat
  auth_exportpath_xdev : Bool
  xattr_access_rights : Nat
  deriving DecidableEq, Repr

/-- The member `behaviors` of `fs_common_initinfo_t`: one merge policy for each
field that `fsal_internal_init_global` looks at. -/
structure fs_behaviors_t where
  maxfilesize : fsal_initflag_t
  maxlink : fsal_initflag_t
  maxnamelen : fsal_initflag_t
  maxpathlen : fsal_initflag_t
  no_trunc : fsal_initflag_t
  case_insensitive : fsal_initflag_t
  case_preserving : fsal_initflag_t
  named_attr : fsal_initflag_t
  lease_time : fsal_initflag_t
  supported_attrs : fsal_initflag_t
  homogenous : fsal_initflag_t
  symlink_support : fsal_initflag_t
  link_support : fsal_initflag_t
  lock_support : fsal_initflag_t
  cansettime : fsal_initflag_t
  maxread : fsal_initflag_t
  maxwrite : fsal_initflag_t
  umask : fsal_initflag_t
  auth_exportpath_xdev : fsal_initflag_t
  xattr_access_rights : fsal_initflag_t
  deriving DecidableEq, Repr

/-- The structure `fs_common_initinfo_t`: the policies and the configured
values. -/
structure fs_common_initinfo_t where
  behaviors : fs_behaviors_t
  values : fsal_staticfsinfo_t
  deriving DecidableEq, Repr

/-- The part of `fsal_init_info_t` that the initialisation reads: the maximum
number of simultaneous calls, an unsigned number (it is logged with `%u`). -/
structure fsal_init_info_t where
  max_fs_calls : Nat
  deriving DecidableEq, Repr

/-- The structure `fs_specific_initinfo_t`: the initialisation only tests the
pointer to it. -/
structure fs_specific_initinfo_t where
  deriving DecidableEq, Repr

/-- Values of the macros that the initialiser of `default_vfs_info` takes from
headers that are not among the sources. -/
structure vfs_macros where
  _POSIX_LINK_MAX : Nat
  FSAL_MAX_NAME_LEN : Nat
  FSAL_MAX_PATH_LEN : Nat
  FSAL_EXPTYPE_PERSISTENT : Nat
  FSAL_ACLSUPPORT_ALLOW : Nat
  VFS_SUPPORTED_ATTRIBUTES : Nat
  deriving DecidableEq, Repr

/-- The static table `default_vfs_info`. -/
def default_vfs_info (M : vfs_macros) : fsal_staticfsinfo_t :=
  { maxfilesize := 0xFFFFFFFFFFFFFFFF,
    maxlink := M._POSIX_LINK_MAX,
    maxnamelen := M.FSAL_MAX_NAME_LEN,
    maxpathlen := M.FSAL_MAX_PATH_LEN,
    no_trunc := true,
    chown_restricted := true,
    case_insensitive := false,
    case_preserving := true,
    fh_expire_type := M.FSAL_EXPTYPE_PERSISTENT,
    link_support := true,
    symlink_support := true,
    lock_support := false,
    named_attr := true,
    unique_handles := true,
    lease_time := { seconds := 10, nseconds := 0 },
    acl_support := M.FSAL_ACLSUPPORT_ALLOW,
    cansettime := true,
    homogenous := true,
    supported_attrs := M.VFS_SUPPORTED_ATTRIBUTES,
    maxread := 0,
    maxwrite := 0,
    umask := 0,
    auth_exportpath_xdev := false,
    xattr_access_rights := 0o400 }

/-- The macro `SET_INTEGER_PARAM` for one field: `cfg` is the field of the
table, `value` the configured value. -/
def SET_INTEGER_PARAM (behavior : fsal_initflag_t) (cfg value : Nat) : Nat :=
  match behavior with
  | FSAL_INIT_FORCE_VALUE => value
  | FSAL_INIT_MAX_LIMIT => if cfg > value then value else cfg
  | FSAL_INIT_MIN_LIMIT => if cfg < value then value else cfg
  | FSAL_INIT_FS_DEFAULT => cfg
  | FSAL_INIT_other _ => cfg

/-- The macro `SET_BITMAP_PARAM` for one field. -/
def SET_BITMAP_PARAM (behavior : fsal_initflag_t) (cfg value : Nat) : Nat :=
  match behavior with
  | FSAL_INIT_FORCE_VALUE => value
  | FSAL_INIT_MAX_LIMIT => cfg &&& value
  | FSAL_INIT_MIN_LIMIT => cfg ||| value
  | FSAL_INIT_FS_DEFAULT => cfg
  | FSAL_INIT_other _ => cfg

/-- The macro `SET_BOOLEAN_PARAM` for one field; the source combines with `&&`
under `FSAL_INIT_MAX_LIMIT` and under `FSAL_INIT_MIN_LIMIT` alike. -/
def SET_BOOLEAN_PARAM (behavior : fsal_initflag_t) (cfg value : Bool) : Bool :=
  match behavior with
  | FSAL_INIT_FORCE_VALUE => value
  | FSAL_INIT_MAX_LIMIT => cfg && value
  | FSAL_INIT_MIN_LIMIT => cfg && value
  | FSAL_INIT_FS_DEFAULT => cfg
  | FSAL_INIT_other _ => cfg

/-- Modelled from the spec: the type `semaphore_t` and the functions
`semaphore_init`, `semaphore_P`, `semaphore_V` belong to another translation
unit.  The spec describes the pool as a counting gate of permits; `count` is
the number of permits that can still be taken. -/
structure semaphore_t where
  count : Nat
  deriving DecidableEq, Repr

/-- Modelled from the spec: `semaphore_P`, which belongs to another translation
unit, takes one permit when one is available; otherwise the caller waits, which
is the result `none` (the call does not return in this state). -/
def semaphore_P (sem : semaphore_t) : Option semaphore_t :=
  if 0 < sem.count then some { count := sem.count - 1 } else none

/-- Modelled from the spec: `semaphore_V`, which belongs to another translation
unit, gives one permit back. -/
def semaphore_V (sem : semaphore_t) : semaphore_t :=
  { count := sem.count + 1 }

/-- The process-wide variables of the file that the initialisation and the
throttle use: `limit_calls`, `sem_fs_calls` (`none` until `semaphore_init` has
succeeded on it) and `global_fs_info`. -/
structure fsal_globals where
  limit_calls : Bool
  sem_fs_calls : Option semaphore_t
  global_fs_info : fsal_staticfsinfo_t
  deriving DecidableEq, Repr

/-- The test on the fields that the filesystem keeps fixed: some policy among
the eleven is not `FSAL_INIT_FS_DEFAULT`. -/
def overrides_fixed_field (b : fs_behaviors_t) : Prop :=
  b.maxfilesize ≠ FSAL_INIT_FS_DEFAULT ∨
  b.maxlink ≠ FSAL_INIT_FS_DEFAULT ∨
  b.maxnamelen ≠ FSAL_INIT_FS_DEFAULT ∨
  b.maxpathlen ≠ FSAL_INIT_FS_DEFAULT ∨
  b.no_trunc ≠ FSAL_INIT_FS_DEFAULT ∨
  b.case_insensitive ≠ FSAL_INIT_FS_DEFAULT ∨
  b.case_preserving ≠ FSAL_INIT_FS_DEFAULT ∨
  b.named_attr ≠ FSAL_INIT_FS_DEFAULT ∨
  b.lease_time ≠ FSAL_INIT_FS_DEFAULT ∨
  b.supported_attrs ≠ FSAL_INIT_FS_DEFAULT ∨
  b.homogenous ≠ FSAL_INIT_FS_DEFAULT

instance (b : fs_behaviors_t) : Decidable (overrides_fixed_field b) := by
  unfold overrides_fixed_field; infer_instance

/-- The merge calls of `fsal_internal_init_global`, in the order of the source,
applied to the table `cfg`. -/
def merge_common_info (cfg : fsal_staticfsinfo_t) (info : fs_common_initinfo_t) :
    fsal_staticfsinfo_t :=
  let b := info.behaviors
  let v := info.values
  let cfg := { cfg with symlink_support := SET_BOOLEAN_PARAM b.symlink_support cfg.symlink_support v.symlink_support }
  let cfg := { cfg with link_support := SET_BOOLEAN_PARAM b.link_support cfg.link_support v.link_support }
  let cfg := { cfg with lock_support := SET_BOOLEAN_PARAM b.lock_support cfg.lock_support v.lock_support }
  let cfg := { cfg with cansettime := SET_BOOLEAN_PARAM b.cansettime cfg.cansettime v.cansettime }
  let cfg := { cfg with maxread := SET_INTEGER_PARAM b.maxread cfg.maxread v.maxread }
  let cfg := { cfg with maxwrite := SET_INTEGER_PARAM b.maxwrite cfg.maxwrite v.maxwrite }
  let cfg := { cfg with umask := SET_BITMAP_PARAM b.umask cfg.umask v.umask }
  let cfg := { cfg with auth_exportpath_xdev := SET_BOOLEAN_PARAM b.auth_exportpath_xdev cfg.auth_exportpath_xdev v.auth_exportpath_xdev }
  { cfg with xattr_access_rights := SET_BITMAP_PARAM b.xattr_access_rights cfg.xattr_access_rights v.xattr_access_rights }

/-- The function `fsal_internal_init_global`, as a transformer of the
process-wide variables.  `semaphore_init_rc` is what `semaphore_init` returns
when it is called; on 0 the semaphore holds `max_fs_calls` permits, otherwise
the semaphore is left as it was. -/
def fsal_internal_init_global (M : vfs_macros) (fsal_info : Option fsal_init_info_t)
    (fs_common_info : Option fs_common_initinfo_t)
    (fs_specific_info : Option fs_specific_initinfo_t) (semaphore_init_rc : Int)
    (g : fsal_globals) : fsal_status_t × fsal_globals :=
  match fsal_info, fs_common_info, fs_specific_info with
  | some info, some common, some _ =>
    -- inits FS call semaphore
    if info.max_fs_calls > 0 then
      let g := { g with limit_calls := true }
      if semaphore_init_rc ≠ 0 then (ReturnCode ERR_FSAL_SERVERFAULT semaphore_init_rc, g)
      else
        let g := { g with sem_fs_calls := some { count := info.max_fs_calls } }
        -- setting default values.
        let g := { g with global_fs_info := default_vfs_info M }
        -- Analyzing fs_common_info struct
        if overrides_fixed_field common.behaviors then (ReturnCode ERR_FSAL_NOTSUPP 0, g)
        else
          (ReturnCode ERR_FSAL_NO_ERROR 0,
            { g with global_fs_info := merge_common_info g.global_fs_info common })
    else
      -- setting default values.
      let g := { g with global_fs_info := default_vfs_info M }
      -- Analyzing fs_common_info struct
      if overrides_fixed_field common.behaviors then (ReturnCode ERR_FSAL_NOTSUPP 0, g)
      else
        (ReturnCode ERR_FSAL_NO_ERROR 0,
          { g with global_fs_info := merge_common_info g.global_fs_info common })
  -- sanity check
  | _, _, _ => (ReturnCode ERR_FSAL_FAULT 0, g)

/-! ## Call throttle -/

/-- The function `TakeTokenFSCall`, on the process-wide variables.  The result
is `none` when the call does not return in this state: it waits for a permit,
or the semaphore was never initialised. -/
def TakeTokenFSCall (g : fsal_globals) : Option fsal_globals :=
  -- no limits
  if g.limit_calls = false then some g
  else
    -- there is a limit
    match g.sem_fs_calls with
    | none => none
    | some sem =>
      match semaphore_P sem with
      | none => none
      | some sem1 => some { g with sem_fs_calls := some sem1 }

/-- The function `ReleaseTokenFSCall`, on the process-wide variables; `none`
when the semaphore was never initialised. -/
def ReleaseTokenFSCall (g : fsal_globals) : Option fsal_globals :=
  -- no limits
  if g.limit_calls = false then some g
  else
    -- there is a limit
    match g.sem_fs_calls with
    | none => none
    | some sem => some { g with sem_fs_calls := some (semaphore_V sem) }

/-! ### Vocabulary of the specification for initialisation and throttle -/

/-- The numeric merge as the spec words it: Force overwrites, MaxLimit clamps
downward (the smaller of default and configured value), MinLimit clamps upward
(the larger of the two), any other policy keeps the default. -/
def spec_numeric_merge (behavior : fsal_initflag_t) (d v : Nat) : Nat :=
  match behavior with
  | FSAL_INIT_FORCE_VALUE => v
  | FSAL_INIT_MAX_LIMIT => min d v
  | FSAL_INIT_MIN_LIMIT => max d v
  | _ => d

/-- The bitmask merge as the spec words it: Force overwrites, MaxLimit is the
bitwise AND, MinLimit the bitwise OR, any other policy keeps the default. -/
def spec_bitmask_merge (behavior : fsal_initflag_t) (d v : Nat) : Nat :=
  match behavior with
  | FSAL_INIT_FORCE_VALUE => v
  | FSAL_INIT_MAX_LIMIT => d &&& v
  | FSAL_INIT_MIN_LIMIT => d ||| v
  | _ => d

/-- Throttling is enabled with `capacity` permits: the flag is set and the
semaphore holds that many permits. -/
def throttle_enabled_with (g : fsal_globals) (capacity : Nat) : Prop :=
  g.limit_calls = true ∧ g.sem_fs_calls = some { count := capacity }

/-- Throttling is disabled and no permit pool exists. -/
def throttle_disabled_no_pool (g : fsal_globals) : Prop :=
  g.limit_calls = false ∧ g.sem_fs_calls = none

/-- A call of the throttle: acquire (`TakeTokenFSCall`) or release
(`ReleaseTokenFSCall`). -/
inductive throttle_call where
  | take
  | release
  deriving DecidableEq, Repr

/-- A finite sequence of throttle calls, each returning before the next is
made; `none` when one of them does not return. -/
def run_throttle : List throttle_call → fsal_globals → Option fsal_globals
  | [], g => some g
  | throttle_call.take :: cs, g =>
    match TakeTokenFSCall g with
    | none => none
    | some g1 => run_throttle cs g1
  | throttle_call.release :: cs, g =>
    match ReleaseTokenFSCall g with
    | none => none
    | some g1 => run_throttle cs g1

/-! ## Handle resolver -/

/-- Values that the handle operations take from headers that are not among the
sources: the handle length, `AT_FDCWD`, `O_RDONLY`, and the statistics indices
of the two operations that report to the statistics. -/
structure handle_consts where
  OPENHANDLE_HANDLE_LEN : Nat
  AT_FDCWD : Int
  O_RDONLY : Int
  INDEX_FSAL_open : Int
  INDEX_FSAL_readlink : Int
  deriving DecidableEq, Repr

/-- What the handle operations take from outside the file: the constants, the
macro `FSAL_IS_ERROR`, the classifier `posix2fsal_error`, and the conversion
`major_of_int` of an `int` to the enumeration `fsal_errors_t` (what storing an
`int` in the member `major` does; it depends on the values of the enumeration,
which are in a header that is not among the sources). -/
structure handle_params where
  consts : handle_consts
  FSAL_IS_ERROR : fsal_status_t → Bool
  posix2fsal_error : Int → fsal_errors_t
  major_of_int : Int → fsal_errors_t

/-- The structure `struct file_handle`, member `data.handle` of a handle: the
length field `handle_size`, and in `bytes` all the other bytes of the
structure. -/
structure file_handle where
  handle_size : Nat
  bytes : List Nat
  deriving DecidableEq, Repr

/-- The member `data` of `fsal_handle_t`. -/
structure fsal_handle_data_t where
  handle : file_handle
  deriving DecidableEq, Repr

/-- The structure `fsal_handle_t`. -/
structure fsal_handle_t where
  data : fsal_handle_data_t
  deriving DecidableEq, Repr

/-- The structure `fsal_path_t`. -/
structure fsal_path_t where
  path : String
  deriving DecidableEq, Repr

/-- The structure `fsal_name_t`. -/
structure fsal_name_t where
  name : String
  deriving DecidableEq, Repr

/-- The export context, as far as the handle operations read it. -/
structure fsal_export_context_t where
  mount_root_fd : Int
  deriving DecidableEq, Repr

/-- The part of the operation context that the handle operations read: the
pointer `export_context` (`none` for `NULL`).  The credential part is
`fsal_op_context_t` above. -/
structure handle_op_context_t where
  export_context : Option fsal_export_context_t
  deriving DecidableEq, Repr

/-- What a thread does that other components can see, in order: a request to
the handle-translation facility through `ioctl` (with the value `rc` that the
request returned), `close`, and a report to the statistics made by the macros
`Return` and `ReturnStatus`. -/
inductive event where
  | name_to_handle (dfd : Int) (name : Option String) (rc : Int)
  | open_by_handle (mountdirfd : Int) (handle : file_handle) (flags : Int) (rc : Int)
  | link_by_fd (file_fd dir_fd : Int) (name : String) (rc : Int)
  | readlink_by_fd (fd : Int) (size : Nat) (rc : Int)
  | stat_by_handle (mountdirfd : Int) (handle : file_handle) (rc : Int)
  | close (fd : Int)
  | nbcall (function_index : Int) (status : fsal_status_t)
  deriving DecidableEq, Repr

/-- The answer of the facility to a request: the value `rc` that `ioctl`
returns and the value of `errno` after it. -/
structure ioctl_reply where
  rc : Int
  errno : Int
  deriving DecidableEq, Repr

/-- The answer of the facility to `OPENHANDLE_NAME_TO_HANDLE`: besides `rc` and
`errno`, what it stores through `harg.handle`.  `size_written` is the new value
of `handle_size` when the facility stores one; `bytes_written` gives, byte by
byte, the value stored (`none`: the byte is not populated). -/
structure name_handle_reply where
  rc : Int
  errno : Int
  size_written : Option Nat
  bytes_written : List (Option Nat)
  deriving DecidableEq, Repr

/-- The answer of the facility to `OPENHANDLE_READLINK_BY_FD`: besides `rc` and
`errno`, what it stores in the buffer, byte by byte. -/
structure readlink_reply where
  rc : Int
  errno : Int
  bytes_written : List (Option Nat)
  deriving DecidableEq, Repr

/-- The answer of the facility to `OPENHANDLE_STAT_BY_HANDLE`: besides `rc` and
`errno`, the stat structure it stores, if it stores one. -/
structure stat_reply where
  rc : Int
  errno : Int
  stat_written : Option struct_stat
  deriving DecidableEq, Repr

/-- The bytes of a buffer after the facility has stored `written` in it: a
populated byte takes the stored value, any other byte keeps its value. -/
def populate : List Nat → List (Option Nat) → List Nat
  | [], _ => []
  | b :: bs, [] => b :: bs
  | b :: bs, w :: ws => w.getD b :: populate bs ws

/-- The handle structure after the facility has answered `reply`. -/
def populate_handle (h : file_handle) (reply : name_handle_reply) : file_handle :=
  { handle_size := reply.size_written.getD h.handle_size,
    bytes := populate h.bytes reply.bytes_written }

/-- The C call `memset(p, 0, sizeof(struct file_handle))` on a handle
structure. -/
def memset_handle (h : file_handle) : file_handle :=
  { handle_size := 0, bytes := List.replicate h.bytes.length 0 }

/-- What a handle operation leaves behind: the status it returns, the content
of what its output pointer points to (`out`), and the events in order. -/
structure op_result (α : Type) where
  status : fsal_status_t
  out : α
  events : List event

/-- Modelled from the spec: the macro `Return(code, minor, index)` is defined
in a header that is not among the sources.  By the spec every classified
outcome is reported to the statistics under the identifier of the operation:
the macro reports the status under `index` and returns it. -/
def Return {α : Type} (P : handle_params) (code : Int) (minor : Int) (index : Int) (out : α)
    (events : List event) : op_result α :=
  let status : fsal_status_t := { major := P.major_of_int code, minor := minor }
  { status := status, out := out, events := events ++ [event.nbcall index status] }

/-- Modelled from the spec: the macro `ReturnStatus(status, index)` is defined
in a header that is not among the sources; as `Return`, with a status already
built. -/
def ReturnStatus {α : Type} (status : fsal_status_t) (index : Int) (out : α)
    (events : List event) : op_result α :=
  { status := status, out := out, events := events ++ [event.nbcall index status] }

/-- The function `fsal_internal_handle2fd_at`.  `pfd` is the integer that the
output pointer points to before the call (`none` for `NULL`); `reply` is the
answer of the facility to the request, if the request is issued. -/
def fsal_internal_handle2fd_at (P : handle_params) (dirfd : Int)
    (phandle : Option fsal_handle_t) (pfd : Option Int) (oflags : Int)
    (reply : ioctl_reply) : op_result (Option Int) :=
  match phandle, pfd with
  | some handle, some fd0 =>
    let ev := [event.open_by_handle dirfd handle.data.handle oflags reply.rc]
    if reply.rc < 0 then
      { status := ReturnCode (P.posix2fsal_error reply.errno) reply.errno, out := some fd0,
        events := ev }
    else
      { status := ReturnCode ERR_FSAL_NO_ERROR 0, out := some reply.rc, events := ev }
  | _, _ => { status := ReturnCode ERR_FSAL_FAULT 0, out := pfd, events := [] }

/-- The function `fsal_internal_handle2fd`. -/
def fsal_internal_handle2fd (P : handle_params) (p_context : Option handle_op_context_t)
    (phandle : Option fsal_handle_t) (pfd : Option Int) (oflags : Int)
    (reply : ioctl_reply) : op_result (Option Int) :=
  match phandle, pfd, p_context with
  | some _, some _, some ctx =>
    match ctx.export_context with
    | none => { status := ReturnCode ERR_FSAL_FAULT 0, out := pfd, events := [] }
    | some export_context =>
      let dirfd := export_context.mount_root_fd
      let r := fsal_internal_handle2fd_at P dirfd phandle pfd oflags reply
      if P.FSAL_IS_ERROR r.status then
        ReturnStatus r.status P.consts.INDEX_FSAL_open r.out r.events
      else
        { status := ReturnCode ERR_FSAL_NO_ERROR 0, out := r.out, events := r.events }
  | _, _, _ => { status := ReturnCode ERR_FSAL_FAULT 0, out := pfd, events := [] }

/-- The function `fsal_internal_get_handle`.  `p_handle` is the handle that the
output pointer points to before the call (`none` for `NULL`). -/
def fsal_internal_get_handle (P : handle_params) (p_context : Option handle_op_context_t)
    (p_fsalpath : Option fsal_path_t) (p_handle : Option fsal_handle_t)
    (reply : name_handle_reply) : op_result (Option fsal_handle_t) :=
  match p_context, p_handle, p_fsalpath with
  | some _, some handle, some fsalpath =>
    let h := { handle.data.handle with handle_size := P.consts.OPENHANDLE_HANDLE_LEN }
    let ev := [event.name_to_handle P.consts.AT_FDCWD (some fsalpath.path) reply.rc]
    let out : Option fsal_handle_t := some { data := { handle := populate_handle h reply } }
    if reply.rc < 0 then
      { status := ReturnCode (P.posix2fsal_error reply.errno) reply.errno, out := out,
        events := ev }
    else { status := ReturnCode ERR_FSAL_NO_ERROR 0, out := out, events := ev }
  | _, _, _ => { status := ReturnCode ERR_FSAL_FAULT 0, out := p_handle, events := [] }

/-- The function `fsal_internal_get_handle_at`. -/
def fsal_internal_get_handle_at (P : handle_params) (dfd : Int)
    (p_fsalname : Option fsal_name_t) (p_handle : Option fsal_handle_t)
    (reply : name_handle_reply) : op_result (Option fsal_handle_t) :=
  match p_handle, p_fsalname with
  | some handle, some fsalname =>
    let h := { handle.data.handle with handle_size := P.consts.OPENHANDLE_HANDLE_LEN }
    let ev := [event.name_to_handle dfd (some fsalname.name) reply.rc]
    let out : Option fsal_handle_t := some { data := { handle := populate_handle h reply } }
    if reply.rc < 0 then
      { status := ReturnCode (P.posix2fsal_error reply.errno) reply.errno, out := out,
        events := ev }
    else { status := ReturnCode ERR_FSAL_NO_ERROR 0, out := out, events := ev }
  | _, _ => { status := ReturnCode ERR_FSAL_FAULT 0, out := p_handle, events := [] }

/-- The function `fsal_internal_fd2handle`: the handle structure is zeroed,
its length field is set, and the facility is asked to fill it. -/
def fsal_internal_fd2handle (P : handle_params) (fd : Int) (p_handle : Option fsal_handle_t)
    (reply : name_handle_reply) : op_result (Option fsal_handle_t) :=
  match p_handle with
  | none => { status := ReturnCode ERR_FSAL_FAULT 0, out := p_handle, events := [] }
  | some handle =>
    let h := memset_handle handle.data.handle
    let h := { h with handle_size := P.consts.OPENHANDLE_HANDLE_LEN }
    let ev := [event.name_to_handle fd none reply.rc]
    let out : Option fsal_handle_t := some { data := { handle := populate_handle h reply } }
    if reply.rc < 0 then
      { status := ReturnCode (P.posix2fsal_error reply.errno) reply.errno, out := out,
        events := ev }
    else { status := ReturnCode ERR_FSAL_NO_ERROR 0, out := out, events := ev }

/-- The function `fsal_internal_link_at`; `name` is `none` for `NULL`. -/
def fsal_internal_link_at (P : handle_params) (srcfd dirfd : Int) (name : Option String)
    (reply : ioctl_reply) : op_result Unit :=
  match name with
  | none => { status := ReturnCode ERR_FSAL_FAULT 0, out := (), events := [] }
  | some nm =>
    let ev := [event.link_by_fd srcfd dirfd nm reply.rc]
    if reply.rc < 0 then
      { status := ReturnCode (P.posix2fsal_error reply.errno) reply.errno, out := (),
        events := ev }
    else { status := ReturnCode ERR_FSAL_NO_ERROR 0, out := (), events := ev }

/-- The function `fsal_readlink_by_handle`.  `buf` is the content of the
`maxlen` bytes that `__buf` points to; `fd_local` is the indeterminate value of
the local variable `fd` before the open stores a descriptor in it; the two
replies are the answers of the facility to the open request and to the read-link
request, for the requests that are issued. -/
def fsal_readlink_by_handle (P : handle_params) (p_context : Option handle_op_context_t)
    (p_handle : Option fsal_handle_t) (buf : List Nat) (fd_local : Int)
    (open_reply : ioctl_reply) (reply : readlink_reply) : op_result (List Nat) :=
  let r := fsal_internal_handle2fd P p_context p_handle (some fd_local) P.consts.O_RDONLY
    open_reply
  if P.FSAL_IS_ERROR r.status then
    ReturnStatus r.status P.consts.INDEX_FSAL_open buf r.events
  else
    let fd := r.out.getD fd_local
    -- memset(__buf, 0, maxlen)
    let buf := List.replicate buf.length 0
    let buf := populate buf reply.bytes_written
    let ev := r.events ++ [event.readlink_by_fd fd buf.length reply.rc, event.close fd]
    if reply.rc < 0 then Return P reply.rc 0 P.consts.INDEX_FSAL_readlink buf ev
    else { status := ReturnCode ERR_FSAL_NO_ERROR 0, out := buf, events := ev }

/-- The function `fsal_stat_by_handle`; `buf` is the stat structure that the
output pointer points to before the call. -/
def fsal_stat_by_handle (P : handle_params) (p_context : Option handle_op_context_t)
    (p_handle : Option fsal_handle_t) (buf : struct_stat) (reply : stat_reply) :
    op_result struct_stat :=
  match p_handle, p_context with
  | some handle, some ctx =>
    match ctx.export_context with
    | none => { status := ReturnCode ERR_FSAL_FAULT 0, out := buf, events := [] }
    | some export_context =>
      let dirfd := export_context.mount_root_fd
      let ev := [event.stat_by_handle dirfd handle.data.handle reply.rc]
      let out := reply.stat_written.getD buf
      if reply.rc < 0 then
        { status := ReturnCode (P.posix2fsal_error reply.errno) reply.errno, out := out,
          events := ev }
      else { status := ReturnCode ERR_FSAL_NO_ERROR 0, out := out, events := ev }
  | _, _ => { status := ReturnCode ERR_FSAL_FAULT 0, out := buf, events := [] }

/-! ### Vocabulary of the specification for the handle resolver -/

/-- An event is a request to the handle-translation facility. -/
def event.is_request : event → Bool
  | event.name_to_handle _ _ _ => true
  | event.open_by_handle _ _ _ _ => true
  | event.link_by_fd _ _ _ _ => true
  | event.readlink_by_fd _ _ _ => true
  | event.stat_by_handle _ _ _ => true
  | event.close _ => false
  | event.nbcall _ _ => false

/-- The requests to the facility among the events. -/
def requests (events : List event) : List event :=
  events.filter event.is_request

/-- The descriptors that the events close, in order. -/
def closed_fds : List event → List Int
  | [] => []
  | event.close fd :: es => fd :: closed_fds es
  | _ :: es => closed_fds es

/-- The descriptors that the events open, in order: the values returned by the
open-by-handle requests that succeed. -/
def opened_fds : List event → List Int
  | [] => []
  | event.open_by_handle _ _ _ rc :: es =>
    if rc < 0 then opened_fds es else rc :: opened_fds es
  | _ :: es => opened_fds es

/-- The set of open descriptors after one event: a successful open-by-handle
adds the descriptor it returns, `close` removes its argument. -/
def fds_step (open_fds : Finset Int) : event → Finset Int
  | event.open_by_handle _ _ _ rc => if rc < 0 then open_fds else insert rc open_fds
  | event.close fd => open_fds.erase fd
  | _ => open_fds

/-- The set of open descriptors after a sequence of events. -/
def fds_after (open_fds : Finset Int) (events : List event) : Finset Int :=
  events.foldl fds_step open_fds

/-- The classifier and the macro `FSAL_IS_ERROR` agree with the spec: the
classifier maps an OS error code to an error kind, never to success, so a
status built from a failed request is an error, as is `ERR_FSAL_FAULT`; and the
status `ERR_FSAL_NO_ERROR` is not an error. -/
def handle_params.classifies_errors (P : handle_params) : Prop :=
  P.FSAL_IS_ERROR (ReturnCode ERR_FSAL_NO_ERROR 0) = false ∧
  P.FSAL_IS_ERROR (ReturnCode ERR_FSAL_FAULT 0) = true ∧
  ∀ e : Int, P.FSAL_IS_ERROR (ReturnCode (P.posix2fsal_error e) e) = true

/-- Modelled from the spec: concrete values for the parameters of the handle
operations, all of which come from outside the sources.  The handle length is
a positive constant, `AT_FDCWD` and `O_RDONLY` have their Linux values, a
status is an error when its major code is not `ERR_FSAL_NO_ERROR`, and the
classifier and the conversion of an `int` yield a code of the enumeration that
the file does not name, tagged with the absolute value of their argument.
Used for concrete runs only. -/
def spec_handle_params : handle_params :=
  { consts := { OPENHANDLE_HANDLE_LEN := 20, AT_FDCWD := -100, O_RDONLY := 0,
                INDEX_FSAL_open := 3, INDEX_FSAL_readlink := 7 },
    FSAL_IS_ERROR := is_error_major,
    posix2fsal_error := fun e => ERR_FSAL_other e.natAbs,
    major_of_int := fun c => ERR_FSAL_other c.natAbs }

/-- The policies that the configuration gives to the eleven fields that the
filesystem declares fixed: maxfilesize, maxlink, maxnamelen, maxpathlen,
no_trunc, case_insensitive, case_preserving, named_attr, lease_time,
supported_attrs, homogenous. -/
def fixed_field_policies (b : fs_behaviors_t) : List fsal_initflag_t :=
  [b.maxfilesize, b.maxlink, b.maxnamelen, b.maxpathlen, b.no_trunc, b.case_insensitive,
    b.case_preserving, b.named_attr, b.lease_time, b.supported_attrs, b.homogenous]

/-- A configuration that keeps the default of every field: every policy is
`FSAL_INIT_FS_DEFAULT`.  Used for concrete runs. -/
def keep_default_behaviors : fs_behaviors_t :=
  { maxfilesize := FSAL_INIT_FS_DEFAULT, maxlink := FSAL_INIT_FS_DEFAULT,
    maxnamelen := FSAL_INIT_FS_DEFAULT, maxpathlen := FSAL_INIT_FS_DEFAULT,
    no_trunc := FSAL_INIT_FS_DEFAULT, case_insensitive := FSAL_INIT_FS_DEFAULT,
    case_preserving := FSAL_INIT_FS_DEFAULT, named_attr := FSAL_INIT_FS_DEFAULT,
    lease_time := FSAL_INIT_FS_DEFAULT, supported_attrs := FSAL_INIT_FS_DEFAULT,
    homogenous := FSAL_INIT_FS_DEFAULT, symlink_support := FSAL_INIT_FS_DEFAULT,
    link_support := FSAL_INIT_FS_DEFAULT, lock_support := FSAL_INIT_FS_DEFAULT,
    cansettime := FSAL_INIT_FS_DEFAULT, maxread := FSAL_INIT_FS_DEFAULT,
    maxwrite := FSAL_INIT_FS_DEFAULT, umask := FSAL_INIT_FS_DEFAULT,
    auth_exportpath_xdev := FSAL_INIT_FS_DEFAULT,
    xattr_access_rights := FSAL_INIT_FS_DEFAULT }

/-- Modelled from the spec: concrete values for the macros of `vfs_macros`,
whose headers are not among the sources; the spec only says that the table
holds limits and a handle-expiry class.  Used for concrete runs. -/
def spec_vfs_macros : vfs_macros :=
  { _POSIX_LINK_MAX := 8, FSAL_MAX_NAME_LEN := 255, FSAL_MAX_PATH_LEN := 1024,
    FSAL_EXPTYPE_PERSISTENT := 1, FSAL_ACLSUPPORT_ALLOW := 1,
    VFS_SUPPORTED_ATTRIBUTES := 0xFFFF }

/-- The process-wide variables of a freshly started process: no limit, no
semaphore, a table of zeros (static storage). -/
def fresh_globals : fsal_globals :=
  { limit_calls := false, sem_fs_calls := none,
    global_fs_info :=
      { maxfilesize := 0, maxlink := 0, maxnamelen := 0, maxpathlen := 0, no_trunc := false,
        chown_restricted := false, case_insensitive := false, case_preserving := false,
        fh_expire_type := 0, link_support := false, symlink_support := false,
        lock_support := false, named_attr := false, unique_handles := false,
        lease_time := { seconds := 0, nseconds := 0 }, acl_support := 0, cansettime := false,
        homogenous := false, supported_attrs := 0, maxread := 0, maxwrite := 0, umask := 0,
        auth_exportpath_xdev := false, xattr_access_rights := 0 } }

/-! ### Vocabulary of the specification: reports, permits held, owner triad -/

/-- The reports to the statistics among the events, in order: for each, the
identifier it is made under and the status reported. -/
def reports : List event → List (Int × fsal_status_t)
  | [] => []
  | event.nbcall function_index status :: es => (function_index, status) :: reports es
  | _ :: es => reports es

/-- The number of permits held after a sequence of throttle calls that have all
returned: the acquires completed minus the releases. -/
def permits_held : List throttle_call → Int
  | [] => 0
  | throttle_call.take :: cs => permits_held cs + 1
  | throttle_call.release :: cs => permits_held cs - 1

/-- Two modes agree on the owner triad: each of the three owner bits is set in
both or in neither. -/
def owner_triad_agree (K : fsal_consts) (mode1 mode2 : Nat) : Prop :=
  (mode1 &&& K.FSAL_MODE_RUSR ≠ 0 ↔ mode2 &&& K.FSAL_MODE_RUSR ≠ 0) ∧
  (mode1 &&& K.FSAL_MODE_WUSR ≠ 0 ↔ mode2 &&& K.FSAL_MODE_WUSR ≠ 0) ∧
  (mode1 &&& K.FSAL_MODE_XUSR ≠ 0 ↔ mode2 &&& K.FSAL_MODE_XUSR ≠ 0)

instance (K : fsal_consts) (mode1 mode2 : Nat) : Decidable (owner_triad_agree K mode1 mode2) := by
  unfold owner_triad_agree; infer_instance

/-! ## Lemmas on bit masks -/

theorem testBit_clear_flag (x c k : Nat) :
    (clear_flag x c).testBit k = (x.testBit k && !c.testBit k) := by
  unfold clear_flag
  rw [Nat.testBit_xor, Nat.testBit_and]
  cases x.testBit k <;> cases c.testBit k <;> rfl

theorem eq_zero_iff_testBit (x : Nat) : x = 0 ↔ ∀ k, x.testBit k = false := by
  constructor
  · intro h k
    subst h
    exact Nat.zero_testBit k
  · intro h
    apply Nat.eq_of_testBit_eq
    intro k
    rw [h k, Nat.zero_testBit]

theorem clear_flag_eq_zero_iff (x g : Nat) : clear_flag x g = 0 ↔ bits_subset x g := by
  rw [eq_zero_iff_testBit]
  unfold bits_subset
  constructor
  · intro h k hk
    have h1 := h k
    rw [testBit_clear_flag, hk] at h1
    simpa using h1
  · intro h k
    rw [testBit_clear_flag]
    cases hx : x.testBit k with
    | false => rfl
    | true => simp [h k hx]

theorem clear_flag_zero (m : Nat) : clear_flag m 0 = m := by
  apply Nat.eq_of_testBit_eq
  intro k
  simp [testBit_clear_flag]

theorem clear_flag_or (m a b : Nat) : clear_flag (clear_flag m a) b = clear_flag m (a ||| b) := by
  apply Nat.eq_of_testBit_eq
  intro k
  simp only [testBit_clear_flag, Nat.testBit_or]
  cases m.testBit k <;> cases a.testBit k <;> cases b.testBit k <;> rfl

theorem alt_groups_loop_iff (gid : Nat) (l : List Nat) :
    alt_groups_loop gid l = true ↔ gid ∈ l := by
  induction l with
  | nil => simp [alt_groups_loop]
  | cons g rest ih =>
    unfold alt_groups_loop
    by_cases h : g = gid
    · simp [h]
    · have h1 : ¬ gid = g := fun e => h e.symm
      simp [h, h1, ih]

theorem is_grp_iff (credential : fsal_cred_t) (gid : Nat) :
    (if !(decide (credential.group = gid)) then alt_groups_loop gid credential.alt_groups
      else decide (credential.group = gid)) = true ↔ in_group credential gid := by
  unfold in_group
  by_cases h : credential.group = gid
  · simp [h]
  · simp [h, alt_groups_loop_iff]

theorem nested_clear (a b c : Prop) [Decidable a] [Decidable b] [Decidable c]
    (m R W X : Nat) :
    (if c then
        clear_flag (if b then clear_flag (if a then clear_flag m R else m) W
          else (if a then clear_flag m R else m)) X
      else (if b then clear_flag (if a then clear_flag m R else m) W
          else (if a then clear_flag m R else m))) =
      clear_flag m ((if a then R else 0) ||| (if b then W else 0) ||| (if c then X else 0)) := by
  by_cases ha : a <;> by_cases hb : b <;> by_cases hc : c <;>
    simp [ha, hb, hc, clear_flag_or, clear_flag_zero]

theorem owner_override {α : Type} (p : Prop) [Decidable p] (m : Nat) (A B : α) :
    (if (if p then 0 else m) = 0 then A else B) = if p then A else if m = 0 then A else B := by
  by_cases hp : p
  · simp [hp]
  · simp [hp]

theorem checks_normal (K : fsal_consts) (credential : fsal_cred_t)
    (access_type uid gid mode : Nat) :
    testAccess_checks K credential access_type uid gid mode =
      if access_type &&& K.FSAL_F_OK ≠ 0 then ReturnCode ERR_FSAL_INVAL 0
      else if credential.user = 0 then ReturnCode ERR_FSAL_NO_ERROR 0
      else if credential.user = uid then
        if clear_flag access_type (owner_triad_bits K mode) &&& K.FSAL_OWNER_OK ≠ 0 then
          ReturnCode ERR_FSAL_NO_ERROR 0
        else if clear_flag access_type (owner_triad_bits K mode) = 0 then
          ReturnCode ERR_FSAL_NO_ERROR 0
        else ReturnCode ERR_FSAL_ACCESS 0
      else if in_group credential gid then
        if clear_flag (clear_flag access_type K.FSAL_OWNER_OK) (group_triad_bits K mode) = 0 then
          ReturnCode ERR_FSAL_NO_ERROR 0
        else ReturnCode ERR_FSAL_ACCESS 0
      else
        if clear_flag (clear_flag access_type K.FSAL_OWNER_OK) (other_triad_bits K mode) = 0 then
          ReturnCode ERR_FSAL_NO_ERROR 0
        else ReturnCode ERR_FSAL_ACCESS 0 := by
  unfold testAccess_checks
  simp only [nested_clear, is_grp_iff, owner_override, owner_triad_bits, group_triad_bits,
    other_triad_bits, triad_bits]

theorem testAccess_of_metadata (K : fsal_consts) (unix2fsal_mode : Nat → Nat)
    (ctx : fsal_op_context_t) (access_type : Nat) (p_buffstat : Option struct_stat)
    (p_object_attributes : Option fsal_attrib_list_t) (m : fsal_attrib_list_t)
    (hmeta : object_metadata unix2fsal_mode p_buffstat p_object_attributes = some m) :
    fsal_internal_testAccess K unix2fsal_mode (some ctx) access_type p_buffstat
        p_object_attributes =
      testAccess_checks K ctx.credential access_type m.owner m.group m.mode := by
  cases p_object_attributes with
  | some attrs =>
    simp only [object_metadata, Option.some.injEq] at hmeta
    subst hmeta
    rfl
  | none =>
    cases p_buffstat with
    | some st =>
      simp only [object_metadata, Option.some.injEq] at hmeta
      subst hmeta
      rfl
    | none => simp [object_metadata] at hmeta


theorem and_ne_zero_iff_exists (x y : Nat) :
    x &&& y ≠ 0 ↔ ∃ k, x.testBit k = true ∧ y.testBit k = true := by
  rw [Ne, eq_zero_iff_testBit]
  constructor
  · intro h
    by_contra hne
    apply h
    intro k
    rw [Nat.testBit_and]
    cases hx : x.testBit k with
    | false => rfl
    | true =>
      cases hy : y.testBit k with
      | false => rfl
      | true => exact absurd ⟨k, hx, hy⟩ hne
  · rintro ⟨k, hx, hy⟩ h
    have h1 := h k
    rw [Nat.testBit_and, hx, hy] at h1
    exact Bool.noConfusion h1

theorem disjoint_testBit (x y : Nat) (h : x &&& y = 0) (k : Nat) (hx : x.testBit k = true) :
    y.testBit k = false := by
  cases hy : y.testBit k with
  | false => rfl
  | true => exact absurd h ((and_ne_zero_iff_exists x y).mpr ⟨k, hx, hy⟩)

theorem triad_bits_subset (K : fsal_consts) (r w x mode : Nat) :
    bits_subset (triad_bits K r w x mode) (K.FSAL_R_OK ||| K.FSAL_W_OK ||| K.FSAL_X_OK) := by
  intro k hk
  unfold triad_bits at hk
  simp only [Nat.testBit_or, Bool.or_eq_true] at hk ⊢
  rcases hk with (hk | hk) | hk
  · split_ifs at hk
    · exact Or.inl (Or.inl hk)
    · simp at hk
  · split_ifs at hk
    · exact Or.inl (Or.inr hk)
    · simp at hk
  · split_ifs at hk
    · exact Or.inr hk
    · simp at hk

theorem clear_clear_eq_zero_iff (x e g : Nat) :
    clear_flag (clear_flag x e) g = 0 ↔ bits_subset_except x e g := by
  rw [clear_flag_or, clear_flag_eq_zero_iff]
  unfold bits_subset bits_subset_except
  constructor
  · intro h k hx he
    have h1 := h k hx
    rw [Nat.testBit_or, he] at h1
    simpa using h1
  · intro h k hx
    rw [Nat.testBit_or]
    cases he : e.testBit k with
    | true => rfl
    | false => simp [h k hx he]

theorem status_ne_of_major_ne (a b : fsal_errors_t) (h : a ≠ b) (x y : Int) :
    ReturnCode a x ≠ ReturnCode b y := by
  intro e
  apply h
  exact congrArg fsal_status_t.major e

theorem checks_major_ne_fault (K : fsal_consts) (credential : fsal_cred_t)
    (access_type uid gid mode : Nat) :
    (testAccess_checks K credential access_type uid gid mode).major ≠ ERR_FSAL_FAULT := by
  rw [checks_normal]
  split_ifs <;> decide

/-! ## Access evaluator: the claims -/

/-- C1 (amended).  Owner, not the superuser, mask without the existence-only
flag; the owner-intent flag shares no bit with read, write, execute.  The check
succeeds exactly when the mask contains the owner-intent flag or every
requested bit is granted by the owner triad; in every other case the result is
`ERR_FSAL_ACCESS`. -/
theorem owner_access_iff (K : fsal_consts) (unix2fsal_mode : Nat → Nat)
    (ctx : fsal_op_context_t) (access_type : Nat) (p_buffstat : Option struct_stat)
    (p_object_attributes : Option fsal_attrib_list_t) (m : fsal_attrib_list_t)
    (hmeta : object_metadata unix2fsal_mode p_buffstat p_object_attributes = some m)
    (hroot : ctx.credential.user ≠ 0)
    (hown : ctx.credential.user = m.owner)
    (hF : access_type &&& K.FSAL_F_OK = 0)
    (hdisj : K.FSAL_OWNER_OK &&& (K.FSAL_R_OK ||| K.FSAL_W_OK ||| K.FSAL_X_OK) = 0) :
    (fsal_internal_testAccess K unix2fsal_mode (some ctx) access_type p_buffstat
        p_object_attributes = ReturnCode ERR_FSAL_NO_ERROR 0 ↔
      (access_type &&& K.FSAL_OWNER_OK ≠ 0 ∨
        bits_subset access_type (owner_triad_bits K m.mode))) ∧
    (fsal_internal_testAccess K unix2fsal_mode (some ctx) access_type p_buffstat
        p_object_attributes ≠ ReturnCode ERR_FSAL_NO_ERROR 0 →
      fsal_internal_testAccess K unix2fsal_mode (some ctx) access_type p_buffstat
        p_object_attributes = ReturnCode ERR_FSAL_ACCESS 0) := by
  rw [testAccess_of_metadata K unix2fsal_mode ctx access_type p_buffstat p_object_attributes m
    hmeta, checks_normal]
  have hF1 : ¬ (access_type &&& K.FSAL_F_OK ≠ 0) := fun h => h hF
  rw [if_neg hF1, if_neg hroot, if_pos hown]
  have hkey : clear_flag access_type (owner_triad_bits K m.mode) &&& K.FSAL_OWNER_OK ≠ 0 ↔
      access_type &&& K.FSAL_OWNER_OK ≠ 0 := by
    rw [and_ne_zero_iff_exists, and_ne_zero_iff_exists]
    constructor
    · rintro ⟨k, h1, h2⟩
      rw [testBit_clear_flag] at h1
      simp only [Bool.and_eq_true] at h1
      exact ⟨k, h1.1, h2⟩
    · rintro ⟨k, h1, h2⟩
      refine ⟨k, ?_, h2⟩
      rw [testBit_clear_flag, h1]
      have h3 := disjoint_testBit _ _ hdisj k h2
      have h4 : (owner_triad_bits K m.mode).testBit k = false := by
        cases h5 : (owner_triad_bits K m.mode).testBit k with
        | false => rfl
        | true =>
          have h6 := triad_bits_subset K _ _ _ m.mode k h5
          rw [h3] at h6
          exact Bool.noConfusion h6
      rw [h4]
      rfl
  by_cases ho : clear_flag access_type (owner_triad_bits K m.mode) &&& K.FSAL_OWNER_OK ≠ 0
  · rw [if_pos ho]
    exact ⟨⟨fun _ => Or.inl (hkey.mp ho), fun _ => rfl⟩, fun h => absurd rfl h⟩
  · rw [if_neg ho]
    have ho1 : ¬ (access_type &&& K.FSAL_OWNER_OK ≠ 0) := fun h => ho (hkey.mpr h)
    by_cases hz : clear_flag access_type (owner_triad_bits K m.mode) = 0
    · rw [if_pos hz]
      exact ⟨⟨fun _ => Or.inr ((clear_flag_eq_zero_iff _ _).mp hz), fun _ => rfl⟩,
        fun h => absurd rfl h⟩
    · rw [if_neg hz]
      refine ⟨⟨fun h => absurd h (status_ne_of_major_ne _ _ (by decide) 0 0), ?_⟩, fun _ => rfl⟩
      rintro (h | h)
      · exact absurd h ho1
      · exact absurd ((clear_flag_eq_zero_iff _ _).mpr h) hz


/-- Scenario A of the spec, through `owner_access_iff`: owner uid 1000, mode
0644, requested read+write, success. -/
theorem owner_access_iff_witness :
    ((1000 : Nat) ≠ 0 ∧ 6 &&& spec_consts.FSAL_F_OK = 0) ∧
    fsal_internal_testAccess spec_consts id (some ⟨⟨1000, 100, []⟩⟩) 6 none
      (some ⟨1000, 100, 0o644⟩) = ReturnCode ERR_FSAL_NO_ERROR 0 :=
  ⟨⟨by decide, by decide⟩,
    ((owner_access_iff spec_consts id ⟨⟨1000, 100, []⟩⟩ 6 none (some ⟨1000, 100, 0o644⟩)
      ⟨1000, 100, 0o644⟩ rfl (by decide) rfl (by decide) (by decide)).1).mpr
      (Or.inr ((clear_flag_eq_zero_iff _ _).mp (by decide)))⟩

/-- C1 as stated fails: owner uid 1000, mode 0000, requested read + owner-intent
(no existence-only flag).  The check succeeds although the requested read bit,
which is not the owner-intent bit, is not granted by the owner triad. -/
theorem owner_access_claim_counterexample :
    ((1000 : Nat) ≠ 0 ∧ 12 &&& spec_consts.FSAL_F_OK = 0) ∧
    fsal_internal_testAccess spec_consts id (some ⟨⟨1000, 100, []⟩⟩) 12 none
      (some ⟨1000, 100, 0⟩) = ReturnCode ERR_FSAL_NO_ERROR 0 ∧
    ¬ bits_subset_except 12 spec_consts.FSAL_OWNER_OK (owner_triad_bits spec_consts 0) := by
  refine ⟨⟨by decide, by decide⟩, by decide, ?_⟩
  intro h
  have h1 := h 2 (by decide) (by decide)
  exact absurd h1 (by decide)

/-- C2 (amended).  Not the superuser, not the owner, no group of the credential
equal to the object's group; the existence-only flag shares no bit with the
other four flags.  For every mask the check succeeds exactly when every
requested bit other than the owner-intent bits is granted by the other
triad. -/
theorem other_access_iff (K : fsal_consts) (unix2fsal_mode : Nat → Nat)
    (ctx : fsal_op_context_t) (access_type : Nat) (p_buffstat : Option struct_stat)
    (p_object_attributes : Option fsal_attrib_list_t) (m : fsal_attrib_list_t)
    (hmeta : object_metadata unix2fsal_mode p_buffstat p_object_attributes = some m)
    (hroot : ctx.credential.user ≠ 0)
    (hown : ctx.credential.user ≠ m.owner)
    (hgrp : ¬ in_group ctx.credential m.group)
    (hFdisj : K.FSAL_F_OK &&&
      (K.FSAL_R_OK ||| K.FSAL_W_OK ||| K.FSAL_X_OK ||| K.FSAL_OWNER_OK) = 0) :
    fsal_internal_testAccess K unix2fsal_mode (some ctx) access_type p_buffstat
        p_object_attributes = ReturnCode ERR_FSAL_NO_ERROR 0 ↔
      bits_subset_except access_type K.FSAL_OWNER_OK (other_triad_bits K m.mode) := by
  rw [testAccess_of_metadata K unix2fsal_mode ctx access_type p_buffstat p_object_attributes m
    hmeta, checks_normal]
  by_cases hF : access_type &&& K.FSAL_F_OK ≠ 0
  · rw [if_pos hF]
    constructor
    · intro h
      exact absurd h (status_ne_of_major_ne _ _ (by decide) 0 0)
    · intro h
      obtain ⟨k, hk, hfk⟩ := (and_ne_zero_iff_exists _ _).mp hF
      have h1 := disjoint_testBit _ _ hFdisj k hfk
      rw [Nat.testBit_or, Bool.or_eq_false_iff] at h1
      have h2 := h k hk h1.2
      have h3 := triad_bits_subset K _ _ _ m.mode k h2
      rw [h1.1] at h3
      exact Bool.noConfusion h3
  · rw [if_neg hF, if_neg hroot, if_neg hown, if_neg hgrp]
    by_cases hz : clear_flag (clear_flag access_type K.FSAL_OWNER_OK)
        (other_triad_bits K m.mode) = 0
    · rw [if_pos hz]
      exact ⟨fun _ => (clear_clear_eq_zero_iff _ _ _).mp hz, fun _ => rfl⟩
    · rw [if_neg hz]
      exact ⟨fun h => absurd h (status_ne_of_major_ne _ _ (by decide) 0 0),
        fun h => absurd ((clear_clear_eq_zero_iff _ _ _).mpr h) hz⟩

/-- A run of `other_access_iff`: uid 1000 asks to read a file of uid 2000 and
gid 200, mode 0604, with groups 100, 5 and 7: success by the other triad. -/
theorem other_access_iff_witness :
    ((1000 : Nat) ≠ 0 ∧ (1000 : Nat) ≠ 2000 ∧
      ¬ in_group ⟨1000, 100, [5, 7]⟩ 200) ∧
    fsal_internal_testAccess spec_consts id (some ⟨⟨1000, 100, [5, 7]⟩⟩) 4 none
      (some ⟨2000, 200, 0o604⟩) = ReturnCode ERR_FSAL_NO_ERROR 0 :=
  ⟨⟨by decide, by decide, by decide⟩,
    (other_access_iff spec_consts id ⟨⟨1000, 100, [5, 7]⟩⟩ 4 none (some ⟨2000, 200, 0o604⟩)
      ⟨2000, 200, 0o604⟩ rfl (by decide) (by decide) (by decide) (by decide)).mpr
      ((clear_clear_eq_zero_iff _ _ _).mp (by decide))⟩

/-- C2 as stated fails twice.  The superuser, who is neither owner nor in the
group of the object, reads a file of mode 0000 although the other triad grants
nothing.  And uid 1000, neither owner nor in the group, succeeds with a mask
made of the owner-intent flag on a file of mode 0000, although that flag is not
a permission of the other triad. -/
theorem other_access_claim_counterexample :
    ((0 : Nat) ≠ 2000 ∧ ¬ in_group ⟨0, 0, []⟩ 200 ∧
      fsal_internal_testAccess spec_consts id (some ⟨⟨0, 0, []⟩⟩) 4 none
        (some ⟨2000, 200, 0⟩) = ReturnCode ERR_FSAL_NO_ERROR 0 ∧
      ¬ bits_subset 4 (other_triad_bits spec_consts 0)) ∧
    ((1000 : Nat) ≠ 2000 ∧ ¬ in_group ⟨1000, 100, []⟩ 200 ∧
      fsal_internal_testAccess spec_consts id (some ⟨⟨1000, 100, []⟩⟩) 8 none
        (some ⟨2000, 200, 0⟩) = ReturnCode ERR_FSAL_NO_ERROR 0 ∧
      ¬ bits_subset 8 (other_triad_bits spec_consts 0)) := by
  refine ⟨⟨by decide, by decide, by decide, ?_⟩, ⟨by decide, by decide, by decide, ?_⟩⟩
  · intro h
    exact absurd (h 2 (by decide)) (by decide)
  · intro h
    exact absurd (h 3 (by decide)) (by decide)

/-- C3 (amended).  Superuser, context and metadata present: the check succeeds
for every mask that does not contain the existence-only flag, whatever the
metadata, and returns `ERR_FSAL_INVAL` for every mask that contains it. -/
theorem root_access (K : fsal_consts) (unix2fsal_mode : Nat → Nat)
    (ctx : fsal_op_context_t) (access_type : Nat) (p_buffstat : Option struct_stat)
    (p_object_attributes : Option fsal_attrib_list_t) (m : fsal_attrib_list_t)
    (hmeta : object_metadata unix2fsal_mode p_buffstat p_object_attributes = some m)
    (hroot : ctx.credential.user = 0) :
    (access_type &&& K.FSAL_F_OK = 0 →
      fsal_internal_testAccess K unix2fsal_mode (some ctx) access_type p_buffstat
        p_object_attributes = ReturnCode ERR_FSAL_NO_ERROR 0) ∧
    (access_type &&& K.FSAL_F_OK ≠ 0 →
      fsal_internal_testAccess K unix2fsal_mode (some ctx) access_type p_buffstat
        p_object_attributes = ReturnCode ERR_FSAL_INVAL 0) := by
  rw [testAccess_of_metadata K unix2fsal_mode ctx access_type p_buffstat p_object_attributes m
    hmeta, checks_normal]
  constructor
  · intro hF
    have hF1 : ¬ (access_type &&& K.FSAL_F_OK ≠ 0) := fun h => h hF
    rw [if_neg hF1, if_pos hroot]
  · intro hF
    rw [if_pos hF]

/-- Scenario C of the spec, through `root_access`: superuser, mode 0000,
requested read+write+execute, success. -/
theorem root_access_witness :
    7 &&& spec_consts.FSAL_F_OK = 0 ∧
    fsal_internal_testAccess spec_consts id (some ⟨⟨0, 0, []⟩⟩) 7 none
      (some ⟨2000, 200, 0⟩) = ReturnCode ERR_FSAL_NO_ERROR 0 :=
  ⟨by decide,
    (root_access spec_consts id ⟨⟨0, 0, []⟩⟩ 7 none (some ⟨2000, 200, 0⟩) ⟨2000, 200, 0⟩
      rfl rfl).1 (by decide)⟩

/-- C3 as stated fails: the superuser with a mask made of the existence-only
flag, on a file of mode 0644, gets `ERR_FSAL_INVAL`, not success. -/
theorem root_access_claim_counterexample :
    fsal_internal_testAccess spec_consts id (some ⟨⟨0, 0, []⟩⟩) 16 none
        (some ⟨2000, 200, 0o644⟩) = ReturnCode ERR_FSAL_INVAL 0 ∧
    fsal_internal_testAccess spec_consts id (some ⟨⟨0, 0, []⟩⟩) 16 none
        (some ⟨2000, 200, 0o644⟩) ≠ ReturnCode ERR_FSAL_NO_ERROR 0 := by
  constructor <;> decide


/-- C4.  With the context and a metadata source present, a mask that contains
the existence-only flag gives `ERR_FSAL_INVAL`, whatever the credential (the
superuser included) and whatever the mode; and `ERR_FSAL_INVAL` is the result
for no mask that lacks that flag. -/
theorem existence_flag_invalid (K : fsal_consts) (unix2fsal_mode : Nat → Nat)
    (ctx : fsal_op_context_t) (access_type : Nat) (p_buffstat : Option struct_stat)
    (p_object_attributes : Option fsal_attrib_list_t) (m : fsal_attrib_list_t)
    (hmeta : object_metadata unix2fsal_mode p_buffstat p_object_attributes = some m) :
    (access_type &&& K.FSAL_F_OK ≠ 0 →
      fsal_internal_testAccess K unix2fsal_mode (some ctx) access_type p_buffstat
        p_object_attributes = ReturnCode ERR_FSAL_INVAL 0) ∧
    ((fsal_internal_testAccess K unix2fsal_mode (some ctx) access_type p_buffstat
        p_object_attributes).major = ERR_FSAL_INVAL →
      access_type &&& K.FSAL_F_OK ≠ 0) := by
  rw [testAccess_of_metadata K unix2fsal_mode ctx access_type p_buffstat p_object_attributes m
    hmeta, checks_normal]
  constructor
  · intro hF
    rw [if_pos hF]
  · intro h hF
    have hF1 : ¬ (access_type &&& K.FSAL_F_OK ≠ 0) := fun h1 => h1 hF
    rw [if_neg hF1] at h
    split_ifs at h <;> exact absurd h (by decide)

/-- A run of `existence_flag_invalid`: uid 1000, owner of a file of mode 0777,
asks for read together with the existence-only flag and gets
`ERR_FSAL_INVAL`. -/
theorem existence_flag_invalid_witness :
    20 &&& spec_consts.FSAL_F_OK ≠ 0 ∧
    fsal_internal_testAccess spec_consts id (some ⟨⟨1000, 100, []⟩⟩) 20
      (some ⟨1000, 100, 0o777⟩) none = ReturnCode ERR_FSAL_INVAL 0 :=
  ⟨by decide,
    (existence_flag_invalid spec_consts id ⟨⟨1000, 100, []⟩⟩ 20 (some ⟨1000, 100, 0o777⟩) none
      ⟨1000, 100, 0o777⟩ rfl).1 (by decide)⟩

/-- C5.  The result is `ERR_FSAL_FAULT` exactly when the context is absent or
both metadata sources are absent; in that case it is `ERR_FSAL_FAULT` for every
mask and every value of the constants, the existence-only check and the
superuser shortcut coming after. -/
theorem fault_iff_absent (K : fsal_consts) (unix2fsal_mode : Nat → Nat)
    (p_context : Option fsal_op_context_t) (access_type : Nat)
    (p_buffstat : Option struct_stat) (p_object_attributes : Option fsal_attrib_list_t) :
    ((fsal_internal_testAccess K unix2fsal_mode p_context access_type p_buffstat
        p_object_attributes).major = ERR_FSAL_FAULT ↔
      (p_context = none ∨ (p_object_attributes = none ∧ p_buffstat = none))) ∧
    ((p_context = none ∨ (p_object_attributes = none ∧ p_buffstat = none)) →
      fsal_internal_testAccess K unix2fsal_mode p_context access_type p_buffstat
        p_object_attributes = ReturnCode ERR_FSAL_FAULT 0) := by
  cases p_context with
  | none => exact ⟨⟨fun _ => Or.inl rfl, fun _ => rfl⟩, fun _ => rfl⟩
  | some ctx =>
    cases p_object_attributes with
    | some attrs =>
      have hne : (fsal_internal_testAccess K unix2fsal_mode (some ctx) access_type p_buffstat
          (some attrs)).major ≠ ERR_FSAL_FAULT := by
        rw [testAccess_of_metadata K unix2fsal_mode ctx access_type p_buffstat (some attrs) attrs
          rfl]
        exact checks_major_ne_fault _ _ _ _ _ _
      have hcond : ¬ ((some ctx : Option fsal_op_context_t) = none ∨
          ((some attrs : Option fsal_attrib_list_t) = none ∧ p_buffstat = none)) := by
        rintro (h | ⟨h, _⟩)
        · exact Option.noConfusion h
        · exact Option.noConfusion h
      exact ⟨⟨fun h => absurd h hne, fun h => absurd h hcond⟩, fun h => absurd h hcond⟩
    | none =>
      cases p_buffstat with
      | none => exact ⟨⟨fun _ => Or.inr ⟨rfl, rfl⟩, fun _ => rfl⟩, fun _ => rfl⟩
      | some st =>
        have hne : (fsal_internal_testAccess K unix2fsal_mode (some ctx) access_type (some st)
            none).major ≠ ERR_FSAL_FAULT := by
          rw [testAccess_of_metadata K unix2fsal_mode ctx access_type (some st) none
            ⟨st.st_uid, st.st_gid, unix2fsal_mode st.st_mode⟩ rfl]
          exact checks_major_ne_fault _ _ _ _ _ _
        have hcond : ¬ ((some ctx : Option fsal_op_context_t) = none ∨
            ((none : Option fsal_attrib_list_t) = none ∧
              (some st : Option struct_stat) = none)) := by
          rintro (h | ⟨_, h⟩)
          · exact Option.noConfusion h
          · exact Option.noConfusion h
        exact ⟨⟨fun h => absurd h hne, fun h => absurd h hcond⟩, fun h => absurd h hcond⟩

/-- A run of `fault_iff_absent`: without a context the result is
`ERR_FSAL_FAULT`, here for a mask made of the existence-only flag. -/
theorem fault_iff_absent_witness :
    fsal_internal_testAccess spec_consts id none 16 none (some ⟨0, 0, 0⟩) =
      ReturnCode ERR_FSAL_FAULT 0 :=
  (fault_iff_absent spec_consts id none 16 none (some ⟨0, 0, 0⟩)).2 (Or.inl rfl)

/-- C6 (amended).  Not the superuser, not the owner, primary group or a
supplementary group equal to the object's group, mask without the
existence-only flag.  The check succeeds exactly when every requested bit other
than the owner-intent bits is granted by the group triad, and returns
`ERR_FSAL_ACCESS` otherwise; the result is the same for any other mode with the
same group triad, so the other triad plays no part. -/
theorem group_access_iff (K : fsal_consts) (unix2fsal_mode : Nat → Nat)
    (ctx : fsal_op_context_t) (access_type : Nat) (p_buffstat : Option struct_stat)
    (p_object_attributes : Option fsal_attrib_list_t) (m : fsal_attrib_list_t)
    (hmeta : object_metadata unix2fsal_mode p_buffstat p_object_attributes = some m)
    (hroot : ctx.credential.user ≠ 0)
    (hown : ctx.credential.user ≠ m.owner)
    (hgrp : in_group ctx.credential m.group)
    (hF : access_type &&& K.FSAL_F_OK = 0) :
    (fsal_internal_testAccess K unix2fsal_mode (some ctx) access_type p_buffstat
        p_object_attributes = ReturnCode ERR_FSAL_NO_ERROR 0 ↔
      bits_subset_except access_type K.FSAL_OWNER_OK (group_triad_bits K m.mode)) ∧
    (fsal_internal_testAccess K unix2fsal_mode (some ctx) access_type p_buffstat
        p_object_attributes ≠ ReturnCode ERR_FSAL_NO_ERROR 0 →
      fsal_internal_testAccess K unix2fsal_mode (some ctx) access_type p_buffstat
        p_object_attributes = ReturnCode ERR_FSAL_ACCESS 0) ∧
    (∀ mode1 : Nat, group_triad_bits K mode1 = group_triad_bits K m.mode →
      fsal_internal_testAccess K unix2fsal_mode (some ctx) access_type none
          (some ⟨m.owner, m.group, mode1⟩) =
        fsal_internal_testAccess K unix2fsal_mode (some ctx) access_type p_buffstat
          p_object_attributes) := by
  have hF1 : ¬ (access_type &&& K.FSAL_F_OK ≠ 0) := fun h => h hF
  have hmode : ∀ mode1 : Nat, group_triad_bits K mode1 = group_triad_bits K m.mode →
      fsal_internal_testAccess K unix2fsal_mode (some ctx) access_type none
          (some ⟨m.owner, m.group, mode1⟩) =
        fsal_internal_testAccess K unix2fsal_mode (some ctx) access_type p_buffstat
          p_object_attributes := by
    intro mode1 h1
    rw [testAccess_of_metadata K unix2fsal_mode ctx access_type p_buffstat p_object_attributes m
      hmeta, testAccess_of_metadata K unix2fsal_mode ctx access_type none
      (some ⟨m.owner, m.group, mode1⟩) ⟨m.owner, m.group, mode1⟩ rfl, checks_normal,
      checks_normal]
    rw [if_neg hF1, if_neg hroot, if_neg hown, if_pos hgrp]
    rw [if_neg hF1, if_neg hroot, if_neg hown, if_pos hgrp, h1]
  refine ⟨?_, ?_, hmode⟩
  all_goals
    rw [testAccess_of_metadata K unix2fsal_mode ctx access_type p_buffstat p_object_attributes
      m hmeta, checks_normal, if_neg hF1, if_neg hroot, if_neg hown, if_pos hgrp]
  · by_cases hz : clear_flag (clear_flag access_type K.FSAL_OWNER_OK)
        (group_triad_bits K m.mode) = 0
    · rw [if_pos hz]
      exact ⟨fun _ => (clear_clear_eq_zero_iff _ _ _).mp hz, fun _ => rfl⟩
    · rw [if_neg hz]
      exact ⟨fun h => absurd h (status_ne_of_major_ne _ _ (by decide) 0 0),
        fun h => absurd ((clear_clear_eq_zero_iff _ _ _).mpr h) hz⟩
  · by_cases hz : clear_flag (clear_flag access_type K.FSAL_OWNER_OK)
        (group_triad_bits K m.mode) = 0
    · rw [if_pos hz]
      exact fun h => absurd rfl h
    · rw [if_neg hz]
      exact fun _ => rfl

/-- Scenario B of the spec, through `group_access_iff`: uid 1000 is not the
owner, the file's group is the primary group, mode 0644, requested write:
`ERR_FSAL_ACCESS`. -/
theorem group_access_iff_witness :
    ((1000 : Nat) ≠ 0 ∧ (1000 : Nat) ≠ 2000 ∧ in_group ⟨1000, 100, []⟩ 100 ∧
      2 &&& spec_consts.FSAL_F_OK = 0) ∧
    fsal_internal_testAccess spec_consts id (some ⟨⟨1000, 100, []⟩⟩) 2 none
      (some ⟨2000, 100, 0o644⟩) = ReturnCode ERR_FSAL_ACCESS 0 :=
  ⟨⟨by decide, by decide, by decide, by decide⟩,
    (group_access_iff spec_consts id ⟨⟨1000, 100, []⟩⟩ 2 none (some ⟨2000, 100, 0o644⟩)
      ⟨2000, 100, 0o644⟩ rfl (by decide) (by decide) (by decide) (by decide)).2.1 (by decide)⟩

/-- C6 as stated fails twice, for a credential that is not the owner and whose
primary group is the object's group, on a file of mode 0644.  With a mask made
of the existence-only flag the result is `ERR_FSAL_INVAL`, neither success nor
`ERR_FSAL_ACCESS`; with a mask made of a bit that is none of the five flags
the result is `ERR_FSAL_ACCESS`.  In both the mask requests no read, write or
execute bit, so every such requested bit is granted by the group triad. -/
theorem group_access_claim_counterexample :
    (in_group ⟨1000, 100, []⟩ 100 ∧
      fsal_internal_testAccess spec_consts id (some ⟨⟨1000, 100, []⟩⟩) 16 none
        (some ⟨2000, 100, 0o644⟩) = ReturnCode ERR_FSAL_INVAL 0 ∧
      bits_subset
        (16 &&& (spec_consts.FSAL_R_OK ||| spec_consts.FSAL_W_OK ||| spec_consts.FSAL_X_OK))
        (group_triad_bits spec_consts 0o644)) ∧
    (fsal_internal_testAccess spec_consts id (some ⟨⟨1000, 100, []⟩⟩) 32 none
        (some ⟨2000, 100, 0o644⟩) = ReturnCode ERR_FSAL_ACCESS 0 ∧
      bits_subset
        (32 &&& (spec_consts.FSAL_R_OK ||| spec_consts.FSAL_W_OK ||| spec_consts.FSAL_X_OK))
        (group_triad_bits spec_consts 0o644)) :=
  ⟨⟨by decide, by decide, (clear_flag_eq_zero_iff _ _).mp (by decide)⟩,
    ⟨by decide, (clear_flag_eq_zero_iff _ _).mp (by decide)⟩⟩


/-! ## Lemmas on the statistics record -/

theorem array_incr_fin (w : Nat) {N : Nat} (a : Fin N → Nat) (i : Fin N) :
    array_incr w a ((i : Nat) : Int) = some (Function.update a i ((a i + 1) % 2 ^ w)) := by
  have h : 0 ≤ ((i : Nat) : Int) ∧ ((i : Nat) : Int) < (N : Int) :=
    ⟨Int.ofNat_nonneg _, Int.ofNat_lt.mpr i.isLt⟩
  unfold array_incr counter_incr
  rw [dif_pos h]
  simp

theorem array_incr_neg (w : Nat) {N : Nat} (a : Fin N → Nat) (i : Int) (h : i < 0) :
    array_incr w a i = none := by
  unfold array_incr
  rw [dif_neg]
  omega

/-- The record after the final block of `fsal_increment_nbcall` at a valid
index. -/
theorem increment_values_fin (w : Nat) {N : Nat} (isErr retry : fsal_status_t → Bool)
    (i : Fin N) (status : fsal_status_t) (s : fsal_statistics_t N) :
    increment_values w isErr retry ((i : Nat) : Int) status s =
      some { func_stats :=
        { nb_call :=
            Function.update s.func_stats.nb_call i ((s.func_stats.nb_call i + 1) % 2 ^ w),
          nb_success :=
            if isErr status = false then
              Function.update s.func_stats.nb_success i
                ((s.func_stats.nb_success i + 1) % 2 ^ w)
            else s.func_stats.nb_success,
          nb_err_retryable :=
            if isErr status = true ∧ retry status = true then
              Function.update s.func_stats.nb_err_retryable i
                ((s.func_stats.nb_err_retryable i + 1) % 2 ^ w)
            else s.func_stats.nb_err_retryable,
          nb_err_unrecover :=
            if isErr status = true ∧ retry status = false then
              Function.update s.func_stats.nb_err_unrecover i
                ((s.func_stats.nb_err_unrecover i + 1) % 2 ^ w)
            else s.func_stats.nb_err_unrecover } } := by
  unfold increment_values
  simp only [array_incr_fin]
  cases h1 : isErr status <;> cases h2 : retry status <;> simp


/-- The record a call works on: the thread's record, or the freshly initialised
one when the thread has none. -/
theorem counters_eq_getD {N : Nat} (thr : thread_specific N) (i : Fin N) :
    calls thr i = ((thr.key_stats.getD (init_stats N)).func_stats.nb_call i) ∧
    successes thr i = ((thr.key_stats.getD (init_stats N)).func_stats.nb_success i) ∧
    retryable_errors thr i =
      ((thr.key_stats.getD (init_stats N)).func_stats.nb_err_retryable i) ∧
    unrecoverable_errors thr i =
      ((thr.key_stats.getD (init_stats N)).func_stats.nb_err_unrecover i) := by
  cases thr with
  | mk ks =>
    cases ks with
    | none => exact ⟨rfl, rfl, rfl, rfl⟩
    | some s => exact ⟨rfl, rfl, rfl, rfl⟩

theorem increment_nbcall_fin (N w : Nat) (isErr retry : fsal_status_t → Bool) (env : call_env)
    (i : Fin N) (status : fsal_status_t) (thr : thread_specific N)
    (honce : env.once_ok = true)
    (hbind : thr.key_stats = none → env.alloc_ok = true ∧ env.setspecific_ok = true) :
    fsal_increment_nbcall N w isErr retry env ((i : Nat) : Int) status thr =
      (increment_values w isErr retry ((i : Nat) : Int) status
        (thr.key_stats.getD (init_stats N))).map (fun s => { key_stats := some s }) := by
  have hlt : ¬ (((i : Nat) : Int) ≥ (N : Int)) := by
    have := i.isLt
    omega
  unfold fsal_increment_nbcall
  rw [if_neg hlt, honce]
  cases thr with
  | mk ks =>
    cases ks with
    | none =>
      obtain ⟨ha, hb⟩ := hbind rfl
      simp only [ha, hb, increment_values_fin]
      rfl
    | some s =>
      simp only [increment_values_fin]
      rfl

/-- Effect of one call at a valid index when the record exists or can be
created and bound: the counters after the call, in terms of the counters
before.  Each counter that is incremented wraps at the width of its type. -/
theorem increment_nbcall_effect (N w : Nat) (isErr retry : fsal_status_t → Bool)
    (env : call_env) (i : Fin N) (status : fsal_status_t) (thr : thread_specific N)
    (honce : env.once_ok = true)
    (hbind : thr.key_stats = none → env.alloc_ok = true ∧ env.setspecific_ok = true) :
    ∃ thr1, fsal_increment_nbcall N w isErr retry env ((i : Nat) : Int) status thr = some thr1 ∧
      calls thr1 i = (calls thr i + 1) % 2 ^ w ∧
      (isErr status = false →
        successes thr1 i = (successes thr i + 1) % 2 ^ w ∧
        retryable_errors thr1 i = retryable_errors thr i ∧
        unrecoverable_errors thr1 i = unrecoverable_errors thr i) ∧
      (isErr status = true → retry status = true →
        successes thr1 i = successes thr i ∧
        retryable_errors thr1 i = (retryable_errors thr i + 1) % 2 ^ w ∧
        unrecoverable_errors thr1 i = unrecoverable_errors thr i) ∧
      (isErr status = true → retry status = false →
        successes thr1 i = successes thr i ∧
        retryable_errors thr1 i = retryable_errors thr i ∧
        unrecoverable_errors thr1 i = (unrecoverable_errors thr i + 1) % 2 ^ w) ∧
      (∀ j : Fin N, j ≠ i →
        calls thr1 j = calls thr j ∧
        successes thr1 j = successes thr j ∧
        retryable_errors thr1 j = retryable_errors thr j ∧
        unrecoverable_errors thr1 j = unrecoverable_errors thr j) := by
  rw [increment_nbcall_fin N w isErr retry env i status thr honce hbind, increment_values_fin]
  refine ⟨_, rfl, ?_, ?_, ?_, ?_, ?_⟩
  · rw [(counters_eq_getD thr i).1]
    simp [calls]
  · intro h1
    rw [(counters_eq_getD thr i).2.1, (counters_eq_getD thr i).2.2.1,
      (counters_eq_getD thr i).2.2.2]
    simp [successes, retryable_errors, unrecoverable_errors, h1]
  · intro h1 h2
    rw [(counters_eq_getD thr i).2.1, (counters_eq_getD thr i).2.2.1,
      (counters_eq_getD thr i).2.2.2]
    simp [successes, retryable_errors, unrecoverable_errors, h1, h2]
  · intro h1 h2
    rw [(counters_eq_getD thr i).2.1, (counters_eq_getD thr i).2.2.1,
      (counters_eq_getD thr i).2.2.2]
    simp [successes, retryable_errors, unrecoverable_errors, h1, h2]
  · intro j hj
    rw [(counters_eq_getD thr j).1, (counters_eq_getD thr j).2.1, (counters_eq_getD thr j).2.2.1,
      (counters_eq_getD thr j).2.2.2]
    simp only [calls, successes, retryable_errors, unrecoverable_errors]
    refine ⟨?_, ?_, ?_, ?_⟩
    · simp [Function.update_noteq hj]
    · split_ifs <;> simp [Function.update_noteq hj]
    · split_ifs <;> simp [Function.update_noteq hj]
    · split_ifs <;> simp [Function.update_noteq hj]


/-- A call at a valid index made when `pthread_once` fails, or when the thread
has no record and none can be allocated or the new one is not bound to the
thread, leaves the thread as it was. -/
theorem increment_nbcall_dropped (N w : Nat) (isErr retry : fsal_status_t → Bool)
    (env : call_env) (i : Fin N) (status : fsal_status_t) (thr : thread_specific N)
    (h : env.once_ok = false ∨
      (thr.key_stats = none ∧ (env.alloc_ok = false ∨ env.setspecific_ok = false))) :
    fsal_increment_nbcall N w isErr retry env ((i : Nat) : Int) status thr = some thr := by
  have hlt : ¬ (((i : Nat) : Int) ≥ (N : Int)) := by
    have := i.isLt
    omega
  unfold fsal_increment_nbcall
  rw [if_neg hlt]
  rcases h with h | ⟨hk, h⟩
  · simp [h]
  · cases thr with
    | mk ks =>
      simp only at hk
      subst hk
      rcases h with ha | hs
      · cases env.once_ok <;> simp [ha]
      · cases env.once_ok <;> cases env.alloc_ok <;> simp [hs, increment_values_fin]

/-- An index that is not below `FSAL_NB_FUNC` is ignored. -/
theorem increment_nbcall_ignored (N w : Nat) (isErr retry : fsal_status_t → Bool)
    (env : call_env) (function_index : Int) (status : fsal_status_t) (thr : thread_specific N)
    (h : (N : Int) ≤ function_index) :
    fsal_increment_nbcall N w isErr retry env function_index status thr = some thr := by
  unfold fsal_increment_nbcall
  rw [if_pos h]

/-- One call with an index that is not negative, on a thread none of whose call
counters is at the largest value, keeps the statistics invariant and raises no
call counter by more than one. -/
theorem increment_nbcall_invariant (N w : Nat) (isErr retry : fsal_status_t → Bool)
    (env : call_env) (function_index : Int) (status : fsal_status_t) (thr : thread_specific N)
    (h0 : 0 ≤ function_index) (hinv : stats_invariant thr)
    (hroom : ∀ i : Fin N, calls thr i + 1 < 2 ^ w) :
    ∃ thr1, fsal_increment_nbcall N w isErr retry env function_index status thr = some thr1 ∧
      stats_invariant thr1 ∧ ∀ i : Fin N, calls thr1 i ≤ calls thr i + 1 := by
  by_cases hN : (N : Int) ≤ function_index
  · exact ⟨thr, increment_nbcall_ignored N w isErr retry env function_index status thr hN, hinv,
      fun i => Nat.le_succ _⟩
  · have hlt : function_index.toNat < N := by omega
    have hidx : function_index = (((⟨function_index.toNat, hlt⟩ : Fin N) : Nat) : Int) := by
      simp only
      omega
    by_cases hdrop : env.once_ok = false ∨
        (thr.key_stats = none ∧ (env.alloc_ok = false ∨ env.setspecific_ok = false))
    · have hstep := increment_nbcall_dropped N w isErr retry env ⟨function_index.toNat, hlt⟩
        status thr hdrop
      rw [← hidx] at hstep
      exact ⟨thr, hstep, hinv, fun i => Nat.le_succ _⟩
    · have honce : env.once_ok = true := by
        cases h : env.once_ok with
        | true => rfl
        | false => exact absurd (Or.inl h) hdrop
      have hbind : thr.key_stats = none → env.alloc_ok = true ∧ env.setspecific_ok = true := by
        intro hk
        constructor
        · cases h : env.alloc_ok with
          | true => rfl
          | false => exact absurd (Or.inr ⟨hk, Or.inl h⟩) hdrop
        · cases h : env.setspecific_ok with
          | true => rfl
          | false => exact absurd (Or.inr ⟨hk, Or.inr h⟩) hdrop
      obtain ⟨thr1, hstep, hc, hs, hr, hu, hother⟩ :=
        increment_nbcall_effect N w isErr retry env ⟨function_index.toNat, hlt⟩ status thr honce
          hbind
      rw [← hidx] at hstep
      have hi := hinv ⟨function_index.toNat, hlt⟩
      have hri := hroom ⟨function_index.toNat, hlt⟩
      rw [Nat.mod_eq_of_lt hri] at hc
      refine ⟨thr1, hstep, ?_, ?_⟩
      · intro j
        by_cases hj : j = ⟨function_index.toNat, hlt⟩
        · subst hj
          cases h1 : isErr status with
          | false =>
            obtain ⟨e1, e2, e3⟩ := hs h1
            rw [Nat.mod_eq_of_lt (by omega)] at e1
            omega
          | true =>
            cases h2 : retry status with
            | true =>
              obtain ⟨e1, e2, e3⟩ := hr h1 h2
              rw [Nat.mod_eq_of_lt (by omega)] at e2
              omega
            | false =>
              obtain ⟨e1, e2, e3⟩ := hu h1 h2
              rw [Nat.mod_eq_of_lt (by omega)] at e3
              omega
        · obtain ⟨e0, e1, e2, e3⟩ := hother j hj
          have hj1 := hinv j
          omega
      · intro j
        by_cases hj : j = ⟨function_index.toNat, hlt⟩
        · subst hj
          omega
        · obtain ⟨e0, _, _, _⟩ := hother j hj
          omega

/-- The freshly created record satisfies the statistics invariant. -/
theorem init_stats_invariant (N : Nat) :
    stats_invariant ({ key_stats := some (init_stats N) } : thread_specific N) := by
  intro i
  rfl

/-- Any finite sequence of calls whose indices are not negative, whatever the
outcomes and whatever the C library answers, ends in a state that satisfies the
statistics invariant, provided it starts in one and is short enough for no call
counter to reach the largest value of its type. -/
theorem run_nbcalls_invariant (N w : Nat) (isErr retry : fsal_status_t → Bool)
    (cs : List nbcall) (thr : thread_specific N)
    (hids : ∀ c ∈ cs, 0 ≤ c.function_index) (hinv : stats_invariant thr)
    (hroom : ∀ i : Fin N, calls thr i + cs.length < 2 ^ w) :
    ∃ thr1, run_nbcalls N w isErr retry cs thr = some thr1 ∧ stats_invariant thr1 := by
  induction cs generalizing thr with
  | nil => exact ⟨thr, rfl, hinv⟩
  | cons c rest ih =>
    obtain ⟨thr1, hstep, hinv1, hle⟩ :=
      increment_nbcall_invariant N w isErr retry c.env c.function_index c.status thr
        (hids c (List.mem_cons_self c rest)) hinv
        (fun i => by
          have := hroom i
          simp only [List.length_cons] at this
          omega)
    obtain ⟨thr2, hrun, hinv2⟩ :=
      ih thr1 (fun d hd => hids d (List.mem_cons_of_mem c hd)) hinv1
        (fun i => by
          have := hroom i
          have := hle i
          simp only [List.length_cons] at *
          omega)
    refine ⟨thr2, ?_, hinv2⟩
    unfold run_nbcalls
    rw [hstep]
    exact hrun

/-- A snapshot never changes a counter of the calling thread, whatever the C
library answers. -/
theorem getstats_keeps_counters (N : Nat) (env : call_env)
    (output_stats : Option (fsal_statistics_t N)) (thr : thread_specific N) (i : Fin N) :
    calls (fsal_internal_getstats N env output_stats thr).1 i = calls thr i ∧
    successes (fsal_internal_getstats N env output_stats thr).1 i = successes thr i ∧
    retryable_errors (fsal_internal_getstats N env output_stats thr).1 i =
      retryable_errors thr i ∧
    unrecoverable_errors (fsal_internal_getstats N env output_stats thr).1 i =
      unrecoverable_errors thr i := by
  cases thr with
  | mk ks =>
    cases ks with
    | some s =>
      unfold fsal_internal_getstats
      cases env.once_ok <;> exact ⟨rfl, rfl, rfl, rfl⟩
    | none =>
      unfold fsal_internal_getstats
      cases env.once_ok <;> cases env.alloc_ok <;> cases env.setspecific_ok <;>
        exact ⟨rfl, rfl, rfl, rfl⟩

/-- What a snapshot stores in the destination when `pthread_once` succeeds and
the thread has a record or one can be allocated: the record the call works
on. -/
theorem getstats_destination (N : Nat) (env : call_env) (out_old : fsal_statistics_t N)
    (thr : thread_specific N) (honce : env.once_ok = true)
    (halloc : thr.key_stats = none → env.alloc_ok = true) :
    (fsal_internal_getstats N env (some out_old) thr).2 =
      some (thr.key_stats.getD (init_stats N)) := by
  cases thr with
  | mk ks =>
    cases ks with
    | some s => simp [fsal_internal_getstats, honce]
    | none =>
      have ha : env.alloc_ok = true := halloc rfl
      simp [fsal_internal_getstats, honce, ha]

/-- The slot of the thread after a snapshot is the slot before or the zero
record. -/
theorem getstats_slot (N : Nat) (env : call_env) (output_stats : Option (fsal_statistics_t N))
    (thr : thread_specific N) :
    (fsal_internal_getstats N env output_stats thr).1 = thr ∨
    (thr.key_stats = none ∧
      (fsal_internal_getstats N env output_stats thr).1 = { key_stats := some (init_stats N) }) := by
  cases thr with
  | mk ks =>
    cases ks with
    | some s =>
      left
      unfold fsal_internal_getstats
      cases env.once_ok <;> rfl
    | none =>
      unfold fsal_internal_getstats
      cases env.once_ok <;> cases env.alloc_ok <;> cases env.setspecific_ok <;>
        first
        | exact Or.inl rfl
        | exact Or.inr ⟨rfl, rfl⟩

/-! ## Statistics collector: the claims -/

/-- C7, at the failing input.  From the freshly created record, one call with
index -1 passes the index check (-1 is below `FSAL_NB_FUNC`) and then indexes
the counter arrays at -1, outside their bounds: the run has no defined
resulting record, so the invariant is not kept by every sequence of calls.
For sequences without a negative index it is kept as long as no call counter
reaches the largest value of its type: `run_nbcalls_invariant`. -/
theorem negative_index_run_undefined :
    run_nbcalls 2 32 is_error_major never_retryable
      [{ env := { once_ok := true, alloc_ok := true, setspecific_ok := true },
         function_index := -1, status := ReturnCode ERR_FSAL_NO_ERROR 0 }]
      { key_stats := some (init_stats 2) } = none := by
  rfl

/-- C8, at the failing input.  Whatever `FSAL_NB_FUNC`, the width of the
counters, the classification of the status and the thread's record, a call
with index -1 is not ignored: it passes the index check and accesses the
counter arrays outside their bounds. -/
theorem negative_index_not_ignored (N w : Nat) (isErr retry : fsal_status_t → Bool)
    (status : fsal_status_t) (s : fsal_statistics_t N) :
    fsal_increment_nbcall N w isErr retry
      { once_ok := true, alloc_ok := true, setspecific_ok := true } (-1) status
      { key_stats := some s } = none := by
  have hlt : ¬ ((-1 : Int) ≥ (N : Int)) := by omega
  unfold fsal_increment_nbcall
  rw [if_neg hlt]
  simp only [increment_values, array_incr_neg _ _ (-1) (by omega)]
  rfl


/-- C9 (amended).  For every valid index `i` and every status: when
`pthread_once` succeeds and the thread has a record, or one can be allocated
and `pthread_setspecific` binds it to the thread, the call returns, leaves the
counters of every other identifier unchanged, leaves unchanged the two outcome
counters of `i` that the status does not select, and, for `calls[i]` and for
the outcome counter that the status selects (successes when the status is not
an error, retryable errors when it is an error that the classifier calls
retryable, unrecoverable errors otherwise), adds exactly one when that counter
is below the largest value of its type, counting from zero when the thread had
no record.  When `pthread_once` fails, or the thread has no record and the
allocation fails or the new record is not bound, the call leaves the thread as
it was: it records nothing. -/
theorem record_valid_index (N w : Nat) (isErr retry : fsal_status_t → Bool) (env : call_env)
    (i : Fin N) (status : fsal_status_t) (thr : thread_specific N) :
    (env.once_ok = true →
      (thr.key_stats = none → env.alloc_ok = true ∧ env.setspecific_ok = true) →
      ∃ thr1, fsal_increment_nbcall N w isErr retry env ((i : Nat) : Int) status thr = some thr1 ∧
        (calls thr i + 1 < 2 ^ w → calls thr1 i = calls thr i + 1) ∧
        (isErr status = false →
          (successes thr i + 1 < 2 ^ w → successes thr1 i = successes thr i + 1) ∧
          retryable_errors thr1 i = retryable_errors thr i ∧
          unrecoverable_errors thr1 i = unrecoverable_errors thr i) ∧
        (isErr status = true → retry status = true →
          successes thr1 i = successes thr i ∧
          (retryable_errors thr i + 1 < 2 ^ w →
            retryable_errors thr1 i = retryable_errors thr i + 1) ∧
          unrecoverable_errors thr1 i = unrecoverable_errors thr i) ∧
        (isErr status = true → retry status = false →
          successes thr1 i = successes thr i ∧
          retryable_errors thr1 i = retryable_errors thr i ∧
          (unrecoverable_errors thr i + 1 < 2 ^ w →
            unrecoverable_errors thr1 i = unrecoverable_errors thr i + 1)) ∧
        (∀ j : Fin N, j ≠ i →
          calls thr1 j = calls thr j ∧
          successes thr1 j = successes thr j ∧
          retryable_errors thr1 j = retryable_errors thr j ∧
          unrecoverable_errors thr1 j = unrecoverable_errors thr j) ∧
        (thr.key_stats = none →
          calls thr i = 0 ∧ successes thr i = 0 ∧ retryable_errors thr i = 0 ∧
            unrecoverable_errors thr i = 0)) ∧
    ((env.once_ok = false ∨
        (thr.key_stats = none ∧ (env.alloc_ok = false ∨ env.setspecific_ok = false))) →
      fsal_increment_nbcall N w isErr retry env ((i : Nat) : Int) status thr = some thr) := by
  refine ⟨fun honce hbind => ?_,
    fun h => increment_nbcall_dropped N w isErr retry env i status thr h⟩
  obtain ⟨thr1, hstep, hc, hs, hr, hu, hother⟩ :=
    increment_nbcall_effect N w isErr retry env i status thr honce hbind
  refine ⟨thr1, hstep, ?_, ?_, ?_, ?_, hother, ?_⟩
  · intro hlt
    rw [hc, Nat.mod_eq_of_lt hlt]
  · intro h1
    obtain ⟨e1, e2, e3⟩ := hs h1
    exact ⟨fun hlt => by rw [e1, Nat.mod_eq_of_lt hlt], e2, e3⟩
  · intro h1 h2
    obtain ⟨e1, e2, e3⟩ := hr h1 h2
    exact ⟨e1, fun hlt => by rw [e2, Nat.mod_eq_of_lt hlt], e3⟩
  · intro h1 h2
    obtain ⟨e1, e2, e3⟩ := hu h1 h2
    exact ⟨e1, e2, fun hlt => by rw [e3, Nat.mod_eq_of_lt hlt]⟩
  · intro hk
    simp only [calls, successes, retryable_errors, unrecoverable_errors, hk]
    exact ⟨trivial, trivial, trivial, trivial⟩

/-- A run of `record_valid_index` with counters of 32 bits and two identifiers:
on a thread whose record holds calls = 3, 5 and successes = 3, 5, a call of
identifier 1 that ends in an error leaves calls[1] = 6, unrecoverable[1] = 1,
successes[1] = 5 and calls[0] = 3. -/
theorem record_valid_index_witness :
    ∃ thr1 : thread_specific 2,
      fsal_increment_nbcall 2 32 is_error_major never_retryable
        { once_ok := true, alloc_ok := false, setspecific_ok := false }
        (((1 : Fin 2) : Nat) : Int) (ReturnCode ERR_FSAL_FAULT 0)
        { key_stats := some { func_stats :=
          { nb_call := fun j => if j = 0 then 3 else 5,
            nb_success := fun j => if j = 0 then 3 else 5,
            nb_err_retryable := fun _ => 0, nb_err_unrecover := fun _ => 0 } } } = some thr1 ∧
      calls thr1 1 = 6 ∧ unrecoverable_errors thr1 1 = 1 ∧ successes thr1 1 = 5 ∧
      calls thr1 0 = 3 := by
  obtain ⟨thr1, h, hc, _, _, hu, ho, _⟩ :=
    (record_valid_index 2 32 is_error_major never_retryable
      { once_ok := true, alloc_ok := false, setspecific_ok := false } 1
      (ReturnCode ERR_FSAL_FAULT 0)
      { key_stats := some { func_stats :=
        { nb_call := fun j => if j = 0 then 3 else 5,
          nb_success := fun j => if j = 0 then 3 else 5,
          nb_err_retryable := fun _ => 0, nb_err_unrecover := fun _ => 0 } } }).1 rfl
      (fun hk => Option.noConfusion hk)
  exact ⟨thr1, h, hc (by decide), (hu rfl rfl).2.2 (by decide), (hu rfl rfl).1,
    (ho 0 (by decide)).1⟩

/-- C9 as stated fails: valid index 0, a success, on a thread without a record
when the allocation of one fails.  The call returns with the thread still
without a record, so calls[0] is 0 after the call as before. -/
theorem record_claim_counterexample :
    fsal_increment_nbcall 2 32 is_error_major never_retryable
        { once_ok := true, alloc_ok := false, setspecific_ok := true } 0
        (ReturnCode ERR_FSAL_NO_ERROR 0)
        { key_stats := none } = some { key_stats := none } ∧
    calls ({ key_stats := none } : thread_specific 2) 0 = 0 :=
  ⟨rfl, rfl⟩

/-- Two more runs that the provisos of C9 exclude, with counters of 32 bits.
On a thread without a record, when the record is allocated but
`pthread_setspecific` does not bind it, the call leaves the thread without a
record.  On a thread whose counter calls[0] holds the largest value,
4294967295, a call of identifier 0 leaves calls[0] = 0. -/
theorem record_unbound_and_wrap :
    fsal_increment_nbcall 2 32 is_error_major never_retryable
        { once_ok := true, alloc_ok := true, setspecific_ok := false } 0
        (ReturnCode ERR_FSAL_NO_ERROR 0)
        { key_stats := none } = some { key_stats := none } ∧
    (∃ thr1 : thread_specific 2,
      fsal_increment_nbcall 2 32 is_error_major never_retryable
        { once_ok := true, alloc_ok := true, setspecific_ok := true } 0
        (ReturnCode ERR_FSAL_NO_ERROR 0)
        { key_stats := some { func_stats :=
          { nb_call := fun _ => 4294967295, nb_success := fun _ => 7,
            nb_err_retryable := fun _ => 0, nb_err_unrecover := fun _ => 0 } } } = some thr1 ∧
      calls thr1 0 = 0 ∧ successes thr1 0 = 8) := by
  refine ⟨rfl, ?_⟩
  obtain ⟨thr1, h, hc, hs, _⟩ :=
    increment_nbcall_effect 2 32 is_error_major never_retryable
      { once_ok := true, alloc_ok := true, setspecific_ok := true } 0
      (ReturnCode ERR_FSAL_NO_ERROR 0)
      { key_stats := some { func_stats :=
        { nb_call := fun _ => 4294967295, nb_success := fun _ => 7,
          nb_err_retryable := fun _ => 0, nb_err_unrecover := fun _ => 0 } } } rfl
      (fun hk => Option.noConfusion hk)
  exact ⟨thr1, h, hc, (hs rfl).1⟩

/-- C10 (amended).  With a destination structure given.  When `pthread_once`
succeeds and the thread has a record or one can be allocated, the destination
receives a record equal, counter for counter, to the thread's record, all
counters being zero when the thread had none.  Whatever the C library answers,
the call changes no counter of the thread; its slot is left as it was, or, on
a thread without a record, holds the new zero record when `pthread_once`, the
allocation and `pthread_setspecific` all succeed.  A second snapshot made right
after, `pthread_once` succeeding again and a record existing or being
allocated again, stores the same record as the first.  When `pthread_once`
fails, or the thread has no record and none can be allocated, the thread and
the destination are left as they were. -/
theorem getstats_snapshot (N : Nat) (env : call_env) (out_old : fsal_statistics_t N)
    (thr : thread_specific N) :
    (env.once_ok = true → (thr.key_stats = none → env.alloc_ok = true) →
      ∃ r : fsal_statistics_t N,
        (fsal_internal_getstats N env (some out_old) thr).2 = some r ∧
        ∀ i : Fin N, r.func_stats.nb_call i = calls thr i ∧
          r.func_stats.nb_success i = successes thr i ∧
          r.func_stats.nb_err_retryable i = retryable_errors thr i ∧
          r.func_stats.nb_err_unrecover i = unrecoverable_errors thr i) ∧
    (thr.key_stats = none → ∀ i : Fin N, calls thr i = 0 ∧ successes thr i = 0 ∧
      retryable_errors thr i = 0 ∧ unrecoverable_errors thr i = 0) ∧
    (∀ i : Fin N,
      calls (fsal_internal_getstats N env (some out_old) thr).1 i = calls thr i ∧
      successes (fsal_internal_getstats N env (some out_old) thr).1 i = successes thr i ∧
      retryable_errors (fsal_internal_getstats N env (some out_old) thr).1 i =
        retryable_errors thr i ∧
      unrecoverable_errors (fsal_internal_getstats N env (some out_old) thr).1 i =
        unrecoverable_errors thr i) ∧
    ((∀ s, thr.key_stats = some s → (fsal_internal_getstats N env (some out_old) thr).1 = thr) ∧
      (thr.key_stats = none →
        (fsal_internal_getstats N env (some out_old) thr).1 =
          if env.once_ok = true ∧ env.alloc_ok = true ∧ env.setspecific_ok = true then
            { key_stats := some (init_stats N) }
          else thr)) ∧
    (env.once_ok = true → (thr.key_stats = none → env.alloc_ok = true) →
      ∀ (env2 : call_env) (out2 : fsal_statistics_t N), env2.once_ok = true →
        ((fsal_internal_getstats N env (some out_old) thr).1.key_stats = none →
          env2.alloc_ok = true) →
        (fsal_internal_getstats N env2 (some out2)
            (fsal_internal_getstats N env (some out_old) thr).1).2 =
          (fsal_internal_getstats N env (some out_old) thr).2) ∧
    ((env.once_ok = false ∨ (thr.key_stats = none ∧ env.alloc_ok = false)) →
      fsal_internal_getstats N env (some out_old) thr = (thr, some out_old)) := by
  refine ⟨?_, ?_, fun i => getstats_keeps_counters N env (some out_old) thr i, ⟨?_, ?_⟩, ?_, ?_⟩
  · intro honce halloc
    refine ⟨thr.key_stats.getD (init_stats N),
      getstats_destination N env out_old thr honce halloc, fun i => ?_⟩
    obtain ⟨e0, e1, e2, e3⟩ := counters_eq_getD thr i
    exact ⟨e0.symm, e1.symm, e2.symm, e3.symm⟩
  · intro hk i
    simp only [calls, successes, retryable_errors, unrecoverable_errors, hk]
    exact ⟨trivial, trivial, trivial, trivial⟩
  · intro s hs
    cases thr with
    | mk ks =>
      simp only at hs
      subst hs
      unfold fsal_internal_getstats
      cases env.once_ok <;> rfl
  · intro hk
    cases thr with
    | mk ks =>
      simp only at hk
      subst hk
      unfold fsal_internal_getstats
      cases env.once_ok <;> cases env.alloc_ok <;> cases env.setspecific_ok <;> rfl
  · intro honce halloc env2 out2 honce2 halloc2
    rw [getstats_destination N env2 out2 _ honce2 halloc2,
      getstats_destination N env out_old thr honce halloc]
    rcases getstats_slot N env (some out_old) thr with h | ⟨hk, h⟩
    · rw [h]
    · rw [h, hk]
      rfl
  · rintro (h | ⟨hk, ha⟩)
    · simp [fsal_internal_getstats, h]
    · cases thr with
      | mk ks =>
        simp only at hk
        subst hk
        cases env.once_ok <;> simp [fsal_internal_getstats, ha]

/-- A run of `getstats_snapshot` with two identifiers: on a thread whose record
holds calls = 3, 5, successes = 2, 5 and unrecoverable errors = 1, 0, the
snapshot stores a record with calls[0] = 3, successes[0] = 2,
unrecoverable[0] = 1 and calls[1] = 5 in a destination that held 7
everywhere. -/
theorem getstats_snapshot_witness :
    ∃ r : fsal_statistics_t 2,
      (fsal_internal_getstats 2 { once_ok := true, alloc_ok := false, setspecific_ok := false }
        (some { func_stats :=
          { nb_call := fun _ => 7, nb_success := fun _ => 7, nb_err_retryable := fun _ => 7,
            nb_err_unrecover := fun _ => 7 } })
        { key_stats := some { func_stats :=
          { nb_call := fun j => if j = 0 then 3 else 5,
            nb_success := fun j => if j = 0 then 2 else 5,
            nb_err_retryable := fun _ => 0,
            nb_err_unrecover := fun j => if j = 0 then 1 else 0 } } }).2 = some r ∧
      r.func_stats.nb_call 0 = 3 ∧ r.func_stats.nb_success 0 = 2 ∧
      r.func_stats.nb_err_unrecover 0 = 1 ∧ r.func_stats.nb_call 1 = 5 := by
  obtain ⟨r, h, hr⟩ :=
    (getstats_snapshot 2 { once_ok := true, alloc_ok := false, setspecific_ok := false }
      { func_stats :=
        { nb_call := fun _ => 7, nb_success := fun _ => 7, nb_err_retryable := fun _ => 7,
          nb_err_unrecover := fun _ => 7 } }
      { key_stats := some { func_stats :=
        { nb_call := fun j => if j = 0 then 3 else 5,
          nb_success := fun j => if j = 0 then 2 else 5,
          nb_err_retryable := fun _ => 0,
          nb_err_unrecover := fun j => if j = 0 then 1 else 0 } } }).1 rfl
      (fun hk => Option.noConfusion hk)
  exact ⟨r, h, (hr 0).1, (hr 0).2.1, (hr 0).2.2.2, (hr 1).1⟩

/-- C10 as stated fails: on a thread that has never recorded a call, when the
allocation of its record fails, the destination keeps what it held before the
call (here calls[0] = 7), not a record of zeros, and the thread still has no
record. -/
theorem getstats_claim_counterexample :
    ∃ r : fsal_statistics_t 1,
      fsal_internal_getstats 1 { once_ok := true, alloc_ok := false, setspecific_ok := true }
          (some { func_stats :=
            { nb_call := fun _ => 7, nb_success := fun _ => 7, nb_err_retryable := fun _ => 0,
              nb_err_unrecover := fun _ => 0 } })
          { key_stats := none } = ({ key_stats := none }, some r) ∧
      r.func_stats.nb_call 0 = 7 :=
  ⟨_, rfl, rfl⟩

/-! ## Lemmas on initialisation and throttle -/

theorem overrides_fixed_field_iff (b : fs_behaviors_t) :
    overrides_fixed_field b ↔ ∃ p ∈ fixed_field_policies b, p ≠ FSAL_INIT_FS_DEFAULT := by
  unfold overrides_fixed_field fixed_field_policies
  simp only [List.mem_cons, List.mem_singleton, exists_eq_or_imp, List.not_mem_nil,
    false_and, exists_false, or_false, exists_eq_left]

/-- The status of an initialisation whose three arguments are present and whose
throttle setup succeeds. -/
theorem init_status (M : vfs_macros) (info : fsal_init_info_t) (common : fs_common_initinfo_t)
    (specific : fs_specific_initinfo_t) (rc : Int) (g : fsal_globals)
    (hsem : 0 < info.max_fs_calls → rc = 0) :
    (fsal_internal_init_global M (some info) (some common) (some specific) rc g).1 =
      if overrides_fixed_field common.behaviors then ReturnCode ERR_FSAL_NOTSUPP 0
      else ReturnCode ERR_FSAL_NO_ERROR 0 := by
  unfold fsal_internal_init_global
  by_cases h0 : info.max_fs_calls > 0
  · have hrc : ¬ (rc ≠ 0) := fun h => h (hsem h0)
    simp only [h0, if_true, hrc, if_false]
    split_ifs <;> rfl
  · simp only [h0, if_false]
    split_ifs <;> rfl

/-- The table after a successful initialisation: the defaults merged with the
configuration. -/
theorem init_success_table (M : vfs_macros) (info : fsal_init_info_t)
    (common : fs_common_initinfo_t) (specific : fs_specific_initinfo_t) (rc : Int)
    (g : fsal_globals)
    (hok : (fsal_internal_init_global M (some info) (some common) (some specific) rc g).1 =
      ReturnCode ERR_FSAL_NO_ERROR 0) :
    (fsal_internal_init_global M (some info) (some common) (some specific) rc g).2.global_fs_info =
      merge_common_info (default_vfs_info M) common := by
  unfold fsal_internal_init_global at hok ⊢
  simp only at hok ⊢
  split_ifs at hok ⊢ <;>
    first
    | rfl
    | exact absurd hok (status_ne_of_major_ne _ _ (by decide) _ _)

theorem SET_INTEGER_PARAM_eq_spec (p : fsal_initflag_t) (d v : Nat) :
    SET_INTEGER_PARAM p d v = spec_numeric_merge p d v := by
  cases p with
  | FSAL_INIT_FS_DEFAULT => rfl
  | FSAL_INIT_FORCE_VALUE => rfl
  | FSAL_INIT_MAX_LIMIT =>
    simp only [SET_INTEGER_PARAM, spec_numeric_merge]
    split_ifs with h
    · exact (Nat.min_eq_right (Nat.le_of_lt h)).symm
    · exact (Nat.min_eq_left (Nat.le_of_not_lt h)).symm
  | FSAL_INIT_MIN_LIMIT =>
    simp only [SET_INTEGER_PARAM, spec_numeric_merge]
    split_ifs with h
    · exact (Nat.max_eq_right (Nat.le_of_lt h)).symm
    · exact (Nat.max_eq_left (Nat.le_of_not_lt h)).symm
  | FSAL_INIT_other c => rfl

theorem SET_BITMAP_PARAM_eq_spec (p : fsal_initflag_t) (d v : Nat) :
    SET_BITMAP_PARAM p d v = spec_bitmask_merge p d v := by
  cases p <;> rfl

theorem throttle_call_disabled (g : fsal_globals) (h : g.limit_calls = false) :
    TakeTokenFSCall g = some g ∧ ReleaseTokenFSCall g = some g := by
  unfold TakeTokenFSCall ReleaseTokenFSCall
  simp [h]

theorem run_throttle_disabled (g : fsal_globals) (h : g.limit_calls = false)
    (cs : List throttle_call) : run_throttle cs g = some g := by
  induction cs with
  | nil => rfl
  | cons c rest ih =>
    cases c with
    | take =>
      unfold run_throttle
      rw [(throttle_call_disabled g h).1]
      exact ih
    | release =>
      unfold run_throttle
      rw [(throttle_call_disabled g h).2]
      exact ih

/-- The throttle variables after an initialisation whose three arguments are
present. -/
theorem init_throttle_state (M : vfs_macros) (info : fsal_init_info_t)
    (common : fs_common_initinfo_t) (specific : fs_specific_initinfo_t) (rc : Int)
    (g : fsal_globals) :
    (info.max_fs_calls = 0 →
      (fsal_internal_init_global M (some info) (some common) (some specific) rc g).2.limit_calls =
          g.limit_calls ∧
        (fsal_internal_init_global M (some info) (some common) (some specific) rc
          g).2.sem_fs_calls = g.sem_fs_calls) ∧
    (0 < info.max_fs_calls → rc = 0 →
      (fsal_internal_init_global M (some info) (some common) (some specific) rc g).2.limit_calls =
          true ∧
        (fsal_internal_init_global M (some info) (some common) (some specific) rc
          g).2.sem_fs_calls = some { count := info.max_fs_calls }) ∧
    (0 < info.max_fs_calls → rc ≠ 0 →
      fsal_internal_init_global M (some info) (some common) (some specific) rc g =
        (ReturnCode ERR_FSAL_SERVERFAULT rc, { g with limit_calls := true })) := by
  unfold fsal_internal_init_global
  refine ⟨?_, ?_, ?_⟩
  · intro h0
    have h1 : ¬ (info.max_fs_calls > 0) := by omega
    simp only [h1, if_false]
    split_ifs <;> exact ⟨rfl, rfl⟩
  · intro h0 hrc
    have h1 : ¬ (rc ≠ 0) := fun h => h hrc
    simp only [gt_iff_lt, h0, if_true, h1, if_false]
    split_ifs <;> exact ⟨rfl, rfl⟩
  · intro h0 hrc
    simp only [gt_iff_lt, h0, if_true, hrc, ne_eq, not_false_eq_true]

/-! ## Initialisation and throttle: the claims -/

/-- C11.  With the three arguments present and the throttle setup succeeding
(`semaphore_init`, when it is called, returns 0), the initialisation returns
`ERR_FSAL_NOTSUPP` exactly when the configuration gives a policy other than
`FSAL_INIT_FS_DEFAULT` to one of the eleven fixed fields, and returns success
otherwise. -/
theorem init_notsupp_iff (M : vfs_macros) (info : fsal_init_info_t)
    (common : fs_common_initinfo_t) (specific : fs_specific_initinfo_t) (rc : Int)
    (g : fsal_globals) (hsem : 0 < info.max_fs_calls → rc = 0) :
    ((fsal_internal_init_global M (some info) (some common) (some specific) rc g).1 =
        ReturnCode ERR_FSAL_NOTSUPP 0 ↔
      ∃ p ∈ fixed_field_policies common.behaviors, p ≠ FSAL_INIT_FS_DEFAULT) ∧
    ((¬ ∃ p ∈ fixed_field_policies common.behaviors, p ≠ FSAL_INIT_FS_DEFAULT) →
      (fsal_internal_init_global M (some info) (some common) (some specific) rc g).1 =
        ReturnCode ERR_FSAL_NO_ERROR 0) := by
  rw [init_status M info common specific rc g hsem, ← overrides_fixed_field_iff]
  by_cases hf : overrides_fixed_field common.behaviors
  · rw [if_pos hf]
    exact ⟨⟨fun _ => hf, fun _ => rfl⟩, fun h => absurd hf h⟩
  · rw [if_neg hf]
    exact ⟨⟨fun h => absurd h (status_ne_of_major_ne _ _ (by decide) 0 0),
      fun h => absurd h hf⟩, fun _ => rfl⟩

/-- A run of `init_notsupp_iff`: a configuration that forces `maxlink`, with a
limit of 4 simultaneous calls and a semaphore that initialises, is refused with
`ERR_FSAL_NOTSUPP`. -/
theorem init_notsupp_iff_witness :
    fsal_internal_init_global spec_vfs_macros (some { max_fs_calls := 4 })
        (some { behaviors := { keep_default_behaviors with maxlink := FSAL_INIT_FORCE_VALUE },
                values := default_vfs_info spec_vfs_macros })
        (some {}) 0 fresh_globals =
      (ReturnCode ERR_FSAL_NOTSUPP 0,
        { limit_calls := true, sem_fs_calls := some { count := 4 },
          global_fs_info := default_vfs_info spec_vfs_macros }) ∧
    (fsal_internal_init_global spec_vfs_macros (some { max_fs_calls := 4 })
        (some { behaviors := { keep_default_behaviors with maxlink := FSAL_INIT_FORCE_VALUE },
                values := default_vfs_info spec_vfs_macros })
        (some {}) 0 fresh_globals).1 = ReturnCode ERR_FSAL_NOTSUPP 0 :=
  ⟨by decide,
    (init_notsupp_iff spec_vfs_macros { max_fs_calls := 4 }
      { behaviors := { keep_default_behaviors with maxlink := FSAL_INIT_FORCE_VALUE },
        values := default_vfs_info spec_vfs_macros } {} 0 fresh_globals (fun _ => rfl)).1.mpr
      ⟨FSAL_INIT_FORCE_VALUE, by decide, by decide⟩⟩

/-- C12.  After a successful initialisation the numeric fields `maxread` and
`maxwrite` hold the merge of their default `d` with the configured value `v`:
`v` under Force, `min d v` under MaxLimit, `max d v` under MinLimit, `d` under
KeepDefault and under any other policy value.  The macro computes that merge
for every `d` and `v`. -/
theorem init_numeric_merge (M : vfs_macros) (info : fsal_init_info_t)
    (common : fs_common_initinfo_t) (specific : fs_specific_initinfo_t) (rc : Int)
    (g : fsal_globals)
    (hok : (fsal_internal_init_global M (some info) (some common) (some specific) rc g).1 =
      ReturnCode ERR_FSAL_NO_ERROR 0) :
    (fsal_internal_init_global M (some info) (some common) (some specific) rc
        g).2.global_fs_info.maxread =
      spec_numeric_merge common.behaviors.maxread (default_vfs_info M).maxread
        common.values.maxread ∧
    (fsal_internal_init_global M (some info) (some common) (some specific) rc
        g).2.global_fs_info.maxwrite =
      spec_numeric_merge common.behaviors.maxwrite (default_vfs_info M).maxwrite
        common.values.maxwrite ∧
    (∀ d v : Nat,
      SET_INTEGER_PARAM FSAL_INIT_FORCE_VALUE d v = v ∧
      SET_INTEGER_PARAM FSAL_INIT_MAX_LIMIT d v = min d v ∧
      SET_INTEGER_PARAM FSAL_INIT_MIN_LIMIT d v = max d v ∧
      SET_INTEGER_PARAM FSAL_INIT_FS_DEFAULT d v = d ∧
      ∀ c : Nat, SET_INTEGER_PARAM (FSAL_INIT_other c) d v = d) := by
  rw [init_success_table M info common specific rc g hok]
  refine ⟨?_, ?_, ?_⟩
  · rw [← SET_INTEGER_PARAM_eq_spec]
    rfl
  · rw [← SET_INTEGER_PARAM_eq_spec]
    rfl
  · intro d v
    exact ⟨rfl, SET_INTEGER_PARAM_eq_spec FSAL_INIT_MAX_LIMIT d v,
      SET_INTEGER_PARAM_eq_spec FSAL_INIT_MIN_LIMIT d v, rfl, fun _ => rfl⟩

/-- A run of `init_numeric_merge`: `maxread` under MaxLimit with configured
value 4096 stays at its default 0, `maxwrite` under MinLimit with configured
value 8192 becomes 8192. -/
theorem init_numeric_merge_witness :
    (fsal_internal_init_global spec_vfs_macros (some { max_fs_calls := 0 })
        (some { behaviors := { keep_default_behaviors with
                  maxread := FSAL_INIT_MAX_LIMIT, maxwrite := FSAL_INIT_MIN_LIMIT },
                values := { default_vfs_info spec_vfs_macros with
                  maxread := 4096, maxwrite := 8192 } })
        (some {}) 0 fresh_globals).2.global_fs_info.maxread = 0 ∧
    (fsal_internal_init_global spec_vfs_macros (some { max_fs_calls := 0 })
        (some { behaviors := { keep_default_behaviors with
                  maxread := FSAL_INIT_MAX_LIMIT, maxwrite := FSAL_INIT_MIN_LIMIT },
                values := { default_vfs_info spec_vfs_macros with
                  maxread := 4096, maxwrite := 8192 } })
        (some {}) 0 fresh_globals).2.global_fs_info.maxwrite = 8192 :=
  ⟨(init_numeric_merge spec_vfs_macros { max_fs_calls := 0 }
      { behaviors := { keep_default_behaviors with
          maxread := FSAL_INIT_MAX_LIMIT, maxwrite := FSAL_INIT_MIN_LIMIT },
        values := { default_vfs_info spec_vfs_macros with maxread := 4096, maxwrite := 8192 } }
      {} 0 fresh_globals (by decide)).1,
    (init_numeric_merge spec_vfs_macros { max_fs_calls := 0 }
      { behaviors := { keep_default_behaviors with
          maxread := FSAL_INIT_MAX_LIMIT, maxwrite := FSAL_INIT_MIN_LIMIT },
        values := { default_vfs_info spec_vfs_macros with maxread := 4096, maxwrite := 8192 } }
      {} 0 fresh_globals (by decide)).2.1⟩

/-- C13.  After a successful initialisation the bitmask fields `umask` (default
0) and `xattr_access_rights` (default 0400) hold the merge of their default `d`
with the configured value `v`: `v` under Force, `d AND v` under MaxLimit,
`d OR v` under MinLimit, `d` under KeepDefault.  The MaxLimit result is a
subset of `d` and the MinLimit result a superset of `d`. -/
theorem init_bitmask_merge (M : vfs_macros) (info : fsal_init_info_t)
    (common : fs_common_initinfo_t) (specific : fs_specific_initinfo_t) (rc : Int)
    (g : fsal_globals)
    (hok : (fsal_internal_init_global M (some info) (some common) (some specific) rc g).1 =
      ReturnCode ERR_FSAL_NO_ERROR 0) :
    (fsal_internal_init_global M (some info) (some common) (some specific) rc
        g).2.global_fs_info.umask =
      spec_bitmask_merge common.behaviors.umask 0 common.values.umask ∧
    (fsal_internal_init_global M (some info) (some common) (some specific) rc
        g).2.global_fs_info.xattr_access_rights =
      spec_bitmask_merge common.behaviors.xattr_access_rights 0o400
        common.values.xattr_access_rights ∧
    (∀ d v : Nat,
      SET_BITMAP_PARAM FSAL_INIT_FORCE_VALUE d v = v ∧
      SET_BITMAP_PARAM FSAL_INIT_MAX_LIMIT d v = d &&& v ∧
      SET_BITMAP_PARAM FSAL_INIT_MIN_LIMIT d v = d ||| v ∧
      SET_BITMAP_PARAM FSAL_INIT_FS_DEFAULT d v = d ∧
      bits_subset (SET_BITMAP_PARAM FSAL_INIT_MAX_LIMIT d v) d ∧
      bits_subset d (SET_BITMAP_PARAM FSAL_INIT_MIN_LIMIT d v)) := by
  rw [init_success_table M info common specific rc g hok]
  refine ⟨?_, ?_, ?_⟩
  · rw [← SET_BITMAP_PARAM_eq_spec]
    rfl
  · rw [← SET_BITMAP_PARAM_eq_spec]
    rfl
  · intro d v
    refine ⟨rfl, rfl, rfl, rfl, ?_, ?_⟩
    · intro k hk
      simp only [SET_BITMAP_PARAM, Nat.testBit_and, Bool.and_eq_true] at hk
      exact hk.1
    · intro k hk
      simp only [SET_BITMAP_PARAM, Nat.testBit_or, Bool.or_eq_true]
      exact Or.inl hk

/-- A run of `init_bitmask_merge`: `umask` under MinLimit with configured value
022 becomes 022, `xattr_access_rights` under MaxLimit with configured value
0600 becomes 0400. -/
theorem init_bitmask_merge_witness :
    (fsal_internal_init_global spec_vfs_macros (some { max_fs_calls := 0 })
        (some { behaviors := { keep_default_behaviors with
                  umask := FSAL_INIT_MIN_LIMIT, xattr_access_rights := FSAL_INIT_MAX_LIMIT },
                values := { default_vfs_info spec_vfs_macros with
                  umask := 0o022, xattr_access_rights := 0o600 } })
        (some {}) 0 fresh_globals).2.global_fs_info.umask = 0o022 ∧
    (fsal_internal_init_global spec_vfs_macros (some { max_fs_calls := 0 })
        (some { behaviors := { keep_default_behaviors with
                  umask := FSAL_INIT_MIN_LIMIT, xattr_access_rights := FSAL_INIT_MAX_LIMIT },
                values := { default_vfs_info spec_vfs_macros with
                  umask := 0o022, xattr_access_rights := 0o600 } })
        (some {}) 0 fresh_globals).2.global_fs_info.xattr_access_rights = 0o400 :=
  ⟨(init_bitmask_merge spec_vfs_macros { max_fs_calls := 0 }
      { behaviors := { keep_default_behaviors with
          umask := FSAL_INIT_MIN_LIMIT, xattr_access_rights := FSAL_INIT_MAX_LIMIT },
        values := { default_vfs_info spec_vfs_macros with
          umask := 0o022, xattr_access_rights := 0o600 } }
      {} 0 fresh_globals (by decide)).1,
    (init_bitmask_merge spec_vfs_macros { max_fs_calls := 0 }
      { behaviors := { keep_default_behaviors with
          umask := FSAL_INIT_MIN_LIMIT, xattr_access_rights := FSAL_INIT_MAX_LIMIT },
        values := { default_vfs_info spec_vfs_macros with
          umask := 0o022, xattr_access_rights := 0o600 } }
      {} 0 fresh_globals (by decide)).2.1⟩

/-- C14 (amended).  On a freshly started process (no limit, no semaphore) and
with the three arguments present: when the configured maximum is zero,
throttling stays disabled and no permit pool is created; when `semaphore_init`,
if it is called, returns 0, throttling is enabled with capacity equal to the
configured maximum exactly when that maximum is greater than zero; when the
maximum is greater than zero and `semaphore_init` fails, the initialisation
returns `ERR_FSAL_SERVERFAULT` with the value it returned and no permit pool
exists afterwards, of the configured capacity or of any other. -/
theorem init_throttle_setup (M : vfs_macros) (info : fsal_init_info_t)
    (common : fs_common_initinfo_t) (specific : fs_specific_initinfo_t) (rc : Int)
    (g : fsal_globals) (hfresh : throttle_disabled_no_pool g) :
    (info.max_fs_calls = 0 →
      throttle_disabled_no_pool
        (fsal_internal_init_global M (some info) (some common) (some specific) rc g).2) ∧
    ((0 < info.max_fs_calls → rc = 0) →
      (throttle_enabled_with
          (fsal_internal_init_global M (some info) (some common) (some specific) rc g).2
          info.max_fs_calls ↔
        0 < info.max_fs_calls)) ∧
    (0 < info.max_fs_calls → rc ≠ 0 →
      (fsal_internal_init_global M (some info) (some common) (some specific) rc g).1 =
        ReturnCode ERR_FSAL_SERVERFAULT rc ∧
      (fsal_internal_init_global M (some info) (some common) (some specific) rc
        g).2.sem_fs_calls = none ∧
      ∀ capacity : Nat,
        ¬ throttle_enabled_with
          (fsal_internal_init_global M (some info) (some common) (some specific) rc g).2
          capacity) := by
  obtain ⟨hz, hpos, hfail⟩ := init_throttle_state M info common specific rc g
  refine ⟨?_, ?_, ?_⟩
  · intro h0
    obtain ⟨h1, h2⟩ := hz h0
    exact ⟨h1.trans hfresh.1, h2.trans hfresh.2⟩
  · intro hsem
    constructor
    · intro hen
      by_contra hn
      have h0 : info.max_fs_calls = 0 := by omega
      obtain ⟨h1, _⟩ := hz h0
      have h2 := hen.1
      rw [h1, hfresh.1] at h2
      exact Bool.noConfusion h2
    · intro h0
      exact hpos h0 (hsem h0)
  · intro h0 hrc
    rw [hfail h0 hrc]
    refine ⟨rfl, hfresh.2, fun capacity hen => ?_⟩
    have h2 : g.sem_fs_calls = some { count := capacity } := hen.2
    rw [hfresh.2] at h2
    exact Option.noConfusion h2

/-- A run of `init_throttle_setup`: on a fresh process a configured maximum of 4
with a semaphore that initialises enables throttling with capacity 4. -/
theorem init_throttle_setup_witness :
    throttle_disabled_no_pool fresh_globals ∧
    throttle_enabled_with
      (fsal_internal_init_global spec_vfs_macros (some { max_fs_calls := 4 })
        (some { behaviors := keep_default_behaviors,
                values := default_vfs_info spec_vfs_macros })
        (some {}) 0 fresh_globals).2 4 :=
  ⟨⟨rfl, rfl⟩,
    ((init_throttle_setup spec_vfs_macros { max_fs_calls := 4 }
      { behaviors := keep_default_behaviors, values := default_vfs_info spec_vfs_macros } {} 0
      fresh_globals ⟨rfl, rfl⟩).2.1 (fun _ => rfl)).mpr (by decide)⟩

/-- C14 as stated fails: on a fresh process with the three arguments present
and a configured maximum of 5, when `semaphore_init` returns -1 the
initialisation returns `ERR_FSAL_SERVERFAULT` and throttling is not enabled
with capacity 5, although 5 is greater than zero. -/
theorem init_throttle_claim_counterexample :
    (0 : Nat) < 5 ∧
    (fsal_internal_init_global spec_vfs_macros (some { max_fs_calls := 5 })
        (some { behaviors := keep_default_behaviors,
                values := default_vfs_info spec_vfs_macros })
        (some {}) (-1) fresh_globals).1 = ReturnCode ERR_FSAL_SERVERFAULT (-1) ∧
    ¬ throttle_enabled_with
      (fsal_internal_init_global spec_vfs_macros (some { max_fs_calls := 5 })
        (some { behaviors := keep_default_behaviors,
                values := default_vfs_info spec_vfs_macros })
        (some {}) (-1) fresh_globals).2 5 := by
  refine ⟨by decide, by decide, ?_⟩
  intro h
  exact absurd h.2 (by decide)

/-- C15.  When throttling is disabled (`limit_calls` is false, the state that a
configured capacity of 0 leaves), every acquire and every release returns at
once with the process-wide variables unchanged, and so does every finite
sequence of acquires and releases, in any number and order: no call waits. -/
theorem throttle_disabled_noop (g : fsal_globals) (h : g.limit_calls = false)
    (cs : List throttle_call) :
    TakeTokenFSCall g = some g ∧ ReleaseTokenFSCall g = some g ∧ run_throttle cs g = some g :=
  ⟨(throttle_call_disabled g h).1, (throttle_call_disabled g h).2,
    run_throttle_disabled g h cs⟩

/-- Scenario E of the spec, through `throttle_disabled_noop`: after an
initialisation with capacity 0 on a fresh process, three acquires followed by a
release and an acquire all return and leave the state as it was. -/
theorem throttle_disabled_noop_witness :
    run_throttle
        [throttle_call.take, throttle_call.take, throttle_call.take, throttle_call.release,
          throttle_call.take]
        (fsal_internal_init_global spec_vfs_macros (some { max_fs_calls := 0 })
          (some { behaviors := keep_default_behaviors,
                  values := default_vfs_info spec_vfs_macros })
          (some {}) 0 fresh_globals).2 =
      some (fsal_internal_init_global spec_vfs_macros (some { max_fs_calls := 0 })
          (some { behaviors := keep_default_behaviors,
                  values := default_vfs_info spec_vfs_macros })
          (some {}) 0 fresh_globals).2 :=
  (throttle_disabled_noop
    (fsal_internal_init_global spec_vfs_macros (some { max_fs_calls := 0 })
      (some { behaviors := keep_default_behaviors, values := default_vfs_info spec_vfs_macros })
      (some {}) 0 fresh_globals).2 (by decide) _).2.2

/-! ## Lemmas on the handle resolver -/

theorem closed_fds_append (es fs : List event) :
    closed_fds (es ++ fs) = closed_fds es ++ closed_fds fs := by
  induction es with
  | nil => rfl
  | cons e rest ih =>
    cases e <;> simp [closed_fds, ih]

theorem opened_fds_append (es fs : List event) :
    opened_fds (es ++ fs) = opened_fds es ++ opened_fds fs := by
  induction es with
  | nil => rfl
  | cons e rest ih =>
    cases e with
    | open_by_handle d h f rc =>
      by_cases hrc : rc < 0
      · simp [opened_fds, hrc, ih]
      · simp [opened_fds, hrc, ih]
    | name_to_handle _ _ _ => simp [opened_fds, ih]
    | link_by_fd _ _ _ _ => simp [opened_fds, ih]
    | readlink_by_fd _ _ _ => simp [opened_fds, ih]
    | stat_by_handle _ _ _ => simp [opened_fds, ih]
    | close _ => simp [opened_fds, ih]
    | nbcall _ _ => simp [opened_fds, ih]

theorem fds_after_append (S : Finset Int) (es fs : List event) :
    fds_after S (es ++ fs) = fds_after (fds_after S es) fs := by
  unfold fds_after
  rw [List.foldl_append]

theorem populate_length (b : List Nat) (w : List (Option Nat)) :
    (populate b w).length = b.length := by
  induction b generalizing w with
  | nil => rfl
  | cons x xs ih =>
    cases w with
    | nil => rfl
    | cons y ys => simp [populate, ih]

theorem populate_zero_getD (n : Nat) (w : List (Option Nat)) (i : Nat)
    (hw : w.getD i none = none) :
    (populate (List.replicate n 0) w).getD i 0 = 0 := by
  induction n generalizing w i with
  | zero => simp [populate]
  | succ n ih =>
    cases w with
    | nil =>
      simp only [List.replicate_succ, populate]
      cases i with
      | zero => rfl
      | succ j =>
        simp only [List.getD_cons_succ]
        by_cases hj : j < n
        · simp [List.getD_eq_getElem?_getD, List.getElem?_replicate, hj]
        · simp [List.getD_eq_getElem?_getD, List.getElem?_replicate, hj]
    | cons y ys =>
      simp only [List.replicate_succ, populate]
      cases i with
      | zero =>
        simp only [List.getD_cons_zero] at hw ⊢
        rw [hw]
        rfl
      | succ j =>
        simp only [List.getD_cons_succ] at hw ⊢
        exact ih ys j hw

/-- The open inside the handle operations, when it succeeds: one request, and
the descriptor is stored through `pfd`. -/
theorem handle2fd_open_ok (P : handle_params)
    (hP : P.FSAL_IS_ERROR (ReturnCode ERR_FSAL_NO_ERROR 0) = false)
    (ec : fsal_export_context_t) (h : fsal_handle_t) (fd0 oflags : Int) (reply : ioctl_reply)
    (hrc : 0 ≤ reply.rc) :
    fsal_internal_handle2fd P (some { export_context := some ec }) (some h) (some fd0) oflags
        reply =
      { status := ReturnCode ERR_FSAL_NO_ERROR 0, out := some reply.rc,
        events := [event.open_by_handle ec.mount_root_fd h.data.handle oflags reply.rc] } := by
  have hneg : ¬ reply.rc < 0 := by omega
  simp [fsal_internal_handle2fd, fsal_internal_handle2fd_at, hneg, hP]

/-- The open inside the handle operations, when an argument is absent or the
request fails: the status is an error, and no descriptor is opened or closed. -/
theorem handle2fd_open_failed (P : handle_params) (hP : P.classifies_errors)
    (p_context : Option handle_op_context_t) (p_handle : Option fsal_handle_t)
    (fd0 oflags : Int) (reply : ioctl_reply)
    (hfail : ¬ ∃ ec h, p_context = some { export_context := some ec } ∧ p_handle = some h ∧
      0 ≤ reply.rc) :
    P.FSAL_IS_ERROR (fsal_internal_handle2fd P p_context p_handle (some fd0) oflags
        reply).status = true ∧
    opened_fds (fsal_internal_handle2fd P p_context p_handle (some fd0) oflags reply).events =
      [] ∧
    closed_fds (fsal_internal_handle2fd P p_context p_handle (some fd0) oflags reply).events =
      [] ∧
    ∀ S : Finset Int,
      fds_after S (fsal_internal_handle2fd P p_context p_handle (some fd0) oflags reply).events =
        S := by
  obtain ⟨_, hfault, hcls⟩ := hP
  cases p_handle with
  | none =>
    cases p_context <;> exact ⟨hfault, rfl, rfl, fun _ => rfl⟩
  | some h =>
    cases p_context with
    | none => exact ⟨hfault, rfl, rfl, fun _ => rfl⟩
    | some ctx =>
      cases ctx with
      | mk ex =>
        cases ex with
        | none => exact ⟨hfault, rfl, rfl, fun _ => rfl⟩
        | some ec =>
          have hrc : reply.rc < 0 := by
            by_contra hn
            exact hfail ⟨ec, h, rfl, rfl, by omega⟩
          simp only [fsal_internal_handle2fd, fsal_internal_handle2fd_at, hrc, if_true, hcls,
            ReturnStatus]
          refine ⟨trivial, ?_, ?_, ?_⟩
          · simp [opened_fds, hrc]
          · simp [closed_fds]
          · intro S
            simp [fds_after, fds_step, hrc]

theorem getElem?_of_getD_zero (l : List Nat) (i : Nat) (hi : i < l.length)
    (h : l.getD i 0 = 0) : l[i]? = some 0 := by
  rw [List.getD_eq_getElem?_getD, List.getElem?_eq_getElem hi] at h
  rw [List.getElem?_eq_getElem hi]
  simpa using h

/-- The handle that `fsal_internal_fd2handle` leaves in the output structure. -/
theorem fd2handle_out (P : handle_params) (fd : Int) (h : fsal_handle_t)
    (reply : name_handle_reply) :
    (fsal_internal_fd2handle P fd (some h) reply).out =
      some { data := { handle :=
        { handle_size := reply.size_written.getD P.consts.OPENHANDLE_HANDLE_LEN,
          bytes := populate (List.replicate h.data.handle.bytes.length 0)
            reply.bytes_written } } } ∧
    (fsal_internal_fd2handle P fd (some h) reply).status =
      (if reply.rc < 0 then ReturnCode (P.posix2fsal_error reply.errno) reply.errno
        else ReturnCode ERR_FSAL_NO_ERROR 0) ∧
    (fsal_internal_fd2handle P fd (some h) reply).events =
      [event.name_to_handle fd none reply.rc] := by
  unfold fsal_internal_fd2handle
  by_cases hrc : reply.rc < 0
  · simp [hrc, populate_handle, memset_handle]
  · simp [hrc, populate_handle, memset_handle]

/-- The other operations classify a failed request: when the request fails,
each of them returns the kind that `posix2fsal_error` assigns to `errno`, with
`errno` as minor code, after one request.  (Not so the read-link request of
`fsal_readlink_by_handle`: see `readlink_failure_returns_raw_value`.) -/
theorem failed_request_is_classified (P : handle_params) (ec : fsal_export_context_t)
    (h : fsal_handle_t) (fd0 dirfd srcfd oflags : Int) (path : fsal_path_t) (nm : fsal_name_t)
    (name : String) (st : struct_stat) (r1 : ioctl_reply) (r2 : name_handle_reply)
    (r3 : stat_reply) (h1 : r1.rc < 0) (h2 : r2.rc < 0) (h3 : r3.rc < 0) :
    (fsal_internal_handle2fd_at P dirfd (some h) (some fd0) oflags r1).status =
        ReturnCode (P.posix2fsal_error r1.errno) r1.errno ∧
    (fsal_internal_link_at P srcfd dirfd (some name) r1).status =
        ReturnCode (P.posix2fsal_error r1.errno) r1.errno ∧
    (fsal_internal_get_handle P (some { export_context := some ec }) (some path) (some h)
        r2).status = ReturnCode (P.posix2fsal_error r2.errno) r2.errno ∧
    (fsal_internal_get_handle_at P dirfd (some nm) (some h) r2).status =
        ReturnCode (P.posix2fsal_error r2.errno) r2.errno ∧
    (fsal_internal_fd2handle P dirfd (some h) r2).status =
        ReturnCode (P.posix2fsal_error r2.errno) r2.errno ∧
    (fsal_stat_by_handle P (some { export_context := some ec }) (some h) st r3).status =
        ReturnCode (P.posix2fsal_error r3.errno) r3.errno := by
  simp [fsal_internal_handle2fd_at, fsal_internal_link_at, fsal_internal_get_handle,
    fsal_internal_get_handle_at, fsal_internal_fd2handle, fsal_stat_by_handle, h1, h2, h3]

/-! ## Handle resolver: the claims -/

/-- C16, at the failing input.  In `fsal_readlink_by_handle` with valid
arguments, when the open succeeds (descriptor `fd`) and the read-link request
fails (`ioctl` returns the negative value `-(n+1)` with any `errno`), the
status returned has the raw value returned by `ioctl` as major code and 0 as
minor code, whatever `errno` is and whatever the classifier `posix2fsal_error`
assigns to it.  Each of the two requests is issued once. -/
theorem readlink_failure_returns_raw_value (consts : handle_consts)
    (cls conv : Int → fsal_errors_t) (ec : fsal_export_context_t) (h : fsal_handle_t)
    (buf : List Nat) (fd_local : Int) (fd n : Nat) (e0 e : Int)
    (written : List (Option Nat)) :
    (fsal_readlink_by_handle
        { consts := consts, FSAL_IS_ERROR := is_error_major, posix2fsal_error := cls,
          major_of_int := conv }
        (some { export_context := some ec }) (some h) buf fd_local
        { rc := (fd : Int), errno := e0 }
        { rc := Int.negSucc n, errno := e, bytes_written := written }).status =
      { major := conv (Int.negSucc n), minor := 0 } ∧
    requests (fsal_readlink_by_handle
        { consts := consts, FSAL_IS_ERROR := is_error_major, posix2fsal_error := cls,
          major_of_int := conv }
        (some { export_context := some ec }) (some h) buf fd_local
        { rc := (fd : Int), errno := e0 }
        { rc := Int.negSucc n, errno := e, bytes_written := written }).events =
      [event.open_by_handle ec.mount_root_fd h.data.handle consts.O_RDONLY (fd : Int),
        event.readlink_by_fd (fd : Int) buf.length (Int.negSucc n)] := by
  have hneg : Int.negSucc n < 0 := Int.negSucc_lt_zero n
  unfold fsal_readlink_by_handle
  rw [handle2fd_open_ok _ rfl ec h fd_local _ _ (Int.ofNat_nonneg fd)]
  simp [is_error_major, ReturnCode, Return, hneg, requests, event.is_request, populate_length]

/-- C17 (amended).  When the context or the path is absent,
`fsal_internal_get_handle` returns `ERR_FSAL_FAULT`, issues no request to the
facility and leaves the output handle as it was. -/
theorem get_handle_absent_argument (P : handle_params)
    (p_context : Option handle_op_context_t) (p_fsalpath : Option fsal_path_t)
    (p_handle : Option fsal_handle_t) (reply : name_handle_reply)
    (habsent : p_context = none ∨ p_fsalpath = none) :
    (fsal_internal_get_handle P p_context p_fsalpath p_handle reply).status =
        ReturnCode ERR_FSAL_FAULT 0 ∧
    (fsal_internal_get_handle P p_context p_fsalpath p_handle reply).events = [] ∧
    (fsal_internal_get_handle P p_context p_fsalpath p_handle reply).out = p_handle := by
  rcases habsent with h | h
  · subst h
    exact ⟨rfl, rfl, rfl⟩
  · subst h
    cases p_context <;> cases p_handle <;> exact ⟨rfl, rfl, rfl⟩

/-- A run of `get_handle_absent_argument`: without a path the result is
`ERR_FSAL_FAULT` and the output handle keeps its bytes. -/
theorem get_handle_absent_argument_witness :
    (fsal_internal_get_handle spec_handle_params (some { export_context := none }) none
        (some { data := { handle := { handle_size := 3, bytes := [7, 7, 7] } } })
        { rc := 0, errno := 0, size_written := some 1, bytes_written := [some 9] }).status =
      ReturnCode ERR_FSAL_FAULT 0 ∧
    (fsal_internal_get_handle spec_handle_params (some { export_context := none }) none
        (some { data := { handle := { handle_size := 3, bytes := [7, 7, 7] } } })
        { rc := 0, errno := 0, size_written := some 1, bytes_written := [some 9] }).out =
      some { data := { handle := { handle_size := 3, bytes := [7, 7, 7] } } } :=
  ⟨(get_handle_absent_argument spec_handle_params (some { export_context := none }) none
      (some { data := { handle := { handle_size := 3, bytes := [7, 7, 7] } } })
      { rc := 0, errno := 0, size_written := some 1, bytes_written := [some 9] }
      (Or.inr rfl)).1,
    (get_handle_absent_argument spec_handle_params (some { export_context := none }) none
      (some { data := { handle := { handle_size := 3, bytes := [7, 7, 7] } } })
      { rc := 0, errno := 0, size_written := some 1, bytes_written := [some 9] }
      (Or.inr rfl)).2.2⟩

/-- C17 as stated fails: without a context, `fsal_internal_get_handle` returns
`ERR_FSAL_FAULT`, which is not `ERR_FSAL_INVAL`. -/
theorem get_handle_claim_counterexample :
    (fsal_internal_get_handle spec_handle_params none (some { path := "/export/a" })
        (some { data := { handle := { handle_size := 0, bytes := [0, 0, 0] } } })
        { rc := 0, errno := 0, size_written := none, bytes_written := [] }).status =
      ReturnCode ERR_FSAL_FAULT 0 ∧
    (fsal_internal_get_handle spec_handle_params none (some { path := "/export/a" })
        (some { data := { handle := { handle_size := 0, bytes := [0, 0, 0] } } })
        { rc := 0, errno := 0, size_written := none, bytes_written := [] }).status.major ≠
      ERR_FSAL_INVAL :=
  ⟨rfl, by decide⟩

/-- C18 (amended).  When `name` is absent, `fsal_internal_link_at` returns
`ERR_FSAL_FAULT` for every pair of descriptors and issues no request to the
facility. -/
theorem link_at_absent_name (P : handle_params) (srcfd dirfd : Int) (reply : ioctl_reply) :
    (fsal_internal_link_at P srcfd dirfd none reply).status = ReturnCode ERR_FSAL_FAULT 0 ∧
    (fsal_internal_link_at P srcfd dirfd none reply).events = [] :=
  ⟨rfl, rfl⟩

/-- C18 as stated fails: without a name, `fsal_internal_link_at` returns
`ERR_FSAL_FAULT`, which is not `ERR_FSAL_INVAL`. -/
theorem link_at_claim_counterexample :
    (fsal_internal_link_at spec_handle_params 5 6 none { rc := 0, errno := 0 }).status =
      ReturnCode ERR_FSAL_FAULT 0 ∧
    (fsal_internal_link_at spec_handle_params 5 6 none { rc := 0, errno := 0 }).status.major ≠
      ERR_FSAL_INVAL :=
  ⟨rfl, by decide⟩

/-- C19.  In `fsal_readlink_by_handle`, with a classifier and an error macro
that agree with the spec: when the open succeeds (context, export context and
handle present, the request returns a descriptor), that descriptor is the only
one opened and it is closed exactly once, whether the read-link request
succeeds or fails; when the open fails, no descriptor is opened or closed.  In
both cases the set of open descriptors after the call is the set before it (a
descriptor that the facility returns was not open before). -/
theorem readlink_closes_descriptor (P : handle_params) (hP : P.classifies_errors)
    (p_context : Option handle_op_context_t) (p_handle : Option fsal_handle_t)
    (buf : List Nat) (fd_local : Int) (open_reply : ioctl_reply) (reply : readlink_reply)
    (S : Finset Int) :
    ((∃ ec h, p_context = some { export_context := some ec } ∧ p_handle = some h ∧
        0 ≤ open_reply.rc) →
      opened_fds (fsal_readlink_by_handle P p_context p_handle buf fd_local open_reply
          reply).events = [open_reply.rc] ∧
      closed_fds (fsal_readlink_by_handle P p_context p_handle buf fd_local open_reply
          reply).events = [open_reply.rc] ∧
      (open_reply.rc ∉ S →
        fds_after S (fsal_readlink_by_handle P p_context p_handle buf fd_local open_reply
          reply).events = S)) ∧
    ((¬ ∃ ec h, p_context = some { export_context := some ec } ∧ p_handle = some h ∧
        0 ≤ open_reply.rc) →
      opened_fds (fsal_readlink_by_handle P p_context p_handle buf fd_local open_reply
          reply).events = [] ∧
      closed_fds (fsal_readlink_by_handle P p_context p_handle buf fd_local open_reply
          reply).events = [] ∧
      fds_after S (fsal_readlink_by_handle P p_context p_handle buf fd_local open_reply
          reply).events = S) := by
  constructor
  · rintro ⟨ec, h, hc, hh, hrc⟩
    subst hc
    subst hh
    have hneg : ¬ open_reply.rc < 0 := by omega
    unfold fsal_readlink_by_handle
    rw [handle2fd_open_ok P hP.1 ec h fd_local _ open_reply hrc]
    simp only [hP.1, Bool.false_eq_true, if_false, Option.getD_some]
    by_cases hr : reply.rc < 0
    · simp only [hr, if_true, Return, List.cons_append, List.nil_append]
      refine ⟨?_, ?_, ?_⟩
      · simp [opened_fds, hneg]
      · simp [closed_fds]
      · intro hS
        simp [fds_after, fds_step, hneg, Finset.erase_insert hS]
    · simp only [hr, if_false, List.cons_append, List.nil_append]
      refine ⟨?_, ?_, ?_⟩
      · simp [opened_fds, hneg]
      · simp [closed_fds]
      · intro hS
        simp [fds_after, fds_step, hneg, Finset.erase_insert hS]
  · intro hfail
    obtain ⟨herr, ho, hc, hS⟩ :=
      handle2fd_open_failed P hP p_context p_handle fd_local P.consts.O_RDONLY open_reply hfail
    unfold fsal_readlink_by_handle
    simp only [herr, if_true, ReturnStatus]
    refine ⟨?_, ?_, ?_⟩
    · rw [opened_fds_append, ho]
      rfl
    · rw [closed_fds_append, hc]
      rfl
    · rw [fds_after_append, hS]
      rfl

/-- A run of `readlink_closes_descriptor`: descriptors 0, 1, 2 and 10 are open,
the open returns descriptor 5 and the read-link request fails; descriptor 5 is
closed once and the set of open descriptors is as before. -/
theorem readlink_closes_descriptor_witness :
    closed_fds (fsal_readlink_by_handle spec_handle_params
        (some { export_context := some { mount_root_fd := 10 } })
        (some { data := { handle := { handle_size := 20, bytes := [1, 2, 3] } } })
        [9, 9, 9, 9] 77 { rc := 5, errno := 0 }
        { rc := -1, errno := 2, bytes_written := [] }).events = [5] ∧
    fds_after {0, 1, 2, 10} (fsal_readlink_by_handle spec_handle_params
        (some { export_context := some { mount_root_fd := 10 } })
        (some { data := { handle := { handle_size := 20, bytes := [1, 2, 3] } } })
        [9, 9, 9, 9] 77 { rc := 5, errno := 0 }
        { rc := -1, errno := 2, bytes_written := [] }).events = {0, 1, 2, 10} :=
  ⟨((readlink_closes_descriptor spec_handle_params ⟨rfl, rfl, fun _ => rfl⟩
      (some { export_context := some { mount_root_fd := 10 } })
      (some { data := { handle := { handle_size := 20, bytes := [1, 2, 3] } } })
      [9, 9, 9, 9] 77 { rc := 5, errno := 0 } { rc := -1, errno := 2, bytes_written := [] }
      {0, 1, 2, 10}).1 ⟨_, _, rfl, rfl, by decide⟩).2.1,
    ((readlink_closes_descriptor spec_handle_params ⟨rfl, rfl, fun _ => rfl⟩
      (some { export_context := some { mount_root_fd := 10 } })
      (some { data := { handle := { handle_size := 20, bytes := [1, 2, 3] } } })
      [9, 9, 9, 9] 77 { rc := 5, errno := 0 } { rc := -1, errno := 2, bytes_written := [] }
      {0, 1, 2, 10}).1 ⟨_, _, rfl, rfl, by decide⟩).2.2 (by decide)⟩

/-- C20.  The handle that `fsal_internal_fd2handle` leaves in the output
structure does not depend on what the structure held before: for two initial
contents (of the same structure type, so of the same size), the same descriptor
and the same answer of the facility, the resulting handles, the statuses and
the requests are identical; every byte that the facility does not populate is
zero, and the length field is the one the facility stores, or
`OPENHANDLE_HANDLE_LEN` when it stores none. -/
theorem fd2handle_independent_of_buffer (P : handle_params) (fd : Int)
    (h1 h2 : fsal_handle_t) (reply : name_handle_reply)
    (hsize : h1.data.handle.bytes.length = h2.data.handle.bytes.length) :
    (fsal_internal_fd2handle P fd (some h1) reply).out =
        (fsal_internal_fd2handle P fd (some h2) reply).out ∧
    (fsal_internal_fd2handle P fd (some h1) reply).status =
        (fsal_internal_fd2handle P fd (some h2) reply).status ∧
    (fsal_internal_fd2handle P fd (some h1) reply).events =
        (fsal_internal_fd2handle P fd (some h2) reply).events ∧
    ∃ out : fsal_handle_t,
      (fsal_internal_fd2handle P fd (some h1) reply).out = some out ∧
      out.data.handle.bytes.length = h1.data.handle.bytes.length ∧
      out.data.handle.handle_size = reply.size_written.getD P.consts.OPENHANDLE_HANDLE_LEN ∧
      ∀ i : Nat, i < out.data.handle.bytes.length → reply.bytes_written.getD i none = none →
        out.data.handle.bytes[i]? = some 0 := by
  obtain ⟨ho1, hs1, he1⟩ := fd2handle_out P fd h1 reply
  obtain ⟨ho2, hs2, he2⟩ := fd2handle_out P fd h2 reply
  refine ⟨?_, ?_, ?_, ?_⟩
  · rw [ho1, ho2, hsize]
  · rw [hs1, hs2]
  · rw [he1, he2]
  · refine ⟨_, ho1, ?_, rfl, ?_⟩
    · simp [populate_length]
    · intro i hi hw
      exact getElem?_of_getD_zero _ i hi (populate_zero_getD _ _ i hw)

/-- A run of `fd2handle_independent_of_buffer`: two output structures of three
bytes, one holding 7s and one holding zeros; the facility stores length 2 and
the first two bytes; both calls leave the handle of length 2 with bytes
5, 6, 0. -/
theorem fd2handle_independent_of_buffer_witness :
    (fsal_internal_fd2handle spec_handle_params 5
        (some { data := { handle := { handle_size := 9, bytes := [7, 7, 7] } } })
        { rc := 0, errno := 0, size_written := some 2,
          bytes_written := [some 5, some 6, none] }).out =
      (fsal_internal_fd2handle spec_handle_params 5
        (some { data := { handle := { handle_size := 0, bytes := [0, 0, 0] } } })
        { rc := 0, errno := 0, size_written := some 2,
          bytes_written := [some 5, some 6, none] }).out ∧
    (fsal_internal_fd2handle spec_handle_params 5
        (some { data := { handle := { handle_size := 9, bytes := [7, 7, 7] } } })
        { rc := 0, errno := 0, size_written := some 2,
          bytes_written := [some 5, some 6, none] }).out =
      some { data := { handle := { handle_size := 2, bytes := [5, 6, 0] } } } :=
  ⟨(fd2handle_independent_of_buffer spec_handle_params 5
      { data := { handle := { handle_size := 9, bytes := [7, 7, 7] } } }
      { data := { handle := { handle_size := 0, bytes := [0, 0, 0] } } }
      { rc := 0, errno := 0, size_written := some 2, bytes_written := [some 5, some 6, none] }
      rfl).1, rfl⟩

/-! ## Owner precedence and owner intent -/

theorem owner_triad_bits_of_agree (K : fsal_consts) (mode1 mode2 : Nat)
    (h : owner_triad_agree K mode1 mode2) :
    owner_triad_bits K mode1 = owner_triad_bits K mode2 := by
  obtain ⟨hr, hw, hx⟩ := h
  unfold owner_triad_bits triad_bits
  rw [if_congr hr rfl rfl, if_congr hw rfl rfl, if_congr hx rfl rfl]

/-- The owner-intent flag is still missing after the bits granted by the
owner triad are cleared exactly when the mask contains it, provided it shares
no bit with read, write, execute. -/
theorem owner_flag_survives (K : fsal_consts) (access_type mode : Nat)
    (hdisj : K.FSAL_OWNER_OK &&& (K.FSAL_R_OK ||| K.FSAL_W_OK ||| K.FSAL_X_OK) = 0) :
    clear_flag access_type (owner_triad_bits K mode) &&& K.FSAL_OWNER_OK ≠ 0 ↔
      access_type &&& K.FSAL_OWNER_OK ≠ 0 := by
  rw [and_ne_zero_iff_exists, and_ne_zero_iff_exists]
  constructor
  · rintro ⟨k, h1, h2⟩
    rw [testBit_clear_flag] at h1
    simp only [Bool.and_eq_true] at h1
    exact ⟨k, h1.1, h2⟩
  · rintro ⟨k, h1, h2⟩
    refine ⟨k, ?_, h2⟩
    rw [testBit_clear_flag, h1]
    have h3 := disjoint_testBit _ _ hdisj k h2
    cases h5 : (owner_triad_bits K mode).testBit k with
    | false => rfl
    | true =>
      have h6 := triad_bits_subset K _ _ _ mode k h5
      rw [h3] at h6
      exact Bool.noConfusion h6

/-- Without the owner-intent flag in the mask, none is missing after the
clearing either. -/
theorem owner_flag_absent (K : fsal_consts) (access_type mode : Nat)
    (hO : access_type &&& K.FSAL_OWNER_OK = 0) :
    ¬ (clear_flag access_type (owner_triad_bits K mode) &&& K.FSAL_OWNER_OK ≠ 0) := by
  intro h
  obtain ⟨k, h1, h2⟩ := (and_ne_zero_iff_exists _ _).mp h
  rw [testBit_clear_flag] at h1
  simp only [Bool.and_eq_true] at h1
  exact absurd hO ((and_ne_zero_iff_exists _ _).mpr ⟨k, h1.1, h2⟩)

/-- The result of the check in the owner branch, as a function of the mask and
of the bits granted by the owner triad. -/
theorem owner_branch (K : fsal_consts) (unix2fsal_mode : Nat → Nat)
    (ctx : fsal_op_context_t) (access_type : Nat) (p_buffstat : Option struct_stat)
    (p_object_attributes : Option fsal_attrib_list_t) (m : fsal_attrib_list_t)
    (hmeta : object_metadata unix2fsal_mode p_buffstat p_object_attributes = some m)
    (hroot : ctx.credential.user ≠ 0) (hown : ctx.credential.user = m.owner) :
    fsal_internal_testAccess K unix2fsal_mode (some ctx) access_type p_buffstat
        p_object_attributes =
      if access_type &&& K.FSAL_F_OK ≠ 0 then ReturnCode ERR_FSAL_INVAL 0
      else if clear_flag access_type (owner_triad_bits K m.mode) &&& K.FSAL_OWNER_OK ≠ 0 then
        ReturnCode ERR_FSAL_NO_ERROR 0
      else if clear_flag access_type (owner_triad_bits K m.mode) = 0 then
        ReturnCode ERR_FSAL_NO_ERROR 0
      else ReturnCode ERR_FSAL_ACCESS 0 := by
  rw [testAccess_of_metadata K unix2fsal_mode ctx access_type p_buffstat p_object_attributes m
    hmeta, checks_normal, if_neg hroot, if_pos hown]

/-- C24 (amended).  For a credential that is not the superuser and whose user
id is the owner of the object, the result depends only on the mask and on the
owner triad: two objects of that owner whose modes agree on the owner triad
give the same result, whatever their groups and their group and other triads,
and whatever the groups of the credential.  When the mask contains neither the
existence-only flag nor the owner-intent flag, an owner whose owner triad lacks
a requested bit gets `ERR_FSAL_ACCESS`, even when the group or other triad
grants it. -/
theorem owner_precedence (K : fsal_consts) (unix2fsal_mode : Nat → Nat)
    (ctx1 ctx2 : fsal_op_context_t) (access_type : Nat)
    (p_buffstat1 p_buffstat2 : Option struct_stat)
    (p_object_attributes1 p_object_attributes2 : Option fsal_attrib_list_t)
    (m1 m2 : fsal_attrib_list_t)
    (hmeta1 : object_metadata unix2fsal_mode p_buffstat1 p_object_attributes1 = some m1)
    (hmeta2 : object_metadata unix2fsal_mode p_buffstat2 p_object_attributes2 = some m2)
    (hroot : ctx1.credential.user ≠ 0)
    (huser : ctx1.credential.user = ctx2.credential.user)
    (hown1 : ctx1.credential.user = m1.owner)
    (hown2 : ctx2.credential.user = m2.owner)
    (hagree : owner_triad_agree K m1.mode m2.mode) :
    fsal_internal_testAccess K unix2fsal_mode (some ctx1) access_type p_buffstat1
        p_object_attributes1 =
      fsal_internal_testAccess K unix2fsal_mode (some ctx2) access_type p_buffstat2
        p_object_attributes2 ∧
    (access_type &&& K.FSAL_F_OK = 0 → access_type &&& K.FSAL_OWNER_OK = 0 →
      (∃ k : Nat, access_type.testBit k = true ∧
        (owner_triad_bits K m1.mode).testBit k = false) →
      fsal_internal_testAccess K unix2fsal_mode (some ctx1) access_type p_buffstat1
        p_object_attributes1 = ReturnCode ERR_FSAL_ACCESS 0) := by
  have hroot2 : ctx2.credential.user ≠ 0 := fun h => hroot (huser.trans h)
  have heq := owner_triad_bits_of_agree K m1.mode m2.mode hagree
  constructor
  · rw [owner_branch K unix2fsal_mode ctx1 access_type p_buffstat1 p_object_attributes1 m1
      hmeta1 hroot hown1,
      owner_branch K unix2fsal_mode ctx2 access_type p_buffstat2 p_object_attributes2 m2 hmeta2
      hroot2 hown2, heq]
  · intro hF hO hlack
    have hF1 : ¬ (access_type &&& K.FSAL_F_OK ≠ 0) := fun h => h hF
    have hne : ¬ clear_flag access_type (owner_triad_bits K m1.mode) = 0 := by
      intro hz
      obtain ⟨k, hk, hg⟩ := hlack
      have h1 := (clear_flag_eq_zero_iff _ _).mp hz k hk
      rw [hg] at h1
      exact Bool.noConfusion h1
    rw [owner_branch K unix2fsal_mode ctx1 access_type p_buffstat1 p_object_attributes1 m1
      hmeta1 hroot hown1, if_neg hF1, if_neg (owner_flag_absent K access_type m1.mode hO),
      if_neg hne]

/-- A run of `owner_precedence`: uid 1000 owns two files of modes 0477 and 0400
with different groups and asks to write; both checks give the same result,
`ERR_FSAL_ACCESS`, although the group and other triads of the first file
grant write. -/
theorem owner_precedence_witness :
    fsal_internal_testAccess spec_consts id (some ⟨⟨1000, 100, [5]⟩⟩) 2 none
        (some ⟨1000, 100, 0o477⟩) =
      fsal_internal_testAccess spec_consts id (some ⟨⟨1000, 200, []⟩⟩) 2
        (some ⟨1000, 300, 0o400⟩) none ∧
    fsal_internal_testAccess spec_consts id (some ⟨⟨1000, 100, [5]⟩⟩) 2 none
        (some ⟨1000, 100, 0o477⟩) = ReturnCode ERR_FSAL_ACCESS 0 :=
  ⟨(owner_precedence spec_consts id ⟨⟨1000, 100, [5]⟩⟩ ⟨⟨1000, 200, []⟩⟩ 2 none
      (some ⟨1000, 300, 0o400⟩) (some ⟨1000, 100, 0o477⟩) none ⟨1000, 100, 0o477⟩
      ⟨1000, 300, 0o400⟩ rfl rfl (by decide) rfl rfl rfl (by decide)).1,
    (owner_precedence spec_consts id ⟨⟨1000, 100, [5]⟩⟩ ⟨⟨1000, 200, []⟩⟩ 2 none
      (some ⟨1000, 300, 0o400⟩) (some ⟨1000, 100, 0o477⟩) none ⟨1000, 100, 0o477⟩
      ⟨1000, 300, 0o400⟩ rfl rfl (by decide) rfl rfl rfl (by decide)).2 (by decide)
      (by decide) ⟨1, by decide, by decide⟩⟩

/-- C24 as stated fails in its last part: uid 1000 owns a file of mode 0077,
whose owner triad grants nothing and whose group and other triads grant all,
and asks for read together with the owner-intent flag; the owner triad lacks
the requested read bit, yet the check succeeds. -/
theorem owner_precedence_claim_counterexample :
    ((1000 : Nat) ≠ 0 ∧ (12 : Nat).testBit 2 = true ∧
      spec_consts.FSAL_R_OK.testBit 2 = true ∧
      (owner_triad_bits spec_consts 0o077).testBit 2 = false ∧
      (group_triad_bits spec_consts 0o077).testBit 2 = true) ∧
    fsal_internal_testAccess spec_consts id (some ⟨⟨1000, 100, []⟩⟩) 12 none
      (some ⟨1000, 100, 0o077⟩) = ReturnCode ERR_FSAL_NO_ERROR 0 := by
  refine ⟨⟨by decide, by decide, by decide, by decide, by decide⟩, by decide⟩

/-- C26.  For a credential that is not the superuser and whose user id is the
owner of the object, and a mask that contains the owner-intent flag and not
the existence-only flag, the check succeeds for every mode and whatever other
bits the mask requests (the owner-intent flag sharing no bit with read, write,
execute). -/
theorem owner_intent_succeeds (K : fsal_consts) (unix2fsal_mode : Nat → Nat)
    (ctx : fsal_op_context_t) (access_type : Nat) (p_buffstat : Option struct_stat)
    (p_object_attributes : Option fsal_attrib_list_t) (m : fsal_attrib_list_t)
    (hmeta : object_metadata unix2fsal_mode p_buffstat p_object_attributes = some m)
    (hroot : ctx.credential.user ≠ 0) (hown : ctx.credential.user = m.owner)
    (hF : access_type &&& K.FSAL_F_OK = 0)
    (hO : access_type &&& K.FSAL_OWNER_OK ≠ 0)
    (hdisj : K.FSAL_OWNER_OK &&& (K.FSAL_R_OK ||| K.FSAL_W_OK ||| K.FSAL_X_OK) = 0) :
    fsal_internal_testAccess K unix2fsal_mode (some ctx) access_type p_buffstat
        p_object_attributes = ReturnCode ERR_FSAL_NO_ERROR 0 := by
  have hF1 : ¬ (access_type &&& K.FSAL_F_OK ≠ 0) := fun h => h hF
  rw [owner_branch K unix2fsal_mode ctx access_type p_buffstat p_object_attributes m hmeta hroot
    hown, if_neg hF1, if_pos ((owner_flag_survives K access_type m.mode hdisj).mpr hO)]

/-- A run of `owner_intent_succeeds`: uid 1000 owns a file of mode 0000 and
asks for read, write, execute, the owner-intent flag and a bit that is none of
the five flags (mask 47): success. -/
theorem owner_intent_succeeds_witness :
    ((1000 : Nat) ≠ 0 ∧ 47 &&& spec_consts.FSAL_F_OK = 0 ∧
      47 &&& spec_consts.FSAL_OWNER_OK ≠ 0) ∧
    fsal_internal_testAccess spec_consts id (some ⟨⟨1000, 100, []⟩⟩) 47
      (some ⟨1000, 100, 0⟩) none = ReturnCode ERR_FSAL_NO_ERROR 0 :=
  ⟨⟨by decide, by decide, by decide⟩,
    owner_intent_succeeds spec_consts id ⟨⟨1000, 100, []⟩⟩ 47 (some ⟨1000, 100, 0⟩) none
      ⟨1000, 100, 0⟩ rfl (by decide) rfl (by decide) (by decide) (by decide)⟩

/-! ## Boolean merge, unmerged fields, permits held -/

theorem init_ok_not_overrides (M : vfs_macros) (info : fsal_init_info_t)
    (common : fs_common_initinfo_t) (specific : fs_specific_initinfo_t) (rc : Int)
    (g : fsal_globals)
    (hok : (fsal_internal_init_global M (some info) (some common) (some specific) rc g).1 =
      ReturnCode ERR_FSAL_NO_ERROR 0) :
    ¬ overrides_fixed_field common.behaviors := by
  intro hf
  unfold fsal_internal_init_global at hok
  simp only [hf, if_true] at hok
  split_ifs at hok <;> exact absurd hok (status_ne_of_major_ne _ _ (by decide) _ _)

/-- The table after an initialisation whose configuration overrides no fixed
field: the table before when the semaphore cannot be initialised, otherwise the
defaults merged with the configuration. -/
theorem init_table_of_not_overrides (M : vfs_macros) (info : fsal_init_info_t)
    (common : fs_common_initinfo_t) (specific : fs_specific_initinfo_t) (rc : Int)
    (g : fsal_globals) (hf : ¬ overrides_fixed_field common.behaviors) :
    (fsal_internal_init_global M (some info) (some common) (some specific) rc
        g).2.global_fs_info =
      if info.max_fs_calls > 0 ∧ rc ≠ 0 then g.global_fs_info
      else merge_common_info (default_vfs_info M) common := by
  unfold fsal_internal_init_global
  simp only [hf, if_false]
  by_cases h0 : info.max_fs_calls > 0
  · by_cases hrc : rc ≠ 0
    · simp [h0, hrc]
    · simp [h0, hrc]
  · simp [h0]

/-- C25.  For every default `d` and configured value `v`, the boolean merge
under MinLimit is `d AND v`, the same as under MaxLimit.  After a successful
initialisation each of the five boolean fields holds that merge of its default
with the configured value; so `lock_support`, whose default is false, is false
under MinLimit whatever the configured value. -/
theorem boolean_min_limit_is_and (M : vfs_macros) (info : fsal_init_info_t)
    (common : fs_common_initinfo_t) (specific : fs_specific_initinfo_t) (rc : Int)
    (g : fsal_globals)
    (hok : (fsal_internal_init_global M (some info) (some common) (some specific) rc g).1 =
      ReturnCode ERR_FSAL_NO_ERROR 0) :
    (∀ d v : Bool,
      SET_BOOLEAN_PARAM FSAL_INIT_MIN_LIMIT d v = (d && v) ∧
      SET_BOOLEAN_PARAM FSAL_INIT_MIN_LIMIT d v = SET_BOOLEAN_PARAM FSAL_INIT_MAX_LIMIT d v) ∧
    (fsal_internal_init_global M (some info) (some common) (some specific) rc
        g).2.global_fs_info.symlink_support =
      SET_BOOLEAN_PARAM common.behaviors.symlink_support true common.values.symlink_support ∧
    (fsal_internal_init_global M (some info) (some common) (some specific) rc
        g).2.global_fs_info.link_support =
      SET_BOOLEAN_PARAM common.behaviors.link_support true common.values.link_support ∧
    (fsal_internal_init_global M (some info) (some common) (some specific) rc
        g).2.global_fs_info.lock_support =
      SET_BOOLEAN_PARAM common.behaviors.lock_support false common.values.lock_support ∧
    (fsal_internal_init_global M (some info) (some common) (some specific) rc
        g).2.global_fs_info.cansettime =
      SET_BOOLEAN_PARAM common.behaviors.cansettime true common.values.cansettime ∧
    (fsal_internal_init_global M (some info) (some common) (some specific) rc
        g).2.global_fs_info.auth_exportpath_xdev =
      SET_BOOLEAN_PARAM common.behaviors.auth_exportpath_xdev false
        common.values.auth_exportpath_xdev ∧
    (common.behaviors.lock_support = FSAL_INIT_MIN_LIMIT →
      (fsal_internal_init_global M (some info) (some common) (some specific) rc
        g).2.global_fs_info.lock_support = false) := by
  rw [init_success_table M info common specific rc g hok]
  refine ⟨fun d v => ⟨rfl, rfl⟩, rfl, rfl, rfl, rfl, rfl, ?_⟩
  intro h
  show SET_BOOLEAN_PARAM common.behaviors.lock_support false common.values.lock_support = false
  rw [h]
  rfl

/-- A run of `boolean_min_limit_is_and`: `lock_support` under MinLimit with
configured value true stays false, and `symlink_support` under MinLimit with
configured value false becomes false. -/
theorem boolean_min_limit_is_and_witness :
    (fsal_internal_init_global spec_vfs_macros (some { max_fs_calls := 0 })
        (some { behaviors := { keep_default_behaviors with
                  lock_support := FSAL_INIT_MIN_LIMIT, symlink_support := FSAL_INIT_MIN_LIMIT },
                values := { default_vfs_info spec_vfs_macros with
                  lock_support := true, symlink_support := false } })
        (some {}) 0 fresh_globals).2.global_fs_info.lock_support = false ∧
    (fsal_internal_init_global spec_vfs_macros (some { max_fs_calls := 0 })
        (some { behaviors := { keep_default_behaviors with
                  lock_support := FSAL_INIT_MIN_LIMIT, symlink_support := FSAL_INIT_MIN_LIMIT },
                values := { default_vfs_info spec_vfs_macros with
                  lock_support := true, symlink_support := false } })
        (some {}) 0 fresh_globals).2.global_fs_info.symlink_support = false :=
  ⟨(boolean_min_limit_is_and spec_vfs_macros { max_fs_calls := 0 }
      { behaviors := { keep_default_behaviors with
          lock_support := FSAL_INIT_MIN_LIMIT, symlink_support := FSAL_INIT_MIN_LIMIT },
        values := { default_vfs_info spec_vfs_macros with
          lock_support := true, symlink_support := false } }
      {} 0 fresh_globals (by decide)).2.2.2.2.2.2 rfl,
    (boolean_min_limit_is_and spec_vfs_macros { max_fs_calls := 0 }
      { behaviors := { keep_default_behaviors with
          lock_support := FSAL_INIT_MIN_LIMIT, symlink_support := FSAL_INIT_MIN_LIMIT },
        values := { default_vfs_info spec_vfs_macros with
          lock_support := true, symlink_support := false } }
      {} 0 fresh_globals (by decide)).2.1⟩

/-- C27.  After a successful initialisation, whatever the configuration carries
and whatever the table held before, each of the fifteen fields that are not
merged equals its default; the table is the defaults merged with the
configuration, so any two successful initialisations with the same
configuration leave the same table; and a second initialisation with the same
arguments, whatever `semaphore_init` returns then, leaves the table of the
first. -/
theorem init_unmerged_fields (M : vfs_macros) (info : fsal_init_info_t)
    (common : fs_common_initinfo_t) (specific : fs_specific_initinfo_t) (rc : Int)
    (g : fsal_globals)
    (hok : (fsal_internal_init_global M (some info) (some common) (some specific) rc g).1 =
      ReturnCode ERR_FSAL_NO_ERROR 0) :
    ((fsal_internal_init_global M (some info) (some common) (some specific) rc
          g).2.global_fs_info.maxfilesize = (default_vfs_info M).maxfilesize ∧
      (fsal_internal_init_global M (some info) (some common) (some specific) rc
          g).2.global_fs_info.maxlink = (default_vfs_info M).maxlink ∧
      (fsal_internal_init_global M (some info) (some common) (some specific) rc
          g).2.global_fs_info.maxnamelen = (default_vfs_info M).maxnamelen ∧
      (fsal_internal_init_global M (some info) (some common) (some specific) rc
          g).2.global_fs_info.maxpathlen = (default_vfs_info M).maxpathlen ∧
      (fsal_internal_init_global M (some info) (some common) (some specific) rc
          g).2.global_fs_info.no_trunc = (default_vfs_info M).no_trunc ∧
      (fsal_internal_init_global M (some info) (some common) (some specific) rc
          g).2.global_fs_info.chown_restricted = (default_vfs_info M).chown_restricted ∧
      (fsal_internal_init_global M (some info) (some common) (some specific) rc
          g).2.global_fs_info.case_insensitive = (default_vfs_info M).case_insensitive ∧
      (fsal_internal_init_global M (some info) (some common) (some specific) rc
          g).2.global_fs_info.case_preserving = (default_vfs_info M).case_preserving ∧
      (fsal_internal_init_global M (some info) (some common) (some specific) rc
          g).2.global_fs_info.fh_expire_type = (default_vfs_info M).fh_expire_type ∧
      (fsal_internal_init_global M (some info) (some common) (some specific) rc
          g).2.global_fs_info.named_attr = (default_vfs_info M).named_attr ∧
      (fsal_internal_init_global M (some info) (some common) (some specific) rc
          g).2.global_fs_info.unique_handles = (default_vfs_info M).unique_handles ∧
      (fsal_internal_init_global M (some info) (some common) (some specific) rc
          g).2.global_fs_info.lease_time = (default_vfs_info M).lease_time ∧
      (fsal_internal_init_global M (some info) (some common) (some specific) rc
          g).2.global_fs_info.acl_support = (default_vfs_info M).acl_support ∧
      (fsal_internal_init_global M (some info) (some common) (some specific) rc
          g).2.global_fs_info.homogenous = (default_vfs_info M).homogenous ∧
      (fsal_internal_init_global M (some info) (some common) (some specific) rc
          g).2.global_fs_info.supported_attrs = (default_vfs_info M).supported_attrs) ∧
    (∀ (info2 : fsal_init_info_t) (specific2 : fs_specific_initinfo_t) (rc2 : Int)
        (g2 : fsal_globals),
      (fsal_internal_init_global M (some info2) (some common) (some specific2) rc2 g2).1 =
          ReturnCode ERR_FSAL_NO_ERROR 0 →
        (fsal_internal_init_global M (some info2) (some common) (some specific2) rc2
            g2).2.global_fs_info =
          (fsal_internal_init_global M (some info) (some common) (some specific) rc
            g).2.global_fs_info) ∧
    (∀ rc2 : Int,
      (fsal_internal_init_global M (some info) (some common) (some specific) rc2
          (fsal_internal_init_global M (some info) (some common) (some specific) rc
            g).2).2.global_fs_info =
        (fsal_internal_init_global M (some info) (some common) (some specific) rc
          g).2.global_fs_info) := by
  have hf := init_ok_not_overrides M info common specific rc g hok
  have ht := init_success_table M info common specific rc g hok
  refine ⟨?_, ?_, ?_⟩
  · rw [ht]
    exact ⟨rfl, rfl, rfl, rfl, rfl, rfl, rfl, rfl, rfl, rfl, rfl, rfl, rfl, rfl, rfl⟩
  · intro info2 specific2 rc2 g2 hok2
    rw [ht, init_success_table M info2 common specific2 rc2 g2 hok2]
  · intro rc2
    rw [init_table_of_not_overrides M info common specific rc2 _ hf, ht]
    split_ifs <;> rfl

/-- A run of `init_unmerged_fields`: a configuration that carries 1 as value of
`maxlink` (policy KeepDefault) and forces `umask`, on a fresh process; the
table keeps the default of `maxlink`, and a second initialisation during which
`semaphore_init` fails leaves the same table. -/
theorem init_unmerged_fields_witness :
    (fsal_internal_init_global spec_vfs_macros (some { max_fs_calls := 3 })
        (some { behaviors := { keep_default_behaviors with umask := FSAL_INIT_FORCE_VALUE },
                values := { default_vfs_info spec_vfs_macros with maxlink := 1, umask := 18 } })
        (some {}) 0 fresh_globals).2.global_fs_info.maxlink = 8 ∧
    (fsal_internal_init_global spec_vfs_macros (some { max_fs_calls := 3 })
        (some { behaviors := { keep_default_behaviors with umask := FSAL_INIT_FORCE_VALUE },
                values := { default_vfs_info spec_vfs_macros with maxlink := 1, umask := 18 } })
        (some {}) (-1)
        (fsal_internal_init_global spec_vfs_macros (some { max_fs_calls := 3 })
          (some { behaviors := { keep_default_behaviors with umask := FSAL_INIT_FORCE_VALUE },
                  values := { default_vfs_info spec_vfs_macros with
                    maxlink := 1, umask := 18 } })
          (some {}) 0 fresh_globals).2).2.global_fs_info =
      (fsal_internal_init_global spec_vfs_macros (some { max_fs_calls := 3 })
        (some { behaviors := { keep_default_behaviors with umask := FSAL_INIT_FORCE_VALUE },
                values := { default_vfs_info spec_vfs_macros with maxlink := 1, umask := 18 } })
        (some {}) 0 fresh_globals).2.global_fs_info :=
  ⟨(init_unmerged_fields spec_vfs_macros { max_fs_calls := 3 }
      { behaviors := { keep_default_behaviors with umask := FSAL_INIT_FORCE_VALUE },
        values := { default_vfs_info spec_vfs_macros with maxlink := 1, umask := 18 } }
      {} 0 fresh_globals (by decide)).1.2.1,
    (init_unmerged_fields spec_vfs_macros { max_fs_calls := 3 }
      { behaviors := { keep_default_behaviors with umask := FSAL_INIT_FORCE_VALUE },
        values := { default_vfs_info spec_vfs_macros with maxlink := 1, umask := 18 } }
      {} 0 fresh_globals (by decide)).2.2 (-1)⟩

/-- Along a sequence of throttle calls that all return, starting with the limit
set and `c` free permits, the limit stays set and the free permits are `c`
minus the permits held. -/
theorem run_throttle_permits (cs : List throttle_call) (g g1 : fsal_globals) (c : Nat)
    (hl : g.limit_calls = true) (hs : g.sem_fs_calls = some { count := c })
    (hrun : run_throttle cs g = some g1) :
    g1.limit_calls = true ∧
    ∃ c1 : Nat, g1.sem_fs_calls = some { count := c1 } ∧ (c1 : Int) = (c : Int) - permits_held cs := by
  induction cs generalizing g c with
  | nil =>
    simp only [run_throttle, Option.some.injEq] at hrun
    subst hrun
    exact ⟨hl, c, hs, by simp [permits_held]⟩
  | cons call rest ih =>
    cases call with
    | take =>
      simp only [run_throttle, TakeTokenFSCall, hl, Bool.true_eq_false, if_false, hs,
        semaphore_P] at hrun
      by_cases hc : 0 < c
      · simp only [hc, if_true] at hrun
        obtain ⟨h1, c1, h2, h3⟩ :=
          ih { limit_calls := true, sem_fs_calls := some { count := c - 1 },
               global_fs_info := g.global_fs_info } (c - 1) rfl rfl hrun
        refine ⟨h1, c1, h2, ?_⟩
        simp only [permits_held]
        omega
      · simp [hc] at hrun
    | release =>
      simp only [run_throttle, ReleaseTokenFSCall, hl, Bool.true_eq_false, if_false, hs,
        semaphore_V] at hrun
      obtain ⟨h1, c1, h2, h3⟩ :=
        ih { limit_calls := true, sem_fs_calls := some { count := c + 1 },
             global_fs_info := g.global_fs_info } (c + 1) rfl rfl hrun
      refine ⟨h1, c1, h2, ?_⟩
      simp only [permits_held]
      omega

theorem permits_held_replicate_take (n : Nat) :
    permits_held (List.replicate n throttle_call.take) = (n : Int) := by
  induction n with
  | zero => rfl
  | succ n ih =>
    simp only [List.replicate_succ, permits_held, ih]
    omega

/-- With the limit set and `c` free permits, `n` acquires in a row all return
when `n` is at most `c`, and leave `c - n` free permits. -/
theorem run_takes (n : Nat) (g : fsal_globals) (c : Nat) (hl : g.limit_calls = true)
    (hs : g.sem_fs_calls = some { count := c }) (hn : n ≤ c) :
    run_throttle (List.replicate n throttle_call.take) g =
      some { g with sem_fs_calls := some { count := c - n } } := by
  induction n generalizing g c with
  | zero =>
    simp only [List.replicate_zero, run_throttle, Nat.sub_zero, ← hs]
  | succ n ih =>
    have hc : 0 < c := by omega
    simp only [List.replicate_succ, run_throttle, TakeTokenFSCall, hl, Bool.true_eq_false,
      if_false, hs, semaphore_P, hc, if_true]
    rw [ih { limit_calls := true, sem_fs_calls := some { count := c - 1 },
             global_fs_info := g.global_fs_info } (c - 1) rfl rfl (by omega)]
    have e : c - 1 - n = c - (n + 1) := by omega
    simp [e]

/-- C23.  With throttling enabled with capacity `N`: in every state reached by
a sequence of acquires and releases that have all returned, the limit is still
set, the number of permits held (acquires completed minus releases) is at most
`N`, and the free permits are `N` minus the permits held.  `N` acquires in a
row all return and leave no free permit; in that state a further acquire does
not return, so `N + 1` acquires in a row do not all return; after one release
an acquire returns again. -/
theorem throttle_permits_bounded (N : Nat) (g : fsal_globals)
    (hg : throttle_enabled_with g N) :
    (∀ (cs : List throttle_call) (g1 : fsal_globals), run_throttle cs g = some g1 →
      permits_held cs ≤ (N : Int) ∧ g1.limit_calls = true ∧
      g1.sem_fs_calls = some { count := ((N : Int) - permits_held cs).toNat }) ∧
    run_throttle (List.replicate N throttle_call.take) g =
      some { g with sem_fs_calls := some { count := 0 } } ∧
    TakeTokenFSCall { g with sem_fs_calls := some { count := 0 } } = none ∧
    run_throttle (List.replicate (N + 1) throttle_call.take) g = none ∧
    run_throttle [throttle_call.release, throttle_call.take]
        { g with sem_fs_calls := some { count := 0 } } =
      some { g with sem_fs_calls := some { count := 0 } } := by
  obtain ⟨hl, hs⟩ := hg
  refine ⟨?_, ?_, ?_, ?_, ?_⟩
  · intro cs g1 hrun
    obtain ⟨h1, c1, h2, h3⟩ := run_throttle_permits cs g g1 N hl hs hrun
    refine ⟨by omega, h1, ?_⟩
    rw [h2, ← h3]
    simp
  · have h := run_takes N g N hl hs (Nat.le_refl N)
    simpa using h
  · simp [TakeTokenFSCall, hl, semaphore_P]
  · cases hrun : run_throttle (List.replicate (N + 1) throttle_call.take) g with
    | none => rfl
    | some g1 =>
      obtain ⟨_, c1, _, h3⟩ := run_throttle_permits _ g g1 N hl hs hrun
      rw [permits_held_replicate_take] at h3
      omega
  · simp [run_throttle, ReleaseTokenFSCall, TakeTokenFSCall, hl, semaphore_P, semaphore_V]

/-- A run of `throttle_permits_bounded`: after an initialisation with capacity
2 on a fresh process, two acquires return and three in a row do not. -/
theorem throttle_permits_bounded_witness :
    throttle_enabled_with
      (fsal_internal_init_global spec_vfs_macros (some { max_fs_calls := 2 })
        (some { behaviors := keep_default_behaviors,
                values := default_vfs_info spec_vfs_macros })
        (some {}) 0 fresh_globals).2 2 ∧
    run_throttle [throttle_call.take, throttle_call.take, throttle_call.take]
      (fsal_internal_init_global spec_vfs_macros (some { max_fs_calls := 2 })
        (some { behaviors := keep_default_behaviors,
                values := default_vfs_info spec_vfs_macros })
        (some {}) 0 fresh_globals).2 = none :=
  ⟨⟨rfl, rfl⟩,
    (throttle_permits_bounded 2
      (fsal_internal_init_global spec_vfs_macros (some { max_fs_calls := 2 })
        (some { behaviors := keep_default_behaviors,
                values := default_vfs_info spec_vfs_macros })
        (some {}) 0 fresh_globals).2 ⟨rfl, rfl⟩).2.2.2.1⟩

/-! ## Reports to the statistics and round trip -/

theorem reports_append (es fs : List event) :
    reports (es ++ fs) = reports es ++ reports fs := by
  induction es with
  | nil => rfl
  | cons e rest ih =>
    cases e <;> simp [reports, ih]

/-- The operations that return through `ReturnCode` at every exit make no
report. -/
theorem no_report_operations (P : handle_params) (p_context : Option handle_op_context_t)
    (p_handle : Option fsal_handle_t) (pfd : Option Int) (dirfd srcfd oflags : Int)
    (p_fsalpath : Option fsal_path_t) (p_fsalname : Option fsal_name_t)
    (name : Option String) (st : struct_stat) (r1 : ioctl_reply) (r2 : name_handle_reply)
    (r3 : stat_reply) :
    reports (fsal_internal_handle2fd_at P dirfd p_handle pfd oflags r1).events = [] ∧
    reports (fsal_internal_get_handle P p_context p_fsalpath p_handle r2).events = [] ∧
    reports (fsal_internal_get_handle_at P dirfd p_fsalname p_handle r2).events = [] ∧
    reports (fsal_internal_fd2handle P dirfd p_handle r2).events = [] ∧
    reports (fsal_internal_link_at P srcfd dirfd name r1).events = [] ∧
    reports (fsal_stat_by_handle P p_context p_handle st r3).events = [] := by
  refine ⟨?_, ?_, ?_, ?_, ?_, ?_⟩
  · unfold fsal_internal_handle2fd_at
    cases p_handle <;> cases pfd <;> simp only [] <;> (try split_ifs) <;> rfl
  · unfold fsal_internal_get_handle
    cases p_context <;> cases p_handle <;> cases p_fsalpath <;> simp only [] <;>
      (try split_ifs) <;> rfl
  · unfold fsal_internal_get_handle_at
    cases p_handle <;> cases p_fsalname <;> simp only [] <;> (try split_ifs) <;> rfl
  · unfold fsal_internal_fd2handle
    cases p_handle <;> simp only [] <;> (try split_ifs) <;> rfl
  · unfold fsal_internal_link_at
    cases name <;> simp only [] <;> (try split_ifs) <;> rfl
  · unfold fsal_stat_by_handle
    cases p_handle with
    | none => rfl
    | some h =>
      cases p_context with
      | none => rfl
      | some ctx =>
        cases ctx with
        | mk ex =>
          cases ex <;> simp only [] <;> (try split_ifs) <;> rfl

/-- The reports of `fsal_internal_handle2fd`: none, or one under the open
identifier with the status returned. -/
theorem handle2fd_reports (P : handle_params) (p_context : Option handle_op_context_t)
    (p_handle : Option fsal_handle_t) (pfd : Option Int) (oflags : Int) (reply : ioctl_reply) :
    reports (fsal_internal_handle2fd P p_context p_handle pfd oflags reply).events = [] ∨
    reports (fsal_internal_handle2fd P p_context p_handle pfd oflags reply).events =
      [(P.consts.INDEX_FSAL_open,
        (fsal_internal_handle2fd P p_context p_handle pfd oflags reply).status)] := by
  unfold fsal_internal_handle2fd
  cases p_handle with
  | none => exact Or.inl rfl
  | some h =>
    cases pfd with
    | none => exact Or.inl rfl
    | some fd0 =>
      cases p_context with
      | none => exact Or.inl rfl
      | some ctx =>
        cases ctx with
        | mk ex =>
          cases ex with
          | none => exact Or.inl rfl
          | some ec =>
            simp only []
            split_ifs with h1
            · right
              simp only [ReturnStatus, reports_append,
                (no_report_operations P none (some h) (some fd0) ec.mount_root_fd 0 oflags none
                  none none ⟨0, 0, 0⟩ reply ⟨0, 0, none, []⟩ ⟨0, 0, none⟩).1]
              rfl
            · left
              exact (no_report_operations P none (some h) (some fd0) ec.mount_root_fd 0 oflags
                none none none ⟨0, 0, 0⟩ reply ⟨0, 0, none, []⟩ ⟨0, 0, none⟩).1

/-- When the output structure given to `fsal_internal_get_handle` holds zeros
in its bytes, and the facility answers the request on the descriptor as it
answered the request on the path, `fsal_internal_fd2handle` yields the handle
that `fsal_internal_get_handle` yielded. -/
theorem round_trip_zeroed_buffer (P : handle_params) (ctx : handle_op_context_t)
    (path : fsal_path_t) (h0 h1 : fsal_handle_t) (fd : Int) (reply : name_handle_reply)
    (hzero : h0.data.handle.bytes = List.replicate h1.data.handle.bytes.length 0) :
    (fsal_internal_fd2handle P fd (some h1) reply).out =
      (fsal_internal_get_handle P (some ctx) (some path) (some h0) reply).out := by
  unfold fsal_internal_fd2handle fsal_internal_get_handle
  by_cases hrc : reply.rc < 0
  · simp [hrc, populate_handle, memset_handle, hzero]
  · simp [hrc, populate_handle, memset_handle, hzero]

/-- C22, at the failing input.  The output structure given to
`fsal_internal_get_handle` holds the bytes 7, 7, 7; the facility answers both
requests alike, with length 2 and the two bytes 5, 6, leaving the third byte
unpopulated.  The handle from the path keeps the stale third byte 7; opened
(descriptor 5) and converted back by `fsal_internal_fd2handle`, it yields a
handle whose third byte is 0: the two handles differ. -/
theorem round_trip_stale_bytes :
    (fsal_internal_get_handle spec_handle_params
        (some { export_context := some { mount_root_fd := 10 } }) (some { path := "/export/a" })
        (some { data := { handle := { handle_size := 0, bytes := [7, 7, 7] } } })
        { rc := 0, errno := 0, size_written := some 2,
          bytes_written := [some 5, some 6, none] }).out =
      some { data := { handle := { handle_size := 2, bytes := [5, 6, 7] } } } ∧
    (fsal_internal_handle2fd spec_handle_params
        (some { export_context := some { mount_root_fd := 10 } })
        (some { data := { handle := { handle_size := 2, bytes := [5, 6, 7] } } })
        (some 0) 0 { rc := 5, errno := 0 }).out = some 5 ∧
    (fsal_internal_fd2handle spec_handle_params 5
        (some { data := { handle := { handle_size := 0, bytes := [7, 7, 7] } } })
        { rc := 0, errno := 0, size_written := some 2,
          bytes_written := [some 5, some 6, none] }).out =
      some { data := { handle := { handle_size := 2, bytes := [5, 6, 0] } } } ∧
    ({ data := { handle := { handle_size := 2, bytes := [5, 6, 7] } } } : fsal_handle_t) ≠
      { data := { handle := { handle_size := 2, bytes := [5, 6, 0] } } } := by
  refine ⟨by decide, by decide, by decide, by decide⟩

end FsalVfs
